import Mathlib

/-! Blood Pressure GATT client (`ble_bp_c.c`, `ble_bp_c.h`).

A shallow embedding of the client module: the transmit queue
(`m_tx_buffer`, `m_tx_insert_index`, `m_tx_index`), the client instance
(`ble_bp_c_t`), the event dispatcher `ble_bp_c_on_ble_evt` and the discovery
handler `db_discover_evt_handler`.

Conventions.
* C unsigned integers are natural numbers; where the C code wraps or masks,
  the model does so explicitly.
* The SoftDevice (`sd_ble_gattc_read`, `sd_ble_gattc_write`) and the functions
  called back by the module are outside the module.  Every call the module
  makes to them is recorded, in order, in a list of `Out` records; the answer
  of the SoftDevice to a request is an argument of the modelled function.
-/

namespace BleBpC

/-! ## Constants of the SDK headers -/

/-- Modelled from the spec: `NRF_SUCCESS` comes from the SDK header `nrf_error.h`,
which is not part of the sources at hand; the transport result "Accepted". -/
def NRF_SUCCESS : Nat := 0

/-- Modelled from the spec: `NRF_ERROR_BUSY` comes from the SDK header
`nrf_error.h`, which is not part of the sources at hand; the transport result
"Busy". -/
def NRF_ERROR_BUSY : Nat := 17

/-- Modelled from the spec: `NRF_ERROR_INVALID_STATE` comes from the SDK header
`nrf_error.h`, which is not part of the sources at hand; a transport result
"Error" that is neither "Accepted" nor "Busy". -/
def NRF_ERROR_INVALID_STATE : Nat := 8

/-- Modelled from the spec: `NRF_ERROR_NOT_FOUND` comes from the SDK header
`nrf_error.h`, which is not part of the sources at hand; the result of
`adv_report_parse` when "the data type could not be found" (main.c:666). -/
def NRF_ERROR_NOT_FOUND : Nat := 5

/-- Modelled from the spec: `BLE_GATT_OP_WRITE_REQ` comes from the SDK header
`ble_gatt.h`, which is not part of the sources at hand; the write mode
"request" (as opposed to "unacknowledged"). -/
def BLE_GATT_OP_WRITE_REQ : Nat := 1

/-- Modelled from the spec: `BLE_GATT_HVX_NOTIFICATION` comes from the SDK header
`ble_gatt.h`, which is not part of the sources at hand; the CCCD value that
enables notifications. -/
def BLE_GATT_HVX_NOTIFICATION : Nat := 1

/-- Modelled from the spec: `BLE_GATT_HVX_INDICATION` comes from the SDK header
`ble_gatt.h`, which is not part of the sources at hand; the CCCD value that
enables indications. -/
def BLE_GATT_HVX_INDICATION : Nat := 2

/-- Modelled from the spec: the macro `LSB` comes from the SDK header
`app_util.h`, which is not part of the sources at hand; the low byte of a
16-bit value. -/
def LSB (a : Nat) : Nat := a &&& 0xFF

/-- Modelled from the spec: the macro `MSB` comes from the SDK header
`app_util.h`, which is not part of the sources at hand; the high byte of a
16-bit value. -/
def MSB (a : Nat) : Nat := (a &&& 0xFF00) >>> 8

/-- `#define BLE_CCCD_VALUE_LEN 2` (ble_bp_c.c:18). -/
def BLE_CCCD_VALUE_LEN : Nat := 2

/-- `#define WRITE_MESSAGE_LENGTH BLE_CCCD_VALUE_LEN` (ble_bp_c.c:19). -/
def WRITE_MESSAGE_LENGTH : Nat := BLE_CCCD_VALUE_LEN

/-- `#define TX_BUFFER_MASK 0x07` (ble_bp_c.c:45). -/
def TX_BUFFER_MASK : Nat := 0x07

/-- `#define TX_BUFFER_SIZE (TX_BUFFER_MASK + 1)` (ble_bp_c.c:46). -/
def TX_BUFFER_SIZE : Nat := TX_BUFFER_MASK + 1

/-! ## The transmit queue -/

/-- `tx_request_t` (ble_bp_c.c:20-24); `READ_REQ` is the enumerator 0. -/
inductive tx_request_t
  | READ_REQ
  | WRITE_REQ
  deriving DecidableEq, Repr

/-- The fields of `ble_gattc_write_params_t` that the module assigns
(ble_bp_c.c:145-149).  The pointer `p_value` is always set to the
`gattc_value` of the same queue slot (line 147), so the bytes it points at are
kept in `write_params_t.gattc_value`. -/
structure ble_gattc_write_params_t where
  handle : Nat
  len : Nat
  offset : Nat
  write_op : Nat
  deriving DecidableEq, Repr

/-- `write_params_t` (ble_bp_c.c:28-32). -/
structure write_params_t where
  gattc_value : List Nat
  gattc_params : ble_gattc_write_params_t
  deriving DecidableEq, Repr

/-- `tx_message_t` (ble_bp_c.c:33-42).  The union `req` is kept through its
member `write_req`; the member `read_handle` is read through `read_handle`
below. -/
structure tx_message_t where
  conn_handle : Nat
  type : tx_request_t
  write_req : write_params_t
  deriving DecidableEq, Repr

/-- The union member `req.read_handle`: a `uint16_t` that shares its two bytes
with `req.write_req.gattc_value` (little endian). -/
def tx_message_t.read_handle (m : tx_message_t) : Nat :=
  m.write_req.gattc_value.getD 0 0 + 256 * m.write_req.gattc_value.getD 1 0

/-- A slot of the zero-initialised static array `m_tx_buffer`. -/
def tx_message_zero : tx_message_t :=
  { conn_handle := 0
    type := tx_request_t.READ_REQ
    write_req :=
      { gattc_value := [0, 0]
        gattc_params := { handle := 0, len := 0, offset := 0, write_op := 0 } } }

instance : Inhabited tx_message_t := ⟨tx_message_zero⟩

/-- The file-scope state of the queue (ble_bp_c.c:47-49). -/
structure TxQueue where
  m_tx_buffer : List tx_message_t
  m_tx_insert_index : Nat
  m_tx_index : Nat
  deriving DecidableEq, Repr

/-- The queue at program start: eight zeroed slots, both indices 0. -/
def TxQueue.init : TxQueue :=
  { m_tx_buffer := List.replicate TX_BUFFER_SIZE tx_message_zero
    m_tx_insert_index := 0
    m_tx_index := 0 }

/-- Both indices address one of the eight slots of the array. -/
def TxQueue.WF (q : TxQueue) : Prop :=
  q.m_tx_buffer.length = TX_BUFFER_SIZE ∧
    q.m_tx_insert_index < TX_BUFFER_SIZE ∧ q.m_tx_index < TX_BUFFER_SIZE

instance (q : TxQueue) : Decidable q.WF := by
  unfold TxQueue.WF; infer_instance

/-! ## Events handed to the application -/

/-- `ble_bp_c_evt_type_t` (ble_bp_c.h:29-35).  `BLE_BP_C_EVT_DISCONNECTED` is
used by ble_bp_c.c:234 and by the application handler; its declaration is not
in the header at hand. -/
inductive ble_bp_c_evt_type_t
  | BLE_BP_C_EVT_DISCOVERY_COMPLETE
  | BLE_BP_C_EVT_MEA_NOTIFICATION
  | BLE_BP_C_EVT_CUFF_NOTIFICATION
  | BLE_BP_C_EVT_GOT_VAL
  | BLE_BP_C_EVT_DISCONNECTED
  deriving DecidableEq, Repr

/-- `ble_bp_c_evt_t` (ble_bp_c.h:39-51).  The event is a local variable of the
function that raises it; a slot of `bp_value` that was never assigned is
`none`. -/
structure ble_bp_c_evt_t where
  evt_type : ble_bp_c_evt_type_t
  bp_value : List (Option Nat)
  deriving DecidableEq, Repr

/-- The 19 slots of `params.bp.bp_value` before any assignment. -/
def bp_value_unset : List (Option Nat) := List.replicate 19 none

/-- A value of the function-pointer type `ble_bp_c_evt_handler_t`
(ble_bp_c.h:54): the null pointer, the application function
`bp_c_evt_handler` (declared `extern` at ble_bp_c.c:85, defined at main.c:1186),
or any other function, named by a number. -/
inductive ble_bp_c_evt_handler_t
  | NULL
  | bp_c_evt_handler
  | fn (id : Nat)
  deriving DecidableEq, Repr

/-- `ble_uuid_t`: the 16-bit UUID and its type. -/
structure ble_uuid_t where
  uuid : Nat
  type : Nat
  deriving DecidableEq, Repr

/-- What the module does to the outside, in the order it does it: the two
SoftDevice requests with their answer, a call of an event handler, and the
registration of `db_discover_evt_handler` with the discovery module with its
answer. -/
inductive Out
  | sd_ble_gattc_read (conn_handle handle offset err_code : Nat)
  | sd_ble_gattc_write (conn_handle : Nat) (p_write_params : ble_gattc_write_params_t)
      (p_value : List Nat) (err_code : Nat)
  | call (f : ble_bp_c_evt_handler_t) (p_evt : ble_bp_c_evt_t)
  | ble_db_discovery_evt_register (p_uuid : ble_uuid_t) (err_code : Nat)
  deriving DecidableEq, Repr

/-- The SoftDevice request that `tx_buffer_process` makes for the message `m`
(ble_bp_c.c:60-70), answered with `err_code`. -/
def submit (m : tx_message_t) (err_code : Nat) : Out :=
  if m.type = tx_request_t.READ_REQ then
    Out.sd_ble_gattc_read m.conn_handle m.read_handle 0 err_code
  else
    Out.sd_ble_gattc_write m.conn_handle m.write_req.gattc_params
      m.write_req.gattc_value err_code

/-- `tx_buffer_process` (ble_bp_c.c:51-83).  `err_code` is the answer of the
SoftDevice to the request, if one is made. -/
def tx_buffer_process (err_code : Nat) (q : TxQueue) : TxQueue × List Out :=
  if q.m_tx_index ≠ q.m_tx_insert_index then
    let m := q.m_tx_buffer.getD q.m_tx_index default
    if err_code = NRF_SUCCESS then
      ({ q with m_tx_index := ((q.m_tx_index + 1) % 2 ^ 32) &&& TX_BUFFER_MASK },
        [submit m err_code])
    else
      (q, [submit m err_code])
  else
    (q, [])

/-- The assignments of ble_bp_c.c:145-153 (and 170-178) to the slot `*p_msg`. -/
def cccd_message (old : tx_message_t) (conn_handle handle_cccd cccd_val : Nat) :
    tx_message_t :=
  { old with
    write_req :=
      { gattc_params :=
          { old.write_req.gattc_params with
            handle := handle_cccd
            len := WRITE_MESSAGE_LENGTH
            offset := 0
            write_op := BLE_GATT_OP_WRITE_REQ }
        gattc_value := [LSB cccd_val, MSB cccd_val] }
    conn_handle := conn_handle
    type := tx_request_t.WRITE_REQ }

/-- The common body of `NOTIFICATION_cccd_configure` and
`INDICATION_cccd_configure` once `cccd_val` is known (ble_bp_c.c:142-157):
the returned number is the function's return value. -/
def cccd_configure (cccd_val conn_handle handle_cccd err_code : Nat) (q : TxQueue) :
    (TxQueue × List Out) × Nat :=
  let i := q.m_tx_insert_index
  let q1 : TxQueue :=
    { q with
      m_tx_insert_index := ((i + 1) % 2 ^ 32) &&& TX_BUFFER_MASK
      m_tx_buffer :=
        q.m_tx_buffer.set i
          (cccd_message (q.m_tx_buffer.getD i default) conn_handle handle_cccd cccd_val) }
  (tx_buffer_process err_code q1, NRF_SUCCESS)

/-- `NOTIFICATION_cccd_configure` (ble_bp_c.c:135-158). -/
def NOTIFICATION_cccd_configure (conn_handle handle_cccd : Nat) (enable : Bool)
    (err_code : Nat) (q : TxQueue) : (TxQueue × List Out) × Nat :=
  cccd_configure (if enable then BLE_GATT_HVX_NOTIFICATION else 0)
    conn_handle handle_cccd err_code q

/-- `INDICATION_cccd_configure` (ble_bp_c.c:160-183). -/
def INDICATION_cccd_configure (conn_handle handle_cccd : Nat) (enable : Bool)
    (err_code : Nat) (q : TxQueue) : (TxQueue × List Out) × Nat :=
  cccd_configure (if enable then BLE_GATT_HVX_INDICATION else 0)
    conn_handle handle_cccd err_code q

/-! ## The client instance -/

/-- `#define BLE_BP_MEASUREMENT_HANDLE 0xD` (ble_bp_c.h:21). -/
def BLE_BP_MEASUREMENT_HANDLE : Nat := 0xD

/-- `#define BLE_CUFF_HANDLE 0x10` (ble_bp_c.h:23). -/
def BLE_CUFF_HANDLE : Nat := 0x10

/-- Modelled from the spec: `BLE_CONN_HANDLE_INVALID` comes from the SDK header
`ble_types.h`, which is not part of the sources at hand; the explicit "invalid"
sentinel of a connection reference. -/
def BLE_CONN_HANDLE_INVALID : Nat := 0xFFFF

/-- Modelled from the spec: `BLE_GATT_HANDLE_INVALID` comes from the SDK header
`ble_gatt.h`, which is not part of the sources at hand; the explicit
"unresolved" sentinel of an attribute handle, the handle value 0. -/
def BLE_GATT_HANDLE_INVALID : Nat := 0x0000

/-- Modelled from the spec: `BLE_UUID_TYPE_BLE` comes from the SDK header
`ble_types.h`, which is not part of the sources at hand; the UUID
type/namespace of Bluetooth SIG 16-bit UUIDs. -/
def BLE_UUID_TYPE_BLE : Nat := 0x01

/-- Modelled from the spec: `BLE_UUID_BLOOD_PRESSURE_SERVICE` comes from the SDK
header `ble_srv_common.h`, which is not part of the sources at hand; the UUID of
the target service (ble_bp_c.h:11 gives the same number as
`BLE_UUID_BP_SERVICE`). -/
def BLE_UUID_BLOOD_PRESSURE_SERVICE : Nat := 0x1810

/-- Modelled from the spec: `BLE_UUID_INTERMEDIATE_CUFF_PRESSURE_CHAR` comes from
the SDK header `ble_srv_common.h`, which is not part of the sources at hand; the
UUID of the CUFF role (the number is quoted at ble_bp_c.c:272). -/
def BLE_UUID_INTERMEDIATE_CUFF_PRESSURE_CHAR : Nat := 0x2A36

/-- Modelled from the spec: `BLE_UUID_BLOOD_PRESSURE_MEASUREMENT_CHAR` comes from
the SDK header `ble_srv_common.h`, which is not part of the sources at hand; the
UUID of the MEASUREMENT role (the number is quoted at ble_bp_c.c:273). -/
def BLE_UUID_BLOOD_PRESSURE_MEASUREMENT_CHAR : Nat := 0x2A35

/-- Modelled from the spec: `BLE_UUID_BLOOD_PRESSURE_FEATURE_CHAR` comes from the
SDK header `ble_srv_common.h`, which is not part of the sources at hand; the
UUID of the FEATURE role (the number is quoted at ble_bp_c.c:274). -/
def BLE_UUID_BLOOD_PRESSURE_FEATURE_CHAR : Nat := 0x2A49

/-- Modelled from the spec: `BLE_UUID_HEART_RATE_MEASUREMENT_CHAR` comes from the
SDK header `ble_srv_common.h`, which is not part of the sources at hand; the
UUID of the legacy/compat role. -/
def BLE_UUID_HEART_RATE_MEASUREMENT_CHAR : Nat := 0x2A37

/-- `struct ble_bp_c_s` (ble_bp_c.h:56-68). -/
structure ble_bp_c_t where
  conn_handle : Nat
  bp_CUFF_cccd_handle : Nat
  bp_MEA_cccd_handle : Nat
  bp_CUFF_handle : Nat
  bp_MEA_handle : Nat
  bp_FEA_handle : Nat
  bp_test_handle : Nat
  bp_test_cccd_handle : Nat
  evt_handler : ble_bp_c_evt_handler_t
  deriving DecidableEq, Repr

/-- The seven handle fields of an instance, in the order of the structure. -/
def ble_bp_c_t.handles (s : ble_bp_c_t) : List Nat :=
  [s.bp_CUFF_cccd_handle, s.bp_MEA_cccd_handle, s.bp_CUFF_handle, s.bp_MEA_handle,
    s.bp_FEA_handle, s.bp_test_handle, s.bp_test_cccd_handle]

/-- The part of `ble_gattc_evt_hvx_t` that `on_hvx` reads.  `data` is the memory
that starts at `hvx.data`: the payload is its first `len` bytes, and an index
from `len` on addresses whatever follows the payload. -/
structure ble_gattc_evt_hvx_t where
  handle : Nat
  len : Nat
  data : Nat → Nat

/-- The part of `ble_evt_t` that `ble_bp_c_on_ble_evt` reads: the event
identifier `header.evt_id`, with the members of the union `evt` read under each
identifier.  `other` stands for every identifier that the `switch` of
ble_bp_c.c:223 sends to `default`. -/
inductive ble_evt_t
  | BLE_GAP_EVT_CONNECTED (conn_handle : Nat)
  | BLE_GAP_EVT_DISCONNECTED
  | BLE_GATTC_EVT_HVX (hvx : ble_gattc_evt_hvx_t)
  | BLE_GATTC_EVT_WRITE_RSP
  | other (evt_id : Nat)

/-- The module's state: the instance that the application hands to every
function (and that `mp_ble_bp_c` points at after `ble_bp_c_init`), and the
transmit queue. -/
structure State where
  inst : ble_bp_c_t
  q : TxQueue
  deriving DecidableEq, Repr

/-- `on_hvx` (ble_bp_c.c:86-132).  The `bp_log` calls print only. -/
def on_hvx (p_ble_bp_c : ble_bp_c_t) (hvx : ble_gattc_evt_hvx_t) :
    ble_bp_c_t × List Out :=
  let s1 := { p_ble_bp_c with bp_CUFF_handle := BLE_CUFF_HANDLE }
  let s2 := { s1 with bp_MEA_handle := BLE_BP_MEASUREMENT_HANDLE }
  if hvx.handle = s2.bp_MEA_handle then
    let index := 0
    let bp_value :=
      (List.range 4).foldl
        (fun v ii => v.set ii (some (hvx.data (index + ii) % 256))) bp_value_unset
    (s2, [Out.call ble_bp_c_evt_handler_t.bp_c_evt_handler
            { evt_type := ble_bp_c_evt_type_t.BLE_BP_C_EVT_GOT_VAL, bp_value := bp_value }])
  else
    (s2, [])

/-- `on_write_rsp` (ble_bp_c.c:213-217). -/
def on_write_rsp (err_code : Nat) (q : TxQueue) : TxQueue × List Out :=
  tx_buffer_process err_code q

/-- `ble_bp_c_on_ble_evt` (ble_bp_c.c:220-253).  `err_code` is the answer of the
SoftDevice to the request made while the event is handled, if one is made. -/
def ble_bp_c_on_ble_evt (err_code : Nat) (st : State) : ble_evt_t → State × List Out
  | ble_evt_t.BLE_GAP_EVT_CONNECTED conn_handle =>
      ({ st with inst := { st.inst with conn_handle := conn_handle } }, [])
  | ble_evt_t.BLE_GAP_EVT_DISCONNECTED =>
      (st, [Out.call ble_bp_c_evt_handler_t.bp_c_evt_handler
              { evt_type := ble_bp_c_evt_type_t.BLE_BP_C_EVT_DISCONNECTED
                bp_value := bp_value_unset }])
  | ble_evt_t.BLE_GATTC_EVT_HVX hvx =>
      let r := on_hvx st.inst hvx
      ({ st with inst := r.1 }, r.2)
  | ble_evt_t.BLE_GATTC_EVT_WRITE_RSP =>
      let r := on_write_rsp err_code st.q
      ({ st with q := r.1 }, r.2)
  | ble_evt_t.other _ => (st, [])

/-- `ble_bp_c_cuff_notif_enable` (ble_bp_c.c:185-189). -/
def ble_bp_c_cuff_notif_enable (err_code : Nat) (st : State) : (State × List Out) × Nat :=
  let r := NOTIFICATION_cccd_configure st.inst.conn_handle st.inst.bp_CUFF_cccd_handle true
    err_code st.q
  (({ st with q := r.1.1 }, r.1.2), r.2)

/-- `ble_bp_c_mea_notif_enable` (ble_bp_c.c:191-195). -/
def ble_bp_c_mea_notif_enable (err_code : Nat) (st : State) : (State × List Out) × Nat :=
  let r := INDICATION_cccd_configure st.inst.conn_handle st.inst.bp_MEA_cccd_handle true
    err_code st.q
  (({ st with q := r.1.1 }, r.1.2), r.2)

/-! ## Discovery results -/

/-- The part of `ble_db_discovery_char_t` that the handler reads:
`characteristic.uuid`, `characteristic.handle_value` and `cccd_handle`. -/
structure ble_db_discovery_char_t where
  uuid : ble_uuid_t
  handle_value : Nat
  cccd_handle : Nat
  deriving DecidableEq, Repr

/-- The kinds of discovery event; only `BLE_DB_DISCOVERY_COMPLETE` is named by
the module (ble_bp_c.c:261), `other` stands for every other kind. -/
inductive ble_db_discovery_evt_type_t
  | BLE_DB_DISCOVERY_COMPLETE
  | other (n : Nat)
  deriving DecidableEq, Repr

/-- The part of `ble_db_discovery_evt_t` that the handler reads.
`charateristics` holds the first `char_count` entries of the array of the same
name. -/
structure ble_db_discovery_evt_t where
  evt_type : ble_db_discovery_evt_type_t
  srv_uuid : ble_uuid_t
  charateristics : List ble_db_discovery_char_t
  deriving DecidableEq, Repr

/-- The `for` loop of ble_bp_c.c:270-313 from the entry `chars` starts at. -/
def discover_loop (s : ble_bp_c_t) : List ble_db_discovery_char_t → ble_bp_c_t
  | [] => s
  | c :: rest =>
    if c.uuid.uuid = BLE_UUID_INTERMEDIATE_CUFF_PRESSURE_CHAR then
      { s with bp_CUFF_cccd_handle := c.cccd_handle, bp_CUFF_handle := c.handle_value }
    else if c.uuid.uuid = BLE_UUID_BLOOD_PRESSURE_MEASUREMENT_CHAR then
      { s with bp_MEA_cccd_handle := c.cccd_handle, bp_MEA_handle := c.handle_value }
    else if c.uuid.uuid = BLE_UUID_BLOOD_PRESSURE_FEATURE_CHAR then
      { s with bp_FEA_handle := c.handle_value }
    else if c.uuid.uuid = BLE_UUID_HEART_RATE_MEASUREMENT_CHAR then
      { s with bp_test_cccd_handle := c.cccd_handle, bp_test_handle := c.handle_value }
    else
      discover_loop s rest

/-- `db_discover_evt_handler` (ble_bp_c.c:256-322), on the instance that
`mp_ble_bp_c` points at. -/
def db_discover_evt_handler (mp_ble_bp_c : ble_bp_c_t) (p_evt : ble_db_discovery_evt_t) :
    ble_bp_c_t × List Out :=
  if p_evt.evt_type = ble_db_discovery_evt_type_t.BLE_DB_DISCOVERY_COMPLETE ∧
      p_evt.srv_uuid.uuid = BLE_UUID_BLOOD_PRESSURE_SERVICE ∧
      p_evt.srv_uuid.type = BLE_UUID_TYPE_BLE then
    let s := discover_loop mp_ble_bp_c p_evt.charateristics
    let evt : ble_bp_c_evt_t :=
      { evt_type := ble_bp_c_evt_type_t.BLE_BP_C_EVT_DISCOVERY_COMPLETE
        bp_value := bp_value_unset }
    if s.evt_handler ≠ ble_bp_c_evt_handler_t.NULL then
      (s, [Out.call s.evt_handler evt])
    else
      (s, [])
  else
    (mp_ble_bp_c, [])

/-- `ble_bp_c_init` (ble_bp_c.c:328-350).  `err_code` is the answer of
`ble_db_discovery_evt_register`; the handler registered is always
`db_discover_evt_handler`. -/
def ble_bp_c_init (p_ble_bp_c : ble_bp_c_t) (bp_callback : ble_bp_c_evt_handler_t)
    (err_code : Nat) : (ble_bp_c_t × List Out) × Nat :=
  let bp_uuid : ble_uuid_t := { type := BLE_UUID_TYPE_BLE, uuid := BLE_UUID_BLOOD_PRESSURE_SERVICE }
  let s : ble_bp_c_t :=
    { p_ble_bp_c with
      evt_handler := bp_callback
      conn_handle := BLE_CONN_HANDLE_INVALID
      bp_test_cccd_handle := BLE_GATT_HANDLE_INVALID
      bp_CUFF_cccd_handle := BLE_GATT_HANDLE_INVALID
      bp_CUFF_handle := BLE_GATT_HANDLE_INVALID
      bp_FEA_handle := BLE_GATT_HANDLE_INVALID
      bp_MEA_cccd_handle := BLE_GATT_HANDLE_INVALID
      bp_MEA_handle := BLE_GATT_HANDLE_INVALID
      bp_test_handle := BLE_GATT_HANDLE_INVALID }
  ((s, [Out.ble_db_discovery_evt_register bp_uuid err_code]), err_code)

/-- The four roles a discovered characteristic can have for the module. -/
inductive Role
  | CUFF
  | MEASUREMENT
  | FEATURE
  | LEGACY
  deriving DecidableEq, Repr

/-- The UUID the loop of `db_discover_evt_handler` tests for the role. -/
def Role.uuid : Role → Nat
  | Role.CUFF => BLE_UUID_INTERMEDIATE_CUFF_PRESSURE_CHAR
  | Role.MEASUREMENT => BLE_UUID_BLOOD_PRESSURE_MEASUREMENT_CHAR
  | Role.FEATURE => BLE_UUID_BLOOD_PRESSURE_FEATURE_CHAR
  | Role.LEGACY => BLE_UUID_HEART_RATE_MEASUREMENT_CHAR

/-- The handle fields of the instance that belong to the role: the value handle
and, where the structure has one, the CCCD handle. -/
def Role.recorded (s : ble_bp_c_t) : Role → List Nat
  | Role.CUFF => [s.bp_CUFF_handle, s.bp_CUFF_cccd_handle]
  | Role.MEASUREMENT => [s.bp_MEA_handle, s.bp_MEA_cccd_handle]
  | Role.FEATURE => [s.bp_FEA_handle]
  | Role.LEGACY => [s.bp_test_handle, s.bp_test_cccd_handle]

/-- The handles of the discovered characteristic `c` that the role has fields
for. -/
def Role.reported (c : ble_db_discovery_char_t) : Role → List Nat
  | Role.FEATURE => [c.handle_value]
  | _ => [c.handle_value, c.cccd_handle]

/-! ## Runs of the queue -/

/-- One use of the queue: an enqueue through either configure function, or a
drain trigger, each with the answer the SoftDevice gives during it. -/
inductive Op
  | NOTIFICATION_cccd_configure (conn_handle handle_cccd : Nat) (enable : Bool)
      (err_code : Nat)
  | INDICATION_cccd_configure (conn_handle handle_cccd : Nat) (enable : Bool)
      (err_code : Nat)
  | tx_buffer_process (err_code : Nat)
  deriving DecidableEq, Repr

/-- The effect of one use of the queue. -/
def Op.step (q : TxQueue) : Op → TxQueue × List Out
  | Op.NOTIFICATION_cccd_configure c h e err => (BleBpC.NOTIFICATION_cccd_configure c h e err q).1
  | Op.INDICATION_cccd_configure c h e err => (BleBpC.INDICATION_cccd_configure c h e err q).1
  | Op.tx_buffer_process err => BleBpC.tx_buffer_process err q

/-- The uses `ops` one after the other from the queue `q`: the final queue and
everything done to the outside on the way. -/
def run : List Op → TxQueue → TxQueue × List Out
  | [], q => (q, [])
  | op :: ops, q =>
    let r := op.step q
    let r2 := run ops r.1
    (r2.1, r.2 ++ r2.2)

/-- The message an enqueue stores, `none` for a drain trigger. -/
def Op.entry : Op → Option tx_message_t
  | Op.NOTIFICATION_cccd_configure c h e _ =>
      some (cccd_message tx_message_zero c h (if e then BLE_GATT_HVX_NOTIFICATION else 0))
  | Op.INDICATION_cccd_configure c h e _ =>
      some (cccd_message tx_message_zero c h (if e then BLE_GATT_HVX_INDICATION else 0))
  | Op.tx_buffer_process _ => none

/-- The messages enqueued by `ops`, in the order of the calls. -/
def enqueued (ops : List Op) : List tx_message_t := ops.filterMap Op.entry

/-- Whether the record is a SoftDevice request that was answered `NRF_SUCCESS`. -/
def Out.accepted : Out → Bool
  | Out.sd_ble_gattc_read _ _ _ err => err = NRF_SUCCESS
  | Out.sd_ble_gattc_write _ _ _ err => err = NRF_SUCCESS
  | Out.call _ _ => false
  | Out.ble_db_discovery_evt_register _ _ => false

/-- Whether the record is a SoftDevice request. -/
def Out.isRequest : Out → Bool
  | Out.sd_ble_gattc_read _ _ _ _ => true
  | Out.sd_ble_gattc_write _ _ _ _ => true
  | Out.call _ _ => false
  | Out.ble_db_discovery_evt_register _ _ => false

/-- Whether fewer than `TX_BUFFER_SIZE` messages are pending (enqueued and not
yet accepted) at every moment of `ops`, when `n` messages are pending at its
start. -/
def neverFull : Nat → List Op → Bool
  | _, [] => true
  | n, Op.tx_buffer_process err :: ops =>
      neverFull (if n ≠ 0 ∧ err = NRF_SUCCESS then n - 1 else n) ops
  | n, Op.NOTIFICATION_cccd_configure _ _ _ err :: ops =>
      decide (n + 1 < TX_BUFFER_SIZE) && neverFull (if err = NRF_SUCCESS then n else n + 1) ops
  | n, Op.INDICATION_cccd_configure _ _ _ err :: ops =>
      decide (n + 1 < TX_BUFFER_SIZE) && neverFull (if err = NRF_SUCCESS then n else n + 1) ops

/-- Whether the use is an enqueue during which the SoftDevice refuses the
request. -/
def Op.refusedEnqueue : Op → Bool
  | Op.NOTIFICATION_cccd_configure _ _ _ err => err ≠ NRF_SUCCESS
  | Op.INDICATION_cccd_configure _ _ _ err => err ≠ NRF_SUCCESS
  | Op.tx_buffer_process _ => false

/-- The queue `q` holds the messages `pend`, oldest first, in the slots from the
drain index up to the insert index, and fewer than `TX_BUFFER_SIZE` of them. -/
def Rep (q : TxQueue) (pend : List tx_message_t) : Prop :=
  q.WF ∧ pend.length < TX_BUFFER_SIZE ∧
    q.m_tx_insert_index = (q.m_tx_index + pend.length) % TX_BUFFER_SIZE ∧
    ∀ j m, pend[j]? = some m →
      q.m_tx_buffer[(q.m_tx_index + j) % TX_BUFFER_SIZE]? = some m

/-! ## Runs of the whole module -/

/-- One thing that happens to the module after `ble_bp_c_init`: an event
dispatched to `ble_bp_c_on_ble_evt`, a discovery event handed to
`db_discover_evt_handler`, or one of the two enable calls; `err_code` is the
answer the SoftDevice gives during it. -/
inductive Action
  | ble_evt (err_code : Nat) (p_ble_evt : ble_evt_t)
  | db_discovery_evt (p_evt : ble_db_discovery_evt_t)
  | cuff_notif_enable (err_code : Nat)
  | mea_notif_enable (err_code : Nat)

/-- The effect of one action on the module. -/
def Action.step (st : State) : Action → State × List Out
  | Action.ble_evt err p_ble_evt => ble_bp_c_on_ble_evt err st p_ble_evt
  | Action.db_discovery_evt p_evt =>
      ({ st with inst := (db_discover_evt_handler st.inst p_evt).1 },
        (db_discover_evt_handler st.inst p_evt).2)
  | Action.cuff_notif_enable err => (ble_bp_c_cuff_notif_enable err st).1
  | Action.mea_notif_enable err => (ble_bp_c_mea_notif_enable err st).1

/-- The actions `acts` one after the other from the state `st`: the final state
and everything done to the outside on the way. -/
def exec (acts : List Action) (st : State) : State × List Out :=
  acts.foldl (fun r a => ((a.step r.1).1, r.2 ++ (a.step r.1).2)) (st, [])

/-- The characteristics an action reports to the module: those listed by a
discovery-complete event for the Blood Pressure service, none otherwise. -/
def Action.reported : Action → List ble_db_discovery_char_t
  | Action.db_discovery_evt p_evt =>
      if p_evt.evt_type = ble_db_discovery_evt_type_t.BLE_DB_DISCOVERY_COMPLETE ∧
          p_evt.srv_uuid.uuid = BLE_UUID_BLOOD_PRESSURE_SERVICE ∧
          p_evt.srv_uuid.type = BLE_UUID_TYPE_BLE then p_evt.charateristics
      else []
  | _ => []

/-- Whether the action is a discovery-complete event for the Blood Pressure
service. -/
def Action.isDiscovery (a : Action) : Bool :=
  match a with
  | Action.db_discovery_evt p_evt =>
      decide (p_evt.evt_type = ble_db_discovery_evt_type_t.BLE_DB_DISCOVERY_COMPLETE ∧
        p_evt.srv_uuid.uuid = BLE_UUID_BLOOD_PRESSURE_SERVICE ∧
        p_evt.srv_uuid.type = BLE_UUID_TYPE_BLE)
  | _ => false

/-- Every characteristic reported to the module in the course of `acts`. -/
def seen : List Action → List ble_db_discovery_char_t
  | [] => []
  | a :: acts => a.reported ++ seen acts

/-- The handle `h` is the unresolved sentinel, or one of the constants `consts`,
or what `pick` takes from a characteristic of `cs` whose UUID is `uuid`. -/
def fromRole (cs : List ble_db_discovery_char_t) (uuid : Nat)
    (pick : ble_db_discovery_char_t → Nat) (consts : List Nat) (h : Nat) : Prop :=
  h = BLE_GATT_HANDLE_INVALID ∨ h ∈ consts ∨ ∃ c ∈ cs, c.uuid.uuid = uuid ∧ h = pick c

/-- Where the handle fields of the instance `s` come from, when `cs` are the
characteristics reported so far: each field is unresolved, or was reported for
its own role, or (for the two value handles that `on_hvx` assigns) is the
constant of ble_bp_c.h. -/
def Provenance (cs : List ble_db_discovery_char_t) (s : ble_bp_c_t) : Prop :=
  fromRole cs BLE_UUID_INTERMEDIATE_CUFF_PRESSURE_CHAR (·.cccd_handle) []
      s.bp_CUFF_cccd_handle ∧
    fromRole cs BLE_UUID_BLOOD_PRESSURE_MEASUREMENT_CHAR (·.cccd_handle) []
      s.bp_MEA_cccd_handle ∧
    fromRole cs BLE_UUID_INTERMEDIATE_CUFF_PRESSURE_CHAR (·.handle_value) [BLE_CUFF_HANDLE]
      s.bp_CUFF_handle ∧
    fromRole cs BLE_UUID_BLOOD_PRESSURE_MEASUREMENT_CHAR (·.handle_value)
      [BLE_BP_MEASUREMENT_HANDLE] s.bp_MEA_handle ∧
    fromRole cs BLE_UUID_BLOOD_PRESSURE_FEATURE_CHAR (·.handle_value) [] s.bp_FEA_handle ∧
    fromRole cs BLE_UUID_HEART_RATE_MEASUREMENT_CHAR (·.handle_value) [] s.bp_test_handle ∧
    fromRole cs BLE_UUID_HEART_RATE_MEASUREMENT_CHAR (·.cccd_handle) []
      s.bp_test_cccd_handle

/-! ## Readings of the model used by the properties -/

/-- The indices of `hvx.data` that `on_hvx` reads: those of the loop of
ble_bp_c.c:106-109, entered when the handle is the one the function compares
with (line 96, after the assignment of line 93). -/
def on_hvx_reads (hvx : ble_gattc_evt_hvx_t) : List Nat :=
  if hvx.handle = BLE_BP_MEASUREMENT_HANDLE then
    (List.range 4).map fun ii => 0 + ii
  else
    []

/-- The role whose test in the loop of `db_discover_evt_handler` the 16-bit UUID
`u` passes, in the order of the tests (ble_bp_c.c:275, 284, 293, 303). -/
def Role.ofUuid (u : Nat) : Option Role :=
  if u = BLE_UUID_INTERMEDIATE_CUFF_PRESSURE_CHAR then some Role.CUFF
  else if u = BLE_UUID_BLOOD_PRESSURE_MEASUREMENT_CHAR then some Role.MEASUREMENT
  else if u = BLE_UUID_BLOOD_PRESSURE_FEATURE_CHAR then some Role.FEATURE
  else if u = BLE_UUID_HEART_RATE_MEASUREMENT_CHAR then some Role.LEGACY
  else none

/-- The message is a write request of a 2-byte value with write mode
`BLE_GATT_OP_WRITE_REQ`. -/
def tx_message_t.isCccdWrite (m : tx_message_t) : Prop :=
  m.type = tx_request_t.WRITE_REQ ∧ m.write_req.gattc_params.len = 2 ∧
    m.write_req.gattc_params.write_op = BLE_GATT_OP_WRITE_REQ ∧
    m.write_req.gattc_value.length = 2

/-- The record is a call of `sd_ble_gattc_write` for a 2-byte value with write
mode `BLE_GATT_OP_WRITE_REQ`. -/
def Out.isCccdWrite : Out → Prop
  | Out.sd_ble_gattc_write _ p v _ =>
      p.len = 2 ∧ p.write_op = BLE_GATT_OP_WRITE_REQ ∧ v.length = 2
  | _ => False

/-- Every slot the drain index can reach before it meets the insert index was
filled by an enqueue: either all eight slots were, or the drain index is not
above the insert index and the slots below the insert index were. -/
def FilledAhead (q : TxQueue) : Prop :=
  q.WF ∧
    ((∀ m ∈ q.m_tx_buffer, m.isCccdWrite) ∨
      (q.m_tx_index ≤ q.m_tx_insert_index ∧
        ∀ j m, j < q.m_tx_insert_index → q.m_tx_buffer[j]? = some m → m.isCccdWrite))

/-! ## The advertising report parser of the application (main.c) -/

/-- `data_t` (main.c:149-153): `p_data` is an address, `data_len` a `uint16_t`. -/
structure data_t where
  p_data : Nat
  data_len : Nat
  deriving DecidableEq, Repr

/-- The `while` loop of `adv_report_parse` (main.c:674-687) from the value
`index`, with at most `fuel` runs of its body; `mem` gives the byte at each
address and `type` is the `uint8_t` looked for.  The result is the return
value, the contents of `*p_typedata` and the number of runs of the body;
`none` when `fuel` runs did not end the loop. -/
def adv_report_parse_loop (mem : Nat → Nat) (type : Nat) (p_advdata p_typedata : data_t) :
    Nat → Nat → Option (Nat × data_t × Nat)
  | 0, index =>
    if index < p_advdata.data_len then none
    else some (NRF_ERROR_NOT_FOUND, p_typedata, 0)
  | fuel + 1, index =>
    if index < p_advdata.data_len then
      let field_length := mem (p_advdata.p_data + index) % 256
      let field_type := mem (p_advdata.p_data + (index + 1)) % 256
      if field_type = type then
        some (NRF_SUCCESS,
          { p_data := p_advdata.p_data + (index + 2)
            data_len := (field_length + 65535) % 65536 }, 1)
      else
        (adv_report_parse_loop mem type p_advdata p_typedata fuel
            ((index + (field_length + 1)) % 2 ^ 32)).map
          fun r => (r.1, r.2.1, r.2.2 + 1)
    else some (NRF_ERROR_NOT_FOUND, p_typedata, 0)

/-- `adv_report_parse` (main.c:668-689), with at most `fuel` runs of the loop
body. -/
def adv_report_parse (fuel : Nat) (mem : Nat → Nat) (type : Nat)
    (p_advdata p_typedata : data_t) : Option (Nat × data_t × Nat) :=
  adv_report_parse_loop mem type p_advdata p_typedata fuel 0

/-- One field of an advertising report: its type byte and its data bytes. -/
structure ad_field where
  type : Nat
  data : List Nat
  deriving DecidableEq, Repr

/-- The bytes of a report made of the fields `fs`: for each field the length
byte (1 + number of data bytes), the type byte and the data bytes. -/
def encode : List ad_field → List Nat
  | [] => []
  | f :: fs => (f.data.length + 1) :: f.type :: (f.data ++ encode fs)

/-! ## Concrete inputs -/

/-- The zero-initialised static instance `m_ble_bp_c` of main.c:212. -/
def ble_bp_c_zero : ble_bp_c_t :=
  { conn_handle := 0
    bp_CUFF_cccd_handle := 0
    bp_MEA_cccd_handle := 0
    bp_CUFF_handle := 0
    bp_MEA_handle := 0
    bp_FEA_handle := 0
    bp_test_handle := 0
    bp_test_cccd_handle := 0
    evt_handler := ble_bp_c_evt_handler_t.NULL }

/-- The module after `ble_bp_c_init (&m_ble_bp_c, bp_c_evt_handler)` (main.c:1281). -/
def State.init : State :=
  { inst := (ble_bp_c_init ble_bp_c_zero ble_bp_c_evt_handler_t.bp_c_evt_handler NRF_SUCCESS).1.1
    q := TxQueue.init }

/-- A discovery-complete event for the Blood Pressure service that reports one
characteristic, the measurement, with value handle 0x20 and CCCD handle 0x21. -/
def measurementAt0x20 : ble_db_discovery_evt_t :=
  { evt_type := ble_db_discovery_evt_type_t.BLE_DB_DISCOVERY_COMPLETE
    srv_uuid := { uuid := BLE_UUID_BLOOD_PRESSURE_SERVICE, type := BLE_UUID_TYPE_BLE }
    charateristics :=
      [{ uuid := { uuid := BLE_UUID_BLOOD_PRESSURE_MEASUREMENT_CHAR, type := BLE_UUID_TYPE_BLE }
         handle_value := 0x20
         cccd_handle := 0x21 }] }

/-- The module after initialisation, a connection with handle 0 and the
discovery `measurementAt0x20`. -/
def State.discovered : State :=
  { inst :=
      (db_discover_evt_handler
        (ble_bp_c_on_ble_evt NRF_SUCCESS State.init (ble_evt_t.BLE_GAP_EVT_CONNECTED 0)).1.inst
        measurementAt0x20).1
    q := TxQueue.init }

/-- A value-change event on `handle` with the five payload bytes 1, 2, 3, 4, 5. -/
def hvxSample (handle : Nat) : ble_gattc_evt_hvx_t :=
  { handle := handle, len := 5, data := fun i => [1, 2, 3, 4, 5].getD i 0 }

/-- The module after `ble_bp_c_init` was given a callback other than
`bp_c_evt_handler`. -/
def State.otherCallback : State :=
  { inst := (ble_bp_c_init ble_bp_c_zero (ble_bp_c_evt_handler_t.fn 1) NRF_SUCCESS).1.1
    q := TxQueue.init }

/-- A discovery-complete event for another service (Heart Rate, 0x180D) that
lists a measurement characteristic. -/
def otherService : ble_db_discovery_evt_t :=
  { measurementAt0x20 with srv_uuid := { uuid := 0x180D, type := BLE_UUID_TYPE_BLE } }

/-- A discovery-complete event for the Blood Pressure service that reports the
cuff characteristic twice, with different handles. -/
def cuffTwice : ble_db_discovery_evt_t :=
  { measurementAt0x20 with
    charateristics :=
      [{ uuid := { uuid := BLE_UUID_INTERMEDIATE_CUFF_PRESSURE_CHAR, type := BLE_UUID_TYPE_BLE }
         handle_value := 0x10
         cccd_handle := 0x11 },
       { uuid := { uuid := BLE_UUID_INTERMEDIATE_CUFF_PRESSURE_CHAR, type := BLE_UUID_TYPE_BLE }
         handle_value := 0x30
         cccd_handle := 0x31 }] }

/-- The module after `ble_bp_c_init` was given the null pointer as callback. -/
def State.nullCallback : State :=
  { inst := (ble_bp_c_init ble_bp_c_zero ble_bp_c_evt_handler_t.NULL NRF_SUCCESS).1.1
    q := TxQueue.init }

/-- A discovery-complete event for the Blood Pressure service that reports the
measurement characteristic (handles 0x0D/0x0E) and then the cuff characteristic
(handles 0x10/0x11), the handles of ble_bp_c.h:21-24. -/
def measurementThenCuff : ble_db_discovery_evt_t :=
  { measurementAt0x20 with
    charateristics :=
      [{ uuid := { uuid := BLE_UUID_BLOOD_PRESSURE_MEASUREMENT_CHAR, type := BLE_UUID_TYPE_BLE }
         handle_value := 0x0D
         cccd_handle := 0x0E },
       { uuid := { uuid := BLE_UUID_INTERMEDIATE_CUFF_PRESSURE_CHAR, type := BLE_UUID_TYPE_BLE }
         handle_value := 0x10
         cccd_handle := 0x11 }] }

/-- A discovery-complete event for the Blood Pressure service that reports no
characteristic of any role. -/
def noRole : ble_db_discovery_evt_t :=
  { measurementAt0x20 with
    charateristics :=
      [{ uuid := { uuid := 0x2A00, type := BLE_UUID_TYPE_BLE }
         handle_value := 0x03
         cccd_handle := 0 }] }

/-- An advertising report with two fields: flags (type 0x01, data 0x06) and
the complete list of 16-bit service UUIDs (type 0x03, data 0x10 0x18). -/
def sampleReport : List ad_field :=
  [{ type := 0x01, data := [0x06] }, { type := 0x03, data := [0x10, 0x18] }]

/-- Memory that holds the bytes `bytes` from address 0 on, and 0 elsewhere. -/
def memOf (bytes : List Nat) : Nat → Nat := fun i => bytes.getD i 0

/-- Eight enqueues and two drain triggers: the first request is accepted, all
later ones are refused, so seven messages are pending at the end. -/
def mixedRun : List Op :=
  [Op.NOTIFICATION_cccd_configure 0 0x11 true NRF_SUCCESS,
    Op.INDICATION_cccd_configure 0 0x0E true NRF_ERROR_BUSY,
    Op.tx_buffer_process NRF_ERROR_BUSY,
    Op.NOTIFICATION_cccd_configure 0 0x21 true NRF_ERROR_BUSY,
    Op.NOTIFICATION_cccd_configure 0 0x22 false NRF_ERROR_BUSY,
    Op.INDICATION_cccd_configure 0 0x23 true NRF_ERROR_BUSY,
    Op.tx_buffer_process NRF_ERROR_BUSY,
    Op.NOTIFICATION_cccd_configure 0 0x24 true NRF_ERROR_BUSY,
    Op.INDICATION_cccd_configure 0 0x25 false NRF_ERROR_BUSY,
    Op.NOTIFICATION_cccd_configure 0 0x26 true NRF_ERROR_BUSY]

/-- The module when `ble_bp_c_cuff_notif_enable` was refused once after the
discovery `measurementAt0x20`: one message is pending. -/
def State.onePending : State :=
  (ble_bp_c_cuff_notif_enable NRF_ERROR_BUSY State.discovered).1.1

/-- Eight enqueues that the SoftDevice answers with "busy". -/
def eightRefused : List Op :=
  (List.range 8).map fun i => Op.NOTIFICATION_cccd_configure 0 (0x20 + i) true NRF_ERROR_BUSY


/-! ## The queue: auxiliary facts -/

theorem rep_def (q : TxQueue) (pend : List tx_message_t) :
    Rep q pend ↔
      (q.m_tx_buffer.length = 8 ∧ q.m_tx_insert_index < 8 ∧ q.m_tx_index < 8) ∧
        pend.length < 8 ∧ q.m_tx_insert_index = (q.m_tx_index + pend.length) % 8 ∧
        ∀ j m, pend[j]? = some m → q.m_tx_buffer[(q.m_tx_index + j) % 8]? = some m :=
  Iff.rfl

theorem index_next (i : Nat) (h : i < 8) :
    ((i + 1) % 2 ^ 32) &&& TX_BUFFER_MASK = (i + 1) % 8 := by
  simp only [TX_BUFFER_MASK]
  interval_cases i <;> decide

theorem cccd_message_eq (old : tx_message_t) (c h v : Nat) :
    cccd_message old c h v = cccd_message tx_message_zero c h v := rfl

theorem run_append (a b : List Op) (q : TxQueue) :
    run (a ++ b) q = ((run b (run a q).1).1, (run a q).2 ++ (run b (run a q).1).2) := by
  induction a generalizing q with
  | nil => simp [run]
  | cons op ops ih => simp [run, ih, List.append_assoc]

theorem accepted_submit (m : tx_message_t) (err : Nat) :
    (submit m err).accepted = decide (err = NRF_SUCCESS) := by
  unfold submit
  split <;> rfl

theorem rep_init : Rep TxQueue.init [] := by
  refine ⟨by decide, by decide, by decide, ?_⟩
  intro j m h
  simp at h

theorem rep_drain_nil (err : Nat) (q : TxQueue) (h : Rep q []) :
    tx_buffer_process err q = (q, []) := by
  rw [rep_def] at h
  obtain ⟨⟨_, _, hi⟩, _, hins, _⟩ := h
  simp only [List.length_nil] at hins
  have : q.m_tx_index = q.m_tx_insert_index := by omega
  simp [tx_buffer_process, this]

theorem rep_head (q : TxQueue) (m : tx_message_t) (rest : List tx_message_t)
    (h : Rep q (m :: rest)) :
    q.m_tx_index ≠ q.m_tx_insert_index ∧ q.m_tx_buffer.getD q.m_tx_index default = m := by
  rw [rep_def] at h
  obtain ⟨⟨_, _, hi⟩, hlen, hins, hbuf⟩ := h
  simp only [List.length_cons] at hins hlen
  constructor
  · omega
  · have := hbuf 0 m (by simp)
    rw [Nat.add_zero, Nat.mod_eq_of_lt hi] at this
    simp [List.getD_eq_getElem?_getD, this]

theorem rep_drain_refused (err : Nat) (herr : err ≠ NRF_SUCCESS) (q : TxQueue)
    (m : tx_message_t) (rest : List tx_message_t) (h : Rep q (m :: rest)) :
    tx_buffer_process err q = (q, [submit m err]) := by
  obtain ⟨hne, hm⟩ := rep_head q m rest h
  simp only [tx_buffer_process, hne, hm, herr, ne_eq, not_false_eq_true, if_true, if_false]

theorem rep_drain_accepted (q : TxQueue) (m : tx_message_t) (rest : List tx_message_t)
    (h : Rep q (m :: rest)) :
    (tx_buffer_process NRF_SUCCESS q).2 = [submit m NRF_SUCCESS] ∧
      Rep (tx_buffer_process NRF_SUCCESS q).1 rest := by
  obtain ⟨hne, hm⟩ := rep_head q m rest h
  rw [rep_def] at h
  obtain ⟨⟨hl, hin, hi⟩, hlen, hins, hbuf⟩ := h
  simp only [tx_buffer_process, hne, hm, ne_eq, not_false_eq_true, if_true, true_and]
  rw [index_next _ hi, rep_def]
  simp only [List.length_cons] at hins hlen ⊢
  refine ⟨⟨hl, hin, Nat.mod_lt _ (by norm_num)⟩, by omega, by omega, ?_⟩
  intro j m' hj
  have := hbuf (j + 1) m' (by simpa using hj)
  have e : ((q.m_tx_index + 1) % 8 + j) % 8 = (q.m_tx_index + (j + 1)) % 8 := by omega
  rw [e]; exact this

theorem rep_insert (q : TxQueue) (pend : List tx_message_t) (m : tx_message_t)
    (h : Rep q pend) (hroom : pend.length + 1 < 8) :
    Rep { q with
          m_tx_insert_index := ((q.m_tx_insert_index + 1) % 2 ^ 32) &&& TX_BUFFER_MASK
          m_tx_buffer := q.m_tx_buffer.set q.m_tx_insert_index m } (pend ++ [m]) := by
  rw [rep_def] at h
  obtain ⟨⟨hl, hin, hi⟩, hlen, hins, hbuf⟩ := h
  rw [index_next _ hin, rep_def]
  simp only [List.length_append, List.length_cons, List.length_nil, List.length_set] at hroom ⊢
  refine ⟨⟨hl, Nat.mod_lt _ (by norm_num), hi⟩, by omega, by omega, ?_⟩
  intro j m' hj
  rw [List.getElem?_set]
  by_cases hjl : j < pend.length
  · rw [List.getElem?_append_left hjl] at hj
    have hne : q.m_tx_insert_index ≠ (q.m_tx_index + j) % 8 := by omega
    simp only [hne, if_false]
    exact hbuf j m' hj
  · have hjl2 : pend.length ≤ j := by omega
    rw [List.getElem?_append_right hjl2] at hj
    have hj0 : j - pend.length = 0 := by
      by_contra hc
      have : ([m] : List tx_message_t)[j - pend.length]? = none := by
        apply List.getElem?_eq_none
        simp; omega
      rw [this] at hj; cases hj
    rw [hj0] at hj
    simp only [List.getElem?_cons_zero, Option.some.injEq] at hj
    have he : q.m_tx_insert_index = (q.m_tx_index + j) % 8 := by
      have : j = pend.length := by omega
      rw [this]; exact hins
    simp [he, hj, hl, Nat.mod_lt]

/-- One drain attempt on a queue that holds `pend`: what was accepted is the
head of `pend` or nothing, and the queue holds the rest. -/
theorem rep_drain (err : Nat) (q : TxQueue) (pend : List tx_message_t) (h : Rep q pend) :
    ∃ sent pend', pend = sent ++ pend' ∧
      (tx_buffer_process err q).2.filter Out.accepted = sent.map (submit · NRF_SUCCESS) ∧
      Rep (tx_buffer_process err q).1 pend' ∧
      pend'.length = if pend.length ≠ 0 ∧ err = NRF_SUCCESS then pend.length - 1
        else pend.length := by
  cases pend with
  | nil =>
    refine ⟨[], [], rfl, ?_, ?_, by simp⟩
    · rw [rep_drain_nil err q h]; rfl
    · rw [rep_drain_nil err q h]; exact h
  | cons m rest =>
    by_cases herr : err = NRF_SUCCESS
    · subst herr
      obtain ⟨h1, h2⟩ := rep_drain_accepted q m rest h
      refine ⟨[m], rest, rfl, ?_, h2, by simp⟩
      rw [h1]
      simp [accepted_submit]
    · refine ⟨[], m :: rest, rfl, ?_, ?_, by simp [herr]⟩
      · rw [rep_drain_refused err herr q m rest h]
        simp [accepted_submit, herr]
      · rw [rep_drain_refused err herr q m rest h]; exact h

/-- One enqueue on a queue that holds `pend` and has room for one more. -/
theorem rep_enqueue (v c hd err : Nat) (q : TxQueue) (pend : List tx_message_t)
    (h : Rep q pend) (hroom : pend.length + 1 < 8) :
    ∃ sent pend', pend ++ [cccd_message tx_message_zero c hd v] = sent ++ pend' ∧
      (cccd_configure v c hd err q).1.2.filter Out.accepted = sent.map (submit · NRF_SUCCESS) ∧
      Rep (cccd_configure v c hd err q).1.1 pend' ∧
      pend'.length = if err = NRF_SUCCESS then pend.length else pend.length + 1 := by
  have hins := rep_insert q pend
    (cccd_message (q.m_tx_buffer.getD q.m_tx_insert_index default) c hd v) h hroom
  obtain ⟨sent, pend', h1, h2, h3, h4⟩ := rep_drain err _ _ hins
  refine ⟨sent, pend', ?_, h2, h3, ?_⟩
  · rw [← h1]; rfl
  · rw [h4]; simp

/-- A run that never fills the queue: the accepted requests are a front part of
the pending and enqueued messages, and the queue holds the remaining ones. -/
theorem rep_run (ops : List Op) : ∀ (q : TxQueue) (pend : List tx_message_t),
    Rep q pend → neverFull pend.length ops = true →
    ∃ sent pend', pend ++ enqueued ops = sent ++ pend' ∧
      (run ops q).2.filter Out.accepted = sent.map (submit · NRF_SUCCESS) ∧
      Rep (run ops q).1 pend' := by
  induction ops with
  | nil =>
    intro q pend h _
    exact ⟨[], pend, by simp [enqueued], by simp [run], by simpa [run] using h⟩
  | cons op ops ih =>
    intro q pend h hn
    cases op with
    | tx_buffer_process err =>
      obtain ⟨s1, p1, e1, a1, r1, l1⟩ := rep_drain err q pend h
      simp only [neverFull] at hn
      rw [← l1] at hn
      obtain ⟨s2, p2, e2, a2, r2⟩ := ih _ p1 r1 hn
      refine ⟨s1 ++ s2, p2, ?_, ?_, ?_⟩
      · simp only [enqueued, List.filterMap_cons, Op.entry] at e2 ⊢
        rw [e1, List.append_assoc, e2, List.append_assoc]
      · simp only [run, Op.step, List.filter_append, List.map_append]
        rw [a1, a2]
      · simpa [run, Op.step] using r2
    | NOTIFICATION_cccd_configure c hd e err =>
      simp only [neverFull, Bool.and_eq_true, decide_eq_true_eq, TX_BUFFER_SIZE,
        TX_BUFFER_MASK] at hn
      obtain ⟨s1, p1, e1, a1, r1, l1⟩ :=
        rep_enqueue (if e then BLE_GATT_HVX_NOTIFICATION else 0) c hd err q pend h hn.1
      have hn2 := hn.2
      rw [← l1] at hn2
      obtain ⟨s2, p2, e2, a2, r2⟩ := ih _ p1 r1 hn2
      refine ⟨s1 ++ s2, p2, ?_, ?_, ?_⟩
      · simp only [enqueued, List.filterMap_cons, Op.entry] at e2 ⊢
        rw [List.append_assoc, ← e2, ← List.append_assoc, ← e1]
        simp
      · simp only [run, Op.step, NOTIFICATION_cccd_configure, List.filter_append,
          List.map_append]
        rw [a1, a2]
      · simpa [run, Op.step, NOTIFICATION_cccd_configure] using r2
    | INDICATION_cccd_configure c hd e err =>
      simp only [neverFull, Bool.and_eq_true, decide_eq_true_eq, TX_BUFFER_SIZE,
        TX_BUFFER_MASK] at hn
      obtain ⟨s1, p1, e1, a1, r1, l1⟩ :=
        rep_enqueue (if e then BLE_GATT_HVX_INDICATION else 0) c hd err q pend h hn.1
      have hn2 := hn.2
      rw [← l1] at hn2
      obtain ⟨s2, p2, e2, a2, r2⟩ := ih _ p1 r1 hn2
      refine ⟨s1 ++ s2, p2, ?_, ?_, ?_⟩
      · simp only [enqueued, List.filterMap_cons, Op.entry] at e2 ⊢
        rw [List.append_assoc, ← e2, ← List.append_assoc, ← e1]
        simp
      · simp only [run, Op.step, INDICATION_cccd_configure, List.filter_append,
          List.map_append]
        rw [a1, a2]
      · simpa [run, Op.step, INDICATION_cccd_configure] using r2

/-- Enough accepting drain triggers submit everything the queue holds. -/
theorem rep_flush (n : Nat) : ∀ (q : TxQueue) (pend : List tx_message_t),
    Rep q pend → pend.length ≤ n →
    (run (List.replicate n (Op.tx_buffer_process NRF_SUCCESS)) q).2.filter Out.accepted =
      pend.map (submit · NRF_SUCCESS) := by
  induction n with
  | zero =>
    intro q pend _ hl
    have : pend = [] := List.length_eq_zero.mp (by omega)
    subst this
    simp [run]
  | succ n ih =>
    intro q pend h hl
    cases pend with
    | nil =>
      have hq := rep_drain_nil NRF_SUCCESS q h
      simp only [List.replicate_succ, run, Op.step, hq, List.nil_append, List.map_nil]
      simpa using ih q [] h (by simp)
    | cons m rest =>
      obtain ⟨h1, h2⟩ := rep_drain_accepted q m rest h
      simp only [List.replicate_succ, run, Op.step, List.filter_append, h1, List.map_cons]
      rw [ih _ rest h2 (by simpa using hl)]
      simp [accepted_submit]

/-- A run with at most seven enqueues never fills the queue. -/
theorem neverFull_of_length (ops : List Op) :
    ∀ n, n + (enqueued ops).length < 8 → neverFull n ops = true := by
  induction ops with
  | nil => intro n _; rfl
  | cons op ops ih =>
    intro n hn
    cases op with
    | tx_buffer_process err =>
      simp only [neverFull]
      apply ih
      simp only [enqueued, List.filterMap_cons, Op.entry] at hn ⊢
      split <;> omega
    | NOTIFICATION_cccd_configure c hd e err =>
      simp only [enqueued, List.filterMap_cons, Op.entry, List.length_cons] at hn
      simp only [neverFull, Bool.and_eq_true, decide_eq_true_eq, TX_BUFFER_SIZE, TX_BUFFER_MASK]
      refine ⟨by omega, ih _ ?_⟩
      simp only [enqueued]
      split <;> omega
    | INDICATION_cccd_configure c hd e err =>
      simp only [enqueued, List.filterMap_cons, Op.entry, List.length_cons] at hn
      simp only [neverFull, Bool.and_eq_true, decide_eq_true_eq, TX_BUFFER_SIZE, TX_BUFFER_MASK]
      refine ⟨by omega, ih _ ?_⟩
      simp only [enqueued]
      split <;> omega


theorem drain_buffer (err : Nat) (q : TxQueue) :
    (tx_buffer_process err q).1.m_tx_buffer = q.m_tx_buffer ∧
      (tx_buffer_process err q).1.m_tx_insert_index = q.m_tx_insert_index := by
  unfold tx_buffer_process
  split
  · split <;> exact ⟨rfl, rfl⟩
  · exact ⟨rfl, rfl⟩

theorem drain_refused (err : Nat) (herr : err ≠ NRF_SUCCESS) (q : TxQueue) :
    (tx_buffer_process err q).1 = q ∧
      (tx_buffer_process err q).2.filter Out.accepted = [] := by
  unfold tx_buffer_process
  split
  · simp [herr, accepted_submit]
  · simp

theorem enqueue_refused (v c hd err : Nat) (herr : err ≠ NRF_SUCCESS) (q : TxQueue) :
    (cccd_configure v c hd err q).1.1 =
        { q with
          m_tx_insert_index := ((q.m_tx_insert_index + 1) % 2 ^ 32) &&& TX_BUFFER_MASK
          m_tx_buffer := q.m_tx_buffer.set q.m_tx_insert_index
            (cccd_message tx_message_zero c hd v) } ∧
      (cccd_configure v c hd err q).1.2.filter Out.accepted = [] := by
  unfold cccd_configure
  exact drain_refused err herr _

theorem refused_step (op : Op) (href : op.refusedEnqueue = true) (q : TxQueue) :
    ∃ m, op.entry = some m ∧
      (op.step q).1 =
        { q with
          m_tx_insert_index := ((q.m_tx_insert_index + 1) % 2 ^ 32) &&& TX_BUFFER_MASK
          m_tx_buffer := q.m_tx_buffer.set q.m_tx_insert_index m } ∧
      (op.step q).2.filter Out.accepted = [] := by
  cases op with
  | tx_buffer_process err => simp [Op.refusedEnqueue] at href
  | NOTIFICATION_cccd_configure c hd e err =>
    have herr : err ≠ NRF_SUCCESS := by simpa [Op.refusedEnqueue] using href
    exact ⟨_, rfl, enqueue_refused _ c hd err herr q⟩
  | INDICATION_cccd_configure c hd e err =>
    have herr : err ≠ NRF_SUCCESS := by simpa [Op.refusedEnqueue] using href
    exact ⟨_, rfl, enqueue_refused _ c hd err herr q⟩

/-- Enqueues that are all refused, from a queue whose first slots hold `pre` and
whose drain index is 0: the slots fill up in order and nothing is accepted. -/
theorem refused_run (ops : List Op) : ∀ (q : TxQueue) (pre : List tx_message_t),
    (∀ op ∈ ops, op.refusedEnqueue = true) → pre.length + ops.length ≤ 8 →
    q.m_tx_index = 0 → q.m_tx_insert_index = pre.length % 8 →
    q.m_tx_buffer = pre ++ List.replicate (8 - pre.length) tx_message_zero →
    (run ops q).1.m_tx_index = 0 ∧
      (run ops q).1.m_tx_insert_index = (pre.length + ops.length) % 8 ∧
      (run ops q).1.m_tx_buffer =
        pre ++ enqueued ops ++ List.replicate (8 - pre.length - ops.length) tx_message_zero ∧
      (run ops q).2.filter Out.accepted = [] := by
  induction ops with
  | nil =>
    intro q pre _ _ h0 hi hb
    simp [run, enqueued, h0, hi, hb]
  | cons op ops ih =>
    intro q pre href hlen h0 hi hb
    simp only [List.length_cons] at hlen
    have hk : pre.length < 8 := by omega
    obtain ⟨m, hm, hq, ha⟩ := refused_step op (href op (by simp)) q
    rw [Nat.mod_eq_of_lt hk] at hi
    have hset : q.m_tx_buffer.set q.m_tx_insert_index m =
        (pre ++ [m]) ++ List.replicate (8 - (pre ++ [m]).length) tx_message_zero := by
      have h8 : 8 - pre.length = (8 - (pre.length + 1)) + 1 := by omega
      rw [hb, hi, h8, List.replicate_succ, List.length_append, List.length_singleton]
      simp [List.set_append]
    have := ih (op.step q).1 (pre ++ [m]) (fun o ho => href o (by simp [ho]))
      (by simp; omega) (by rw [hq]; exact h0)
      (by rw [hq]; simp only [List.length_append, List.length_singleton]
          rw [hi]; exact index_next _ hk)
      (by rw [hq]; exact hset)
    obtain ⟨r1, r2, r3, r4⟩ := this
    simp only [List.length_append, List.length_singleton] at r2 r3
    have e1 : pre.length + 1 + ops.length = pre.length + (ops.length + 1) := by omega
    have e2 : 8 - (pre.length + 1) - ops.length = 8 - pre.length - (ops.length + 1) := by
      omega
    rw [e1] at r2
    rw [e2] at r3
    simp only [run, List.filter_append, ha, List.nil_append, List.length_cons]
    refine ⟨r1, r2, ?_, r4⟩
    rw [r3]
    simp [enqueued, List.filterMap_cons, hm]

/-! ## The queue: properties -/

/-- C1 (as amended): in every run of enqueue calls and drain triggers on the
initially empty queue during which fewer than eight messages are pending at any
moment (so in every run with at most seven enqueue calls), whatever the
SoftDevice answers, the requests it accepts are the enqueued messages in the
order of their enqueue calls, without gaps; and once as many further drain
triggers as there are pending messages have met an accepting SoftDevice, every
enqueued message has been submitted. -/
theorem fifo_drain (ops : List Op) (h : neverFull 0 ops = true) :
    (∃ n, (run ops TxQueue.init).2.filter Out.accepted =
        ((enqueued ops).map (submit · NRF_SUCCESS)).take n) ∧
      ∀ n, (enqueued ops).length - ((run ops TxQueue.init).2.filter Out.accepted).length ≤ n →
        (run (ops ++ List.replicate n (Op.tx_buffer_process NRF_SUCCESS))
            TxQueue.init).2.filter Out.accepted =
          (enqueued ops).map (submit · NRF_SUCCESS) := by
  obtain ⟨sent, pend, e, a, r⟩ := rep_run ops TxQueue.init [] rep_init h
  simp only [List.nil_append] at e
  constructor
  · exact ⟨sent.length, by rw [a, e]; simp⟩
  · intro n hn
    rw [run_append, List.filter_append, a, e, List.map_append]
    congr 1
    apply rep_flush n _ pend r
    rw [a, e] at hn
    simp at hn
    exact hn

/-- C1, the claim as stated, fails for eight enqueue calls that are all refused:
afterwards no number of accepting drain triggers submits any of the eight
messages. -/
theorem fifo_drain_eight_refused :
    (enqueued eightRefused).length = 8 ∧
      ¬ ∃ n, (run (eightRefused ++ List.replicate n (Op.tx_buffer_process NRF_SUCCESS))
          TxQueue.init).2.filter Out.accepted =
        (enqueued eightRefused).map (submit · NRF_SUCCESS) := by
  refine ⟨by decide, ?_⟩
  rintro ⟨n, hn⟩
  have hrep : Rep (run eightRefused TxQueue.init).1 [] := by
    refine ⟨by decide, by decide, by decide, ?_⟩
    intro j m h
    simp at h
  have h0 : (run eightRefused TxQueue.init).2.filter Out.accepted = [] := by decide
  rw [run_append, List.filter_append, h0, rep_flush n _ [] hrep (by simp)] at hn
  revert hn
  decide


/-- Witness for C1: the run `mixedRun`, with eight enqueue calls of
which the first is accepted at once. -/
theorem fifo_drain_witness :
    neverFull 0 mixedRun = true ∧
      ((∃ n, (run mixedRun TxQueue.init).2.filter Out.accepted =
          ((enqueued mixedRun).map (submit · NRF_SUCCESS)).take n) ∧
        ∀ n, (enqueued mixedRun).length -
            ((run mixedRun TxQueue.init).2.filter Out.accepted).length ≤ n →
          (run (mixedRun ++ List.replicate n (Op.tx_buffer_process NRF_SUCCESS))
              TxQueue.init).2.filter Out.accepted =
            (enqueued mixedRun).map (submit · NRF_SUCCESS)) :=
  ⟨by decide, fifo_drain mixedRun (by decide)⟩

/-- C2: when `tx_buffer_process` runs on a queue whose drain index differs from
its insert index and the SoftDevice refuses the request (answers anything but
`NRF_SUCCESS`, "busy" included), the queue is left as it was, drain index and
slots included; the one request made was for the message at the drain index;
and a `BLE_GATTC_EVT_WRITE_RSP` event dispatched next makes exactly one request,
for that same message: same connection handle, same write parameters, same
value bytes. -/
theorem busy_retry (st : State) (err err2 : Nat) (hwf : st.q.WF)
    (hne : st.q.m_tx_index ≠ st.q.m_tx_insert_index) (herr : err ≠ NRF_SUCCESS) :
    ∃ m, st.q.m_tx_buffer[st.q.m_tx_index]? = some m ∧
      tx_buffer_process err st.q = (st.q, [submit m err]) ∧
      (ble_bp_c_on_ble_evt err2 { st with q := (tx_buffer_process err st.q).1 }
          ble_evt_t.BLE_GATTC_EVT_WRITE_RSP).2 = [submit m err2] := by
  obtain ⟨hl, _, hi⟩ := hwf
  have hlt : st.q.m_tx_index < st.q.m_tx_buffer.length := by rw [hl]; exact hi
  refine ⟨st.q.m_tx_buffer[st.q.m_tx_index], List.getElem?_eq_getElem hlt, ?_, ?_⟩
  · simp [tx_buffer_process, hne, herr, List.getD_eq_getElem?_getD, List.getElem?_eq_getElem hlt]
  · by_cases h2 : err2 = NRF_SUCCESS <;>
      simp [ble_bp_c_on_ble_evt, on_write_rsp, tx_buffer_process, hne, herr, h2,
        List.getD_eq_getElem?_getD, List.getElem?_eq_getElem hlt]

/-- Witness for C2: the state with one pending message, a "busy" answer
and then an accepting one. -/
theorem busy_retry_witness :
    State.onePending.q.WF ∧
      State.onePending.q.m_tx_index ≠ State.onePending.q.m_tx_insert_index ∧
      NRF_ERROR_BUSY ≠ NRF_SUCCESS ∧
      ∃ m, State.onePending.q.m_tx_buffer[State.onePending.q.m_tx_index]? = some m ∧
        tx_buffer_process NRF_ERROR_BUSY State.onePending.q =
          (State.onePending.q, [submit m NRF_ERROR_BUSY]) ∧
        (ble_bp_c_on_ble_evt NRF_SUCCESS
            { State.onePending with
              q := (tx_buffer_process NRF_ERROR_BUSY State.onePending.q).1 }
            ble_evt_t.BLE_GATTC_EVT_WRITE_RSP).2 = [submit m NRF_SUCCESS] :=
  ⟨by decide, by decide, by decide,
    busy_retry State.onePending NRF_ERROR_BUSY NRF_SUCCESS (by decide) (by decide) (by decide)⟩

/-- C9: from the empty queue, after eight enqueue calls during which the
SoftDevice refuses every request, nothing was accepted, the eight slots hold the
eight messages in the order of the calls (slot 0 the oldest) and both indices
are 0; a further enqueue call, through either configure function, returns
`NRF_SUCCESS` and stores its message in slot 0, in the place of the oldest
unsent message, leaving the other seven slots as they were. -/
theorem overflow_overwrites (ops : List Op) (hlen : ops.length = 8)
    (href : ∀ op ∈ ops, op.refusedEnqueue = true) (c hd : Nat) (e : Bool) (err : Nat)
    (herr : err ≠ NRF_SUCCESS) :
    (run ops TxQueue.init).2.filter Out.accepted = [] ∧
      (run ops TxQueue.init).1.m_tx_buffer = enqueued ops ∧
      (run ops TxQueue.init).1.m_tx_index = 0 ∧
      (run ops TxQueue.init).1.m_tx_insert_index = 0 ∧
      (NOTIFICATION_cccd_configure c hd e err (run ops TxQueue.init).1).2 = NRF_SUCCESS ∧
      (NOTIFICATION_cccd_configure c hd e err (run ops TxQueue.init).1).1.1.m_tx_buffer =
        (enqueued ops).set 0
          (cccd_message tx_message_zero c hd (if e then BLE_GATT_HVX_NOTIFICATION else 0)) ∧
      (INDICATION_cccd_configure c hd e err (run ops TxQueue.init).1).2 = NRF_SUCCESS ∧
      (INDICATION_cccd_configure c hd e err (run ops TxQueue.init).1).1.1.m_tx_buffer =
        (enqueued ops).set 0
          (cccd_message tx_message_zero c hd (if e then BLE_GATT_HVX_INDICATION else 0)) := by
  obtain ⟨r1, r2, r3, r4⟩ := refused_run ops TxQueue.init [] href (by simp [hlen]) rfl rfl rfl
  simp only [List.length_nil, hlen, List.nil_append] at r2 r3
  have r3b : (run ops TxQueue.init).1.m_tx_buffer = enqueued ops := by
    rw [r3]; simp
  have r2b : (run ops TxQueue.init).1.m_tx_insert_index = 0 := by rw [r2]
  refine ⟨r4, r3b, r1, r2b, rfl, ?_, rfl, ?_⟩
  · have := (enqueue_refused (if e then BLE_GATT_HVX_NOTIFICATION else 0) c hd err herr
      (run ops TxQueue.init).1).1
    unfold NOTIFICATION_cccd_configure
    rw [this, r3b, r2b]
  · have := (enqueue_refused (if e then BLE_GATT_HVX_INDICATION else 0) c hd err herr
      (run ops TxQueue.init).1).1
    unfold INDICATION_cccd_configure
    rw [this, r3b, r2b]

/-- Witness for C9: the eight refused enqueues `eightRefused`
and a ninth one for the CCCD handle 0x99. -/
theorem overflow_overwrites_witness :
    eightRefused.length = 8 ∧ (∀ op ∈ eightRefused, op.refusedEnqueue = true) ∧
      NRF_ERROR_BUSY ≠ NRF_SUCCESS ∧
      ((run eightRefused TxQueue.init).2.filter Out.accepted = [] ∧
      (run eightRefused TxQueue.init).1.m_tx_buffer = enqueued eightRefused ∧
      (run eightRefused TxQueue.init).1.m_tx_index = 0 ∧
      (run eightRefused TxQueue.init).1.m_tx_insert_index = 0 ∧
      (NOTIFICATION_cccd_configure 0 0x99 true NRF_ERROR_BUSY
          (run eightRefused TxQueue.init).1).2 = NRF_SUCCESS ∧
      (NOTIFICATION_cccd_configure 0 0x99 true NRF_ERROR_BUSY
          (run eightRefused TxQueue.init).1).1.1.m_tx_buffer =
        (enqueued eightRefused).set 0
          (cccd_message tx_message_zero 0 0x99
            (if true = true then BLE_GATT_HVX_NOTIFICATION else 0)) ∧
      (INDICATION_cccd_configure 0 0x99 true NRF_ERROR_BUSY
          (run eightRefused TxQueue.init).1).2 = NRF_SUCCESS ∧
      (INDICATION_cccd_configure 0 0x99 true NRF_ERROR_BUSY
          (run eightRefused TxQueue.init).1).1.1.m_tx_buffer =
        (enqueued eightRefused).set 0
          (cccd_message tx_message_zero 0 0x99
            (if true = true then BLE_GATT_HVX_INDICATION else 0))) :=
  ⟨by decide, by decide, by decide,
    overflow_overwrites eightRefused (by decide) (by decide) 0 0x99 true NRF_ERROR_BUSY
      (by decide)⟩

/-- C10: `ble_bp_c_cuff_notif_enable` changes the queue's slots in exactly one
place, the slot at the insert index, where it stores a `WRITE_REQ` message with
the instance's `conn_handle`, the instance's CUFF CCCD handle as target, length
2, offset 0, write mode `BLE_GATT_OP_WRITE_REQ` and value bytes `[0x01, 0x00]`,
and it advances the insert index by one modulo 8; `ble_bp_c_mea_notif_enable`
does the same with the MEASUREMENT CCCD handle and the value bytes
`[0x02, 0x00]`.  Both return `NRF_SUCCESS` and leave the instance as it was. -/
theorem cccd_write_encoding (st : State) (err : Nat) (hwf : st.q.WF) :
    ((ble_bp_c_cuff_notif_enable err st).1.1.q.m_tx_buffer =
        st.q.m_tx_buffer.set st.q.m_tx_insert_index
          { conn_handle := st.inst.conn_handle
            type := tx_request_t.WRITE_REQ
            write_req :=
              { gattc_value := [0x01, 0x00]
                gattc_params :=
                  { handle := st.inst.bp_CUFF_cccd_handle
                    len := 2
                    offset := 0
                    write_op := BLE_GATT_OP_WRITE_REQ } } } ∧
      (ble_bp_c_cuff_notif_enable err st).1.1.q.m_tx_insert_index =
        (st.q.m_tx_insert_index + 1) % 8 ∧
      (ble_bp_c_cuff_notif_enable err st).1.1.inst = st.inst ∧
      (ble_bp_c_cuff_notif_enable err st).2 = NRF_SUCCESS) ∧
    ((ble_bp_c_mea_notif_enable err st).1.1.q.m_tx_buffer =
        st.q.m_tx_buffer.set st.q.m_tx_insert_index
          { conn_handle := st.inst.conn_handle
            type := tx_request_t.WRITE_REQ
            write_req :=
              { gattc_value := [0x02, 0x00]
                gattc_params :=
                  { handle := st.inst.bp_MEA_cccd_handle
                    len := 2
                    offset := 0
                    write_op := BLE_GATT_OP_WRITE_REQ } } } ∧
      (ble_bp_c_mea_notif_enable err st).1.1.q.m_tx_insert_index =
        (st.q.m_tx_insert_index + 1) % 8 ∧
      (ble_bp_c_mea_notif_enable err st).1.1.inst = st.inst ∧
      (ble_bp_c_mea_notif_enable err st).2 = NRF_SUCCESS) := by
  obtain ⟨_, hin, _⟩ := hwf
  have hin8 : st.q.m_tx_insert_index < 8 := hin
  refine ⟨⟨?_, ?_, rfl, rfl⟩, ⟨?_, ?_, rfl, rfl⟩⟩
  · simp only [ble_bp_c_cuff_notif_enable, NOTIFICATION_cccd_configure, cccd_configure]
    rw [(drain_buffer err _).1]
    rfl
  · simp only [ble_bp_c_cuff_notif_enable, NOTIFICATION_cccd_configure, cccd_configure]
    rw [(drain_buffer err _).2]
    exact index_next _ hin8
  · simp only [ble_bp_c_mea_notif_enable, INDICATION_cccd_configure, cccd_configure]
    rw [(drain_buffer err _).1]
    rfl
  · simp only [ble_bp_c_mea_notif_enable, INDICATION_cccd_configure, cccd_configure]
    rw [(drain_buffer err _).2]
    exact index_next _ hin8


/-- Witness for C10: the state after the discovery
`measurementAt0x20`, with an accepting SoftDevice. -/
theorem cccd_write_encoding_witness :
    State.discovered.q.WF ∧
    (((ble_bp_c_cuff_notif_enable NRF_SUCCESS State.discovered).1.1.q.m_tx_buffer =
        State.discovered.q.m_tx_buffer.set State.discovered.q.m_tx_insert_index
          { conn_handle := State.discovered.inst.conn_handle
            type := tx_request_t.WRITE_REQ
            write_req :=
              { gattc_value := [0x01, 0x00]
                gattc_params :=
                  { handle := State.discovered.inst.bp_CUFF_cccd_handle
                    len := 2
                    offset := 0
                    write_op := BLE_GATT_OP_WRITE_REQ } } } ∧
      (ble_bp_c_cuff_notif_enable NRF_SUCCESS State.discovered).1.1.q.m_tx_insert_index =
        (State.discovered.q.m_tx_insert_index + 1) % 8 ∧
      (ble_bp_c_cuff_notif_enable NRF_SUCCESS State.discovered).1.1.inst =
        State.discovered.inst ∧
      (ble_bp_c_cuff_notif_enable NRF_SUCCESS State.discovered).2 = NRF_SUCCESS) ∧
    ((ble_bp_c_mea_notif_enable NRF_SUCCESS State.discovered).1.1.q.m_tx_buffer =
        State.discovered.q.m_tx_buffer.set State.discovered.q.m_tx_insert_index
          { conn_handle := State.discovered.inst.conn_handle
            type := tx_request_t.WRITE_REQ
            write_req :=
              { gattc_value := [0x02, 0x00]
                gattc_params :=
                  { handle := State.discovered.inst.bp_MEA_cccd_handle
                    len := 2
                    offset := 0
                    write_op := BLE_GATT_OP_WRITE_REQ } } } ∧
      (ble_bp_c_mea_notif_enable NRF_SUCCESS State.discovered).1.1.q.m_tx_insert_index =
        (State.discovered.q.m_tx_insert_index + 1) % 8 ∧
      (ble_bp_c_mea_notif_enable NRF_SUCCESS State.discovered).1.1.inst =
        State.discovered.inst ∧
      (ble_bp_c_mea_notif_enable NRF_SUCCESS State.discovered).2 = NRF_SUCCESS)) :=
  ⟨by decide, cccd_write_encoding State.discovered NRF_SUCCESS (by decide)⟩

/-! ## Value-change events -/

/-- C4 (as amended): for every state of the module, dispatching a value-change
event whose handle differs from `BLE_BP_MEASUREMENT_HANDLE` (0x000D) makes no
call to the outside, so no event callback is invoked. -/
theorem other_handle_no_event (err : Nat) (st : State) (hvx : ble_gattc_evt_hvx_t)
    (hh : hvx.handle ≠ BLE_BP_MEASUREMENT_HANDLE) :
    (ble_bp_c_on_ble_evt err st (ble_evt_t.BLE_GATTC_EVT_HVX hvx)).2 = [] := by
  simp [ble_bp_c_on_ble_evt, on_hvx, hh]

/-- Witness for C4 as amended: an event on the handle 0x20. -/
theorem other_handle_no_event_witness :
    (hvxSample 0x20).handle ≠ BLE_BP_MEASUREMENT_HANDLE ∧
      (ble_bp_c_on_ble_evt NRF_SUCCESS State.discovered
          (ble_evt_t.BLE_GATTC_EVT_HVX (hvxSample 0x20))).2 = [] :=
  ⟨by decide, other_handle_no_event NRF_SUCCESS State.discovered (hvxSample 0x20) (by decide)⟩

/-- C4, the claim as stated, fails: with the MEASUREMENT value handle resolved to
0x20, a value-change event on the different handle 0x000D does invoke a
callback. -/
theorem other_handle_event_raised :
    State.discovered.inst.bp_MEA_handle = 0x20 ∧
      (hvxSample 0xD).handle ≠ State.discovered.inst.bp_MEA_handle ∧
      (ble_bp_c_on_ble_evt NRF_SUCCESS State.discovered
          (ble_evt_t.BLE_GATTC_EVT_HVX (hvxSample 0xD))).2 =
        [Out.call ble_bp_c_evt_handler_t.bp_c_evt_handler
          { evt_type := ble_bp_c_evt_type_t.BLE_BP_C_EVT_GOT_VAL
            bp_value := [some 1, some 2, some 3, some 4] ++ List.replicate 15 none }] := by
  decide

/-! ## Discovery -/

/-- C5: for every discovery event whose type is not discovery-complete, or whose
service UUID is not `BLE_UUID_BLOOD_PRESSURE_SERVICE`, or whose UUID type is not
`BLE_UUID_TYPE_BLE`, `db_discover_evt_handler` returns the instance as it was
(all seven handle fields, the connection handle and the callback) and makes no
call to the outside, whatever characteristics the event lists. -/
theorem discovery_other_ignored (s : ble_bp_c_t) (p_evt : ble_db_discovery_evt_t)
    (h : p_evt.evt_type ≠ ble_db_discovery_evt_type_t.BLE_DB_DISCOVERY_COMPLETE ∨
      p_evt.srv_uuid.uuid ≠ BLE_UUID_BLOOD_PRESSURE_SERVICE ∨
      p_evt.srv_uuid.type ≠ BLE_UUID_TYPE_BLE) :
    db_discover_evt_handler s p_evt = (s, []) ∧
      (db_discover_evt_handler s p_evt).1.handles = s.handles ∧
      (db_discover_evt_handler s p_evt).1.conn_handle = s.conn_handle := by
  have hn : ¬ (p_evt.evt_type = ble_db_discovery_evt_type_t.BLE_DB_DISCOVERY_COMPLETE ∧
      p_evt.srv_uuid.uuid = BLE_UUID_BLOOD_PRESSURE_SERVICE ∧
      p_evt.srv_uuid.type = BLE_UUID_TYPE_BLE) := by
    rintro ⟨a, b, c⟩
    rcases h with h | h | h
    · exact h a
    · exact h b
    · exact h c
  have : db_discover_evt_handler s p_evt = (s, []) := by
    unfold db_discover_evt_handler
    rw [if_neg hn]
  rw [this]
  exact ⟨rfl, rfl, rfl⟩

/-- Witness for C5: a discovery-complete event of the Heart
Rate service that lists a measurement characteristic. -/
theorem discovery_other_ignored_witness :
    (otherService.evt_type ≠ ble_db_discovery_evt_type_t.BLE_DB_DISCOVERY_COMPLETE ∨
      otherService.srv_uuid.uuid ≠ BLE_UUID_BLOOD_PRESSURE_SERVICE ∨
      otherService.srv_uuid.type ≠ BLE_UUID_TYPE_BLE) ∧
    (db_discover_evt_handler State.init.inst otherService = (State.init.inst, []) ∧
      (db_discover_evt_handler State.init.inst otherService).1.handles =
        State.init.inst.handles ∧
      (db_discover_evt_handler State.init.inst otherService).1.conn_handle =
        State.init.inst.conn_handle) :=
  ⟨by decide, discovery_other_ignored State.init.inst otherService (by decide)⟩


/-- The loop writes the fields of at most one role, and only with the handles of
the first characteristic in the list that has that role's UUID. -/
theorem discover_loop_first (R : Role) (chars : List ble_db_discovery_char_t) :
    ∀ (s : ble_bp_c_t) (c : ble_db_discovery_char_t),
      chars.find? (fun x => decide (x.uuid.uuid = R.uuid)) = some c →
      R.recorded (discover_loop s chars) = R.recorded s ∨
        R.recorded (discover_loop s chars) = R.reported c := by
  induction chars with
  | nil => intro s c h; simp at h
  | cons x rest ih =>
    intro s c h
    unfold discover_loop
    by_cases h1 : x.uuid.uuid = BLE_UUID_INTERMEDIATE_CUFF_PRESSURE_CHAR
    · rw [if_pos h1]
      cases R <;>
        simp_all [Role.uuid, Role.recorded, Role.reported,
          BLE_UUID_INTERMEDIATE_CUFF_PRESSURE_CHAR, BLE_UUID_BLOOD_PRESSURE_MEASUREMENT_CHAR,
          BLE_UUID_BLOOD_PRESSURE_FEATURE_CHAR, BLE_UUID_HEART_RATE_MEASUREMENT_CHAR]
    · rw [if_neg h1]
      by_cases h2 : x.uuid.uuid = BLE_UUID_BLOOD_PRESSURE_MEASUREMENT_CHAR
      · rw [if_pos h2]
        cases R <;>
          simp_all [Role.uuid, Role.recorded, Role.reported,
            BLE_UUID_INTERMEDIATE_CUFF_PRESSURE_CHAR, BLE_UUID_BLOOD_PRESSURE_MEASUREMENT_CHAR,
            BLE_UUID_BLOOD_PRESSURE_FEATURE_CHAR, BLE_UUID_HEART_RATE_MEASUREMENT_CHAR]
      · rw [if_neg h2]
        by_cases h3 : x.uuid.uuid = BLE_UUID_BLOOD_PRESSURE_FEATURE_CHAR
        · rw [if_pos h3]
          cases R <;>
            simp_all [Role.uuid, Role.recorded, Role.reported,
              BLE_UUID_INTERMEDIATE_CUFF_PRESSURE_CHAR, BLE_UUID_BLOOD_PRESSURE_MEASUREMENT_CHAR,
              BLE_UUID_BLOOD_PRESSURE_FEATURE_CHAR, BLE_UUID_HEART_RATE_MEASUREMENT_CHAR]
        · rw [if_neg h3]
          by_cases h4 : x.uuid.uuid = BLE_UUID_HEART_RATE_MEASUREMENT_CHAR
          · rw [if_pos h4]
            cases R <;>
              simp_all [Role.uuid, Role.recorded, Role.reported,
                BLE_UUID_INTERMEDIATE_CUFF_PRESSURE_CHAR,
                BLE_UUID_BLOOD_PRESSURE_MEASUREMENT_CHAR,
                BLE_UUID_BLOOD_PRESSURE_FEATURE_CHAR, BLE_UUID_HEART_RATE_MEASUREMENT_CHAR]
          · rw [if_neg h4]
            have hx : x.uuid.uuid ≠ R.uuid := by
              cases R <;> simpa [Role.uuid]
            rw [List.find?_cons_of_neg _ (by simpa using hx)] at h
            exact ih s c h

theorem discover_handler_inst (s : ble_bp_c_t) (p_evt : ble_db_discovery_evt_t) :
    (db_discover_evt_handler s p_evt).1 = s ∨
      (db_discover_evt_handler s p_evt).1 = discover_loop s p_evt.charateristics := by
  unfold db_discover_evt_handler
  split
  · right
    dsimp only
    split <;> rfl
  · left; rfl

/-- C6: for every discovery event (so for every matching discovery-complete
event whose list has two or more entries with the UUID of the same role) and
every role, when `c` is the first entry of the list with the role's UUID, the
handle fields of the role after the event are either what they were before the
event or the handles of `c` (value and CCCD handle; for FEATURE the value
handle only); so whenever they equal the handles of a later entry `d` with the
same UUID, those are the handles the role had before or the handles of `c`. -/
theorem first_seen_wins (s : ble_bp_c_t) (p_evt : ble_db_discovery_evt_t) (R : Role)
    (c : ble_db_discovery_char_t)
    (hfirst : p_evt.charateristics.find? (fun x => decide (x.uuid.uuid = R.uuid)) = some c) :
    (R.recorded (db_discover_evt_handler s p_evt).1 = R.recorded s ∨
        R.recorded (db_discover_evt_handler s p_evt).1 = R.reported c) ∧
      ∀ d ∈ p_evt.charateristics, d.uuid.uuid = R.uuid →
        R.recorded (db_discover_evt_handler s p_evt).1 = R.reported d →
        R.reported d = R.recorded s ∨ R.reported d = R.reported c := by
  have key : R.recorded (db_discover_evt_handler s p_evt).1 = R.recorded s ∨
      R.recorded (db_discover_evt_handler s p_evt).1 = R.reported c := by
    rcases discover_handler_inst s p_evt with h | h
    · left; rw [h]
    · rw [h]; exact discover_loop_first R _ s c hfirst
  refine ⟨key, ?_⟩
  intro d _ _ hd
  rw [hd] at key
  exact key

/-- Witness for C6: the cuff characteristic reported twice, with
the handles 0x10/0x11 and then 0x30/0x31; the first pair is recorded. -/
theorem first_seen_wins_witness :
    cuffTwice.charateristics.find? (fun x => decide (x.uuid.uuid = Role.CUFF.uuid)) =
        some { uuid := { uuid := BLE_UUID_INTERMEDIATE_CUFF_PRESSURE_CHAR,
                         type := BLE_UUID_TYPE_BLE }
               handle_value := 0x10
               cccd_handle := 0x11 } ∧
      Role.CUFF.recorded (db_discover_evt_handler State.init.inst cuffTwice).1 = [0x10, 0x11] ∧
      ((Role.CUFF.recorded (db_discover_evt_handler State.init.inst cuffTwice).1 =
            Role.CUFF.recorded State.init.inst ∨
          Role.CUFF.recorded (db_discover_evt_handler State.init.inst cuffTwice).1 =
            Role.CUFF.reported
              { uuid := { uuid := BLE_UUID_INTERMEDIATE_CUFF_PRESSURE_CHAR,
                          type := BLE_UUID_TYPE_BLE }
                handle_value := 0x10
                cccd_handle := 0x11 }) ∧
        ∀ d ∈ cuffTwice.charateristics, d.uuid.uuid = Role.CUFF.uuid →
          Role.CUFF.recorded (db_discover_evt_handler State.init.inst cuffTwice).1 =
            Role.CUFF.reported d →
          Role.CUFF.reported d = Role.CUFF.recorded State.init.inst ∨
            Role.CUFF.reported d =
              Role.CUFF.reported
                { uuid := { uuid := BLE_UUID_INTERMEDIATE_CUFF_PRESSURE_CHAR,
                            type := BLE_UUID_TYPE_BLE }
                  handle_value := 0x10
                  cccd_handle := 0x11 }) :=
  ⟨by decide, by decide, first_seen_wins State.init.inst cuffTwice Role.CUFF _ (by decide)⟩

/-! ## Connection events -/

/-- What the disconnect path does on every state of the module (connected or
not, discovered or not, queue empty or not, whatever the `evt_handler` field of
the instance holds) and whatever the SoftDevice would answer: dispatching
`BLE_GAP_EVT_DISCONNECTED` makes exactly one call to the outside, of the
function `bp_c_evt_handler` called by name (ble_bp_c.c:235), with an event
tagged `BLE_BP_C_EVT_DISCONNECTED`.  No SoftDevice request is made. -/
theorem disconnect_event (err : Nat) (st : State) :
    (ble_bp_c_on_ble_evt err st ble_evt_t.BLE_GAP_EVT_DISCONNECTED).2 =
      [Out.call ble_bp_c_evt_handler_t.bp_c_evt_handler
        { evt_type := ble_bp_c_evt_type_t.BLE_BP_C_EVT_DISCONNECTED
          bp_value := bp_value_unset }] :=
  rfl

/-- C7, evaluated on the code: for an instance that `ble_bp_c_init` initialised
with a callback other than `bp_c_evt_handler`, dispatching
`BLE_GAP_EVT_DISCONNECTED` does not deliver the event to the callback of the
instance: the one call made is to `bp_c_evt_handler`, by name.  On the same
state the discovery path does deliver its event to the callback stored in the
instance. -/
theorem disconnect_event_other_callback :
    State.otherCallback.inst.evt_handler = ble_bp_c_evt_handler_t.fn 1 ∧
      (ble_bp_c_on_ble_evt NRF_SUCCESS State.otherCallback
          ble_evt_t.BLE_GAP_EVT_DISCONNECTED).2 ≠
        [Out.call State.otherCallback.inst.evt_handler
          { evt_type := ble_bp_c_evt_type_t.BLE_BP_C_EVT_DISCONNECTED
            bp_value := bp_value_unset }] ∧
      (ble_bp_c_on_ble_evt NRF_SUCCESS State.otherCallback
          ble_evt_t.BLE_GAP_EVT_DISCONNECTED).2 =
        [Out.call ble_bp_c_evt_handler_t.bp_c_evt_handler
          { evt_type := ble_bp_c_evt_type_t.BLE_BP_C_EVT_DISCONNECTED
            bp_value := bp_value_unset }] ∧
      (db_discover_evt_handler State.otherCallback.inst noRole).2 =
        [Out.call State.otherCallback.inst.evt_handler
          { evt_type := ble_bp_c_evt_type_t.BLE_BP_C_EVT_DISCOVERY_COMPLETE
            bp_value := bp_value_unset }] := by
  decide

/-- C8 (as amended): `ble_bp_c_on_ble_evt` leaves the whole module state, with
the `conn_handle` of the instance, as it was when it handles
`BLE_GAP_EVT_DISCONNECTED`; so afterwards `conn_handle` is
`BLE_CONN_HANDLE_INVALID` exactly when it was before. -/
theorem disconnect_keeps_conn_handle (err : Nat) (st : State) :
    (ble_bp_c_on_ble_evt err st ble_evt_t.BLE_GAP_EVT_DISCONNECTED).1 = st ∧
      (ble_bp_c_on_ble_evt err st ble_evt_t.BLE_GAP_EVT_DISCONNECTED).1.inst.conn_handle =
        st.inst.conn_handle :=
  ⟨rfl, rfl⟩

/-- C8, the claim as stated, fails: after initialisation, a connection with
handle 0 and a discovery, the disconnect event leaves `conn_handle` at 0, which
is not `BLE_CONN_HANDLE_INVALID`. -/
theorem disconnect_conn_handle_not_invalid :
    State.discovered.inst.conn_handle = 0 ∧
      (ble_bp_c_on_ble_evt NRF_SUCCESS State.discovered
          ble_evt_t.BLE_GAP_EVT_DISCONNECTED).1.inst.conn_handle = 0 ∧
      (ble_bp_c_on_ble_evt NRF_SUCCESS State.discovered
          ble_evt_t.BLE_GAP_EVT_DISCONNECTED).1.inst.conn_handle ≠ BLE_CONN_HANDLE_INVALID := by
  decide

/-! ## Initialisation -/

/-- C11: for every instance and callback `cb`, after `ble_bp_c_init` the event
callback of the instance is `cb`, its `conn_handle` is `BLE_CONN_HANDLE_INVALID`
and all seven handle fields are `BLE_GATT_HANDLE_INVALID`; the only call to the
outside is the registration of the Blood Pressure service UUID (type
`BLE_UUID_TYPE_BLE`) with the discovery module, and the returned code is the
answer to that registration. -/
theorem init_postcondition (p_ble_bp_c : ble_bp_c_t) (cb : ble_bp_c_evt_handler_t)
    (err : Nat) :
    (ble_bp_c_init p_ble_bp_c cb err).1.1.evt_handler = cb ∧
      (ble_bp_c_init p_ble_bp_c cb err).1.1.conn_handle = BLE_CONN_HANDLE_INVALID ∧
      (ble_bp_c_init p_ble_bp_c cb err).1.1.handles =
        List.replicate 7 BLE_GATT_HANDLE_INVALID ∧
      (ble_bp_c_init p_ble_bp_c cb err).1.2 =
        [Out.ble_db_discovery_evt_register
          { uuid := BLE_UUID_BLOOD_PRESSURE_SERVICE, type := BLE_UUID_TYPE_BLE } err] ∧
      (ble_bp_c_init p_ble_bp_c cb err).2 = err :=
  ⟨rfl, rfl, rfl, rfl, rfl⟩

/-! ## Discovery: resolution and report -/

/-- C12, evaluated on the code: after initialisation, a discovery-complete event
for the Blood Pressure service that lists the measurement characteristic
(0x0D/0x0E) and then the cuff characteristic (0x10/0x11) resolves the
measurement role and leaves both cuff fields at `BLE_GATT_HANDLE_INVALID`,
although the list has an entry with the cuff UUID. -/
theorem per_role_resolution_fails :
    measurementThenCuff.charateristics.find?
        (fun x => decide (x.uuid.uuid = Role.CUFF.uuid)) =
        some { uuid := { uuid := BLE_UUID_INTERMEDIATE_CUFF_PRESSURE_CHAR,
                         type := BLE_UUID_TYPE_BLE }
               handle_value := 0x10
               cccd_handle := 0x11 } ∧
      Role.MEASUREMENT.recorded (db_discover_evt_handler State.init.inst measurementThenCuff).1 =
        [0x0D, 0x0E] ∧
      Role.CUFF.recorded (db_discover_evt_handler State.init.inst measurementThenCuff).1 =
        [BLE_GATT_HANDLE_INVALID, BLE_GATT_HANDLE_INVALID] ∧
      Role.CUFF.recorded (db_discover_evt_handler State.init.inst measurementThenCuff).1 ≠
        [0x10, 0x11] := by
  decide

theorem discover_loop_evt_handler (chars : List ble_db_discovery_char_t) (s : ble_bp_c_t) :
    (discover_loop s chars).evt_handler = s.evt_handler ∧
      (discover_loop s chars).conn_handle = s.conn_handle := by
  induction chars with
  | nil => exact ⟨rfl, rfl⟩
  | cons c rest ih =>
    unfold discover_loop
    split
    · exact ⟨rfl, rfl⟩
    · split
      · exact ⟨rfl, rfl⟩
      · split
        · exact ⟨rfl, rfl⟩
        · split
          · exact ⟨rfl, rfl⟩
          · exact ih

/-- C13 (as amended): for every discovery-complete event whose service UUID is
`BLE_UUID_BLOOD_PRESSURE_SERVICE` of type `BLE_UUID_TYPE_BLE`, and every
characteristic list, `db_discover_evt_handler` processes the list and then, when
the event callback of the instance is not the null pointer, calls it exactly
once, with an event tagged `BLE_BP_C_EVT_DISCOVERY_COMPLETE`, and makes no other
call to the outside; when the callback is the null pointer it makes no call at
all. -/
theorem discovery_complete_reported (s : ble_bp_c_t) (p_evt : ble_db_discovery_evt_t)
    (ht : p_evt.evt_type = ble_db_discovery_evt_type_t.BLE_DB_DISCOVERY_COMPLETE)
    (hu : p_evt.srv_uuid.uuid = BLE_UUID_BLOOD_PRESSURE_SERVICE)
    (hy : p_evt.srv_uuid.type = BLE_UUID_TYPE_BLE) :
    (db_discover_evt_handler s p_evt).1 = discover_loop s p_evt.charateristics ∧
      (db_discover_evt_handler s p_evt).2 =
        if s.evt_handler = ble_bp_c_evt_handler_t.NULL then []
        else [Out.call s.evt_handler
          { evt_type := ble_bp_c_evt_type_t.BLE_BP_C_EVT_DISCOVERY_COMPLETE
            bp_value := bp_value_unset }] := by
  have hh := (discover_loop_evt_handler p_evt.charateristics s).1
  unfold db_discover_evt_handler
  rw [if_pos ⟨ht, hu, hy⟩]
  dsimp only
  rw [hh]
  by_cases hn : s.evt_handler = ble_bp_c_evt_handler_t.NULL
  · simp [hn]
  · simp [hn]

/-- Witness for C13 as amended: after the usual initialisation, a discovery that
lists no characteristic of any role is reported once to `bp_c_evt_handler`. -/
theorem discovery_complete_reported_witness :
    noRole.evt_type = ble_db_discovery_evt_type_t.BLE_DB_DISCOVERY_COMPLETE ∧
      noRole.srv_uuid.uuid = BLE_UUID_BLOOD_PRESSURE_SERVICE ∧
      noRole.srv_uuid.type = BLE_UUID_TYPE_BLE ∧
      State.init.inst.evt_handler = ble_bp_c_evt_handler_t.bp_c_evt_handler ∧
      ((db_discover_evt_handler State.init.inst noRole).1 =
          discover_loop State.init.inst noRole.charateristics ∧
        (db_discover_evt_handler State.init.inst noRole).2 =
          if State.init.inst.evt_handler = ble_bp_c_evt_handler_t.NULL then []
          else [Out.call State.init.inst.evt_handler
            { evt_type := ble_bp_c_evt_type_t.BLE_BP_C_EVT_DISCOVERY_COMPLETE
              bp_value := bp_value_unset }]) :=
  ⟨rfl, rfl, rfl, rfl, discovery_complete_reported State.init.inst noRole rfl rfl rfl⟩

/-- C13, the claim as stated, fails for an instance that was initialised with
the null pointer as callback: a discovery-complete event for the Blood Pressure
service invokes no callback. -/
theorem discovery_complete_null_callback :
    measurementAt0x20.evt_type = ble_db_discovery_evt_type_t.BLE_DB_DISCOVERY_COMPLETE ∧
      measurementAt0x20.srv_uuid.uuid = BLE_UUID_BLOOD_PRESSURE_SERVICE ∧
      measurementAt0x20.srv_uuid.type = BLE_UUID_TYPE_BLE ∧
      State.nullCallback.inst.evt_handler = ble_bp_c_evt_handler_t.NULL ∧
      (db_discover_evt_handler State.nullCallback.inst measurementAt0x20).2 = [] := by
  decide

/-! ## The queue: errors, indices, enqueue -/

/-- C14 (as amended): whenever `tx_buffer_process` runs on a queue whose drain
index differs from its insert index and the SoftDevice answers with any code
other than `NRF_SUCCESS` (busy or not), the queue is left as it was, so the
drain index does not advance and the message is not dropped: the next run of
`tx_buffer_process` makes its one request for the same message. -/
theorem error_keeps_entry (q : TxQueue) (err err2 : Nat)
    (hne : q.m_tx_index ≠ q.m_tx_insert_index) (herr : err ≠ NRF_SUCCESS) :
    (tx_buffer_process err q).1 = q ∧
      (tx_buffer_process err q).1.m_tx_index = q.m_tx_index ∧
      (tx_buffer_process err q).2 =
        [submit (q.m_tx_buffer.getD q.m_tx_index default) err] ∧
      (tx_buffer_process err2 (tx_buffer_process err q).1).2 =
        [submit (q.m_tx_buffer.getD q.m_tx_index default) err2] := by
  have h1 : tx_buffer_process err q =
      (q, [submit (q.m_tx_buffer.getD q.m_tx_index default) err]) := by
    simp only [tx_buffer_process, hne, herr, ne_eq, not_false_eq_true, if_true, if_false]
  rw [h1]
  refine ⟨rfl, rfl, rfl, ?_⟩
  by_cases h2 : err2 = NRF_SUCCESS <;>
    simp only [tx_buffer_process, hne, h2, ne_eq, not_false_eq_true, if_true, if_false]

/-- Witness for C14 as amended: one pending message and the answer
`NRF_ERROR_INVALID_STATE`, then an accepting SoftDevice. -/
theorem error_keeps_entry_witness :
    State.onePending.q.m_tx_index ≠ State.onePending.q.m_tx_insert_index ∧
      NRF_ERROR_INVALID_STATE ≠ NRF_SUCCESS ∧
      ((tx_buffer_process NRF_ERROR_INVALID_STATE State.onePending.q).1 = State.onePending.q ∧
        (tx_buffer_process NRF_ERROR_INVALID_STATE State.onePending.q).1.m_tx_index =
          State.onePending.q.m_tx_index ∧
        (tx_buffer_process NRF_ERROR_INVALID_STATE State.onePending.q).2 =
          [submit (State.onePending.q.m_tx_buffer.getD State.onePending.q.m_tx_index default)
            NRF_ERROR_INVALID_STATE] ∧
        (tx_buffer_process NRF_SUCCESS
            (tx_buffer_process NRF_ERROR_INVALID_STATE State.onePending.q).1).2 =
          [submit (State.onePending.q.m_tx_buffer.getD State.onePending.q.m_tx_index default)
            NRF_SUCCESS]) :=
  ⟨by decide, by decide,
    error_keeps_entry State.onePending.q NRF_ERROR_INVALID_STATE NRF_SUCCESS (by decide)
      (by decide)⟩

/-- C14, the claim as stated, fails: with one message pending at slot 0 and the
answer `NRF_ERROR_INVALID_STATE`, which is neither success nor busy, the drain
index stays 0 instead of advancing to 1, and the next drain submits the message
again. -/
theorem error_does_not_drop :
    NRF_ERROR_INVALID_STATE ≠ NRF_SUCCESS ∧ NRF_ERROR_INVALID_STATE ≠ NRF_ERROR_BUSY ∧
      State.onePending.q.m_tx_index = 0 ∧ State.onePending.q.m_tx_insert_index = 1 ∧
      (tx_buffer_process NRF_ERROR_INVALID_STATE State.onePending.q).1.m_tx_index = 0 ∧
      (tx_buffer_process NRF_ERROR_INVALID_STATE State.onePending.q).1.m_tx_index ≠
        (State.onePending.q.m_tx_index + 1) % 8 ∧
      (tx_buffer_process NRF_SUCCESS
          (tx_buffer_process NRF_ERROR_INVALID_STATE State.onePending.q).1).2 =
        [Out.sd_ble_gattc_write 0
          { handle := 0, len := 2, offset := 0, write_op := BLE_GATT_OP_WRITE_REQ } [1, 0]
          NRF_SUCCESS] := by
  decide


/-! ## The handle table -/

/-- C15 (as amended): the connected, disconnected and write-response branches of
`ble_bp_c_on_ble_evt`, its default branch, `ble_bp_c_cuff_notif_enable` and
`ble_bp_c_mea_notif_enable` leave all seven handle fields of the instance
unchanged; the value-change branch leaves five of them unchanged and sets
`bp_CUFF_handle` to `BLE_CUFF_HANDLE` (0x10) and `bp_MEA_handle` to
`BLE_BP_MEASUREMENT_HANDLE` (0x0D). -/
theorem handle_table_writers (err : Nat) (st : State) :
    (∀ evt, (ble_bp_c_on_ble_evt err st evt).1.inst.handles =
        match evt with
        | ble_evt_t.BLE_GATTC_EVT_HVX _ =>
            [st.inst.bp_CUFF_cccd_handle, st.inst.bp_MEA_cccd_handle, BLE_CUFF_HANDLE,
              BLE_BP_MEASUREMENT_HANDLE, st.inst.bp_FEA_handle, st.inst.bp_test_handle,
              st.inst.bp_test_cccd_handle]
        | _ => st.inst.handles) ∧
      (ble_bp_c_cuff_notif_enable err st).1.1.inst.handles = st.inst.handles ∧
      (ble_bp_c_mea_notif_enable err st).1.1.inst.handles = st.inst.handles := by
  refine ⟨?_, rfl, rfl⟩
  intro evt
  cases evt with
  | BLE_GAP_EVT_CONNECTED c => rfl
  | BLE_GAP_EVT_DISCONNECTED => rfl
  | BLE_GATTC_EVT_HVX hvx =>
    simp only [ble_bp_c_on_ble_evt, on_hvx]
    split <;> rfl
  | BLE_GATTC_EVT_WRITE_RSP => rfl
  | other n => rfl

/-- C15, the claim as stated, fails: after a discovery that resolved the
measurement value handle to 0x20, a value-change event (here on the handle 0x20)
changes two of the seven handle fields. -/
theorem handle_table_written_by_hvx :
    State.discovered.inst.handles = [0, 0x21, 0, 0x20, 0, 0, 0] ∧
      (ble_bp_c_on_ble_evt NRF_SUCCESS State.discovered
          (ble_evt_t.BLE_GATTC_EVT_HVX (hvxSample 0x20))).1.inst.handles =
        [0, 0x21, 0x10, 0x0D, 0, 0, 0] ∧
      (ble_bp_c_on_ble_evt NRF_SUCCESS State.discovered
          (ble_evt_t.BLE_GATTC_EVT_HVX (hvxSample 0x20))).1.inst.handles ≠
        State.discovered.inst.handles := by
  decide

theorem fromRole_mono (cs cs2 : List ble_db_discovery_char_t) (u : Nat)
    (pick : ble_db_discovery_char_t → Nat) (consts : List Nat) (h : Nat)
    (hsub : ∀ c ∈ cs, c ∈ cs2) (hf : fromRole cs u pick consts h) :
    fromRole cs2 u pick consts h := by
  rcases hf with hf | hf | ⟨c, hc, hu, hp⟩
  · exact Or.inl hf
  · exact Or.inr (Or.inl hf)
  · exact Or.inr (Or.inr ⟨c, hsub c hc, hu, hp⟩)

theorem fromRole_of_mem (cs : List ble_db_discovery_char_t) (u : Nat)
    (pick : ble_db_discovery_char_t → Nat) (consts : List Nat)
    (c : ble_db_discovery_char_t) (hc : c ∈ cs) (hu : c.uuid.uuid = u) :
    fromRole cs u pick consts (pick c) :=
  Or.inr (Or.inr ⟨c, hc, hu, rfl⟩)

theorem provenance_mono (cs cs2 : List ble_db_discovery_char_t) (s : ble_bp_c_t)
    (hsub : ∀ c ∈ cs, c ∈ cs2) (hp : Provenance cs s) : Provenance cs2 s := by
  obtain ⟨h1, h2, h3, h4, h5, h6, h7⟩ := hp
  exact ⟨fromRole_mono _ _ _ _ _ _ hsub h1, fromRole_mono _ _ _ _ _ _ hsub h2,
    fromRole_mono _ _ _ _ _ _ hsub h3, fromRole_mono _ _ _ _ _ _ hsub h4,
    fromRole_mono _ _ _ _ _ _ hsub h5, fromRole_mono _ _ _ _ _ _ hsub h6,
    fromRole_mono _ _ _ _ _ _ hsub h7⟩

theorem provenance_loop (all : List ble_db_discovery_char_t)
    (chars : List ble_db_discovery_char_t) :
    ∀ s, (∀ c ∈ chars, c ∈ all) → Provenance all s → Provenance all (discover_loop s chars) := by
  induction chars with
  | nil => intro s _ hp; exact hp
  | cons c rest ih =>
    intro s hsub hp
    have hc : c ∈ all := hsub c (by simp)
    obtain ⟨h1, h2, h3, h4, h5, h6, h7⟩ := hp
    unfold discover_loop
    split
    · next hu =>
      exact ⟨fromRole_of_mem all _ (·.cccd_handle) [] c hc hu, h2,
        fromRole_of_mem all _ (·.handle_value) _ c hc hu, h4, h5, h6, h7⟩
    · split
      · next hu =>
        exact ⟨h1, fromRole_of_mem all _ (·.cccd_handle) [] c hc hu, h3,
          fromRole_of_mem all _ (·.handle_value) _ c hc hu, h5, h6, h7⟩
      · split
        · next hu =>
          exact ⟨h1, h2, h3, h4, fromRole_of_mem all _ (·.handle_value) [] c hc hu, h6, h7⟩
        · split
          · next hu =>
            exact ⟨h1, h2, h3, h4, h5, fromRole_of_mem all _ (·.handle_value) [] c hc hu,
              fromRole_of_mem all _ (·.cccd_handle) [] c hc hu⟩
          · exact ih s (fun x hx => hsub x (by simp [hx])) ⟨h1, h2, h3, h4, h5, h6, h7⟩

theorem provenance_hvx (cs : List ble_db_discovery_char_t) (s : ble_bp_c_t)
    (hvx : ble_gattc_evt_hvx_t) (hp : Provenance cs s) : Provenance cs (on_hvx s hvx).1 := by
  obtain ⟨h1, h2, _, _, h5, h6, h7⟩ := hp
  have hc : fromRole cs BLE_UUID_INTERMEDIATE_CUFF_PRESSURE_CHAR (·.handle_value)
      [BLE_CUFF_HANDLE] BLE_CUFF_HANDLE := Or.inr (Or.inl (by simp))
  have hm : fromRole cs BLE_UUID_BLOOD_PRESSURE_MEASUREMENT_CHAR (·.handle_value)
      [BLE_BP_MEASUREMENT_HANDLE] BLE_BP_MEASUREMENT_HANDLE := Or.inr (Or.inl (by simp))
  unfold on_hvx
  dsimp only
  split <;> exact ⟨h1, h2, hc, hm, h5, h6, h7⟩

theorem provenance_step (cs : List ble_db_discovery_char_t) (st : State) (a : Action)
    (hp : Provenance cs st.inst) : Provenance (cs ++ a.reported) (a.step st).1.inst := by
  have hsub : ∀ c ∈ cs, c ∈ cs ++ a.reported := fun c hc => List.mem_append_left _ hc
  cases a with
  | ble_evt err evt =>
    apply provenance_mono cs _ _ hsub
    cases evt with
    | BLE_GAP_EVT_CONNECTED c => exact hp
    | BLE_GAP_EVT_DISCONNECTED => exact hp
    | BLE_GATTC_EVT_HVX hvx => exact provenance_hvx cs st.inst hvx hp
    | BLE_GATTC_EVT_WRITE_RSP => exact hp
    | other n => exact hp
  | db_discovery_evt p_evt =>
    by_cases hm : p_evt.evt_type = ble_db_discovery_evt_type_t.BLE_DB_DISCOVERY_COMPLETE ∧
        p_evt.srv_uuid.uuid = BLE_UUID_BLOOD_PRESSURE_SERVICE ∧
        p_evt.srv_uuid.type = BLE_UUID_TYPE_BLE
    · have hr : (Action.db_discovery_evt p_evt).reported = p_evt.charateristics := by
        simp only [Action.reported, hm, and_self, if_true]
      rw [hr]
      have hi : (db_discover_evt_handler st.inst p_evt).1 =
          discover_loop st.inst p_evt.charateristics := by
        unfold db_discover_evt_handler
        rw [if_pos hm]
        dsimp only
        split <;> rfl
      show Provenance _ (db_discover_evt_handler st.inst p_evt).1
      rw [hi]
      exact provenance_loop _ _ _ (fun c hc => List.mem_append_right _ hc)
        (provenance_mono cs _ _ (fun c hc => List.mem_append_left _ hc) hp)
    · apply provenance_mono cs _ _ hsub
      show Provenance _ (db_discover_evt_handler st.inst p_evt).1
      unfold db_discover_evt_handler
      rw [if_neg hm]
      exact hp
  | cuff_notif_enable err => exact provenance_mono cs _ _ hsub hp
  | mea_notif_enable err => exact provenance_mono cs _ _ hsub hp

theorem exec_state (acts : List Action) : ∀ (st : State) (tr : List Out),
    (acts.foldl (fun r a => ((a.step r.1).1, r.2 ++ (a.step r.1).2)) (st, tr)).1 =
      (exec acts st).1 := by
  induction acts with
  | nil => intro st tr; rfl
  | cons a acts ih =>
    intro st tr
    simp only [exec, List.foldl_cons]
    rw [ih, ih (a.step st).1 ([] ++ (a.step st).2)]

theorem exec_cons (a : Action) (acts : List Action) (st : State) :
    (exec (a :: acts) st).1 = (exec acts (a.step st).1).1 := by
  simp only [exec, List.foldl_cons]
  exact exec_state acts _ _

theorem provenance_exec (acts : List Action) : ∀ (cs : List ble_db_discovery_char_t)
    (st : State), Provenance cs st.inst → Provenance (cs ++ seen acts) (exec acts st).1.inst := by
  induction acts with
  | nil => intro cs st hp; simpa [seen, exec] using hp
  | cons a acts ih =>
    intro cs st hp
    rw [exec_cons, seen, ← List.append_assoc]
    exact ih _ _ (provenance_step cs st a hp)

/-- C16 (as amended): in every state reached from `ble_bp_c_init` by any sequence
of dispatched events, discovery events and enable calls, each of the seven
handle fields is `BLE_GATT_HANDLE_INVALID`, or a handle that some earlier
discovery-complete event for the Blood Pressure service reported for the
field's own role (the value handle, resp. the CCCD handle, of a characteristic
with the role's UUID), or, for `bp_CUFF_handle` and `bp_MEA_handle`, the
constant `BLE_CUFF_HANDLE`, resp. `BLE_BP_MEASUREMENT_HANDLE`. -/
theorem handle_table_provenance (p_ble_bp_c : ble_bp_c_t) (cb : ble_bp_c_evt_handler_t)
    (err : Nat) (q : TxQueue) (acts : List Action) :
    Provenance (seen acts)
      (exec acts { inst := (ble_bp_c_init p_ble_bp_c cb err).1.1, q := q }).1.inst := by
  have h0 : Provenance [] (ble_bp_c_init p_ble_bp_c cb err).1.1 :=
    ⟨Or.inl rfl, Or.inl rfl, Or.inl rfl, Or.inl rfl, Or.inl rfl, Or.inl rfl, Or.inl rfl⟩
  simpa using provenance_exec acts [] _ h0

/-- C16, the claim as stated, fails: after initialisation and one value-change
event, with no discovery event at all, the handle table is not all
`BLE_GATT_HANDLE_INVALID`. -/
theorem handle_table_not_all_invalid :
    [Action.ble_evt NRF_SUCCESS (ble_evt_t.BLE_GATTC_EVT_HVX (hvxSample 0x20))].all
        (fun a => !a.isDiscovery) = true ∧
      (exec [Action.ble_evt NRF_SUCCESS (ble_evt_t.BLE_GATTC_EVT_HVX (hvxSample 0x20))]
          State.init).1.inst.handles = [0, 0, 0x10, 0x0D, 0, 0, 0] ∧
      (exec [Action.ble_evt NRF_SUCCESS (ble_evt_t.BLE_GATTC_EVT_HVX (hvxSample 0x20))]
          State.init).1.inst.handles ≠ List.replicate 7 BLE_GATT_HANDLE_INVALID := by
  decide


theorem drain_index (err : Nat) (q : TxQueue) (hi : q.m_tx_index < 8) :
    (tx_buffer_process err q).1.m_tx_index = q.m_tx_index ∨
      (tx_buffer_process err q).1.m_tx_index = (q.m_tx_index + 1) % 8 := by
  unfold tx_buffer_process
  split
  · split
    · right; exact index_next _ hi
    · left; rfl
  · left; rfl

theorem step_indices (op : Op) (q : TxQueue) (hwf : q.WF) :
    (op.step q).1.m_tx_buffer.length = 8 ∧
      ((op.step q).1.m_tx_index = q.m_tx_index ∨
        (op.step q).1.m_tx_index = (q.m_tx_index + 1) % 8) ∧
      ((op.step q).1.m_tx_insert_index = q.m_tx_insert_index ∨
        (op.step q).1.m_tx_insert_index = (q.m_tx_insert_index + 1) % 8) := by
  obtain ⟨hl, hin, hi⟩ := hwf
  have hl8 : q.m_tx_buffer.length = 8 := hl
  have hin8 : q.m_tx_insert_index < 8 := hin
  have hi8 : q.m_tx_index < 8 := hi
  cases op with
  | tx_buffer_process err =>
    simp only [Op.step]
    refine ⟨?_, drain_index err q hi8, Or.inl (drain_buffer err q).2⟩
    rw [(drain_buffer err q).1]; exact hl8
  | NOTIFICATION_cccd_configure c hd e err =>
    simp only [Op.step, NOTIFICATION_cccd_configure, cccd_configure]
    refine ⟨?_, drain_index err _ hi8, Or.inr ?_⟩
    · rw [(drain_buffer err _).1]; simpa using hl8
    · rw [(drain_buffer err _).2]; exact index_next _ hin8
  | INDICATION_cccd_configure c hd e err =>
    simp only [Op.step, INDICATION_cccd_configure, cccd_configure]
    refine ⟨?_, drain_index err _ hi8, Or.inr ?_⟩
    · rw [(drain_buffer err _).1]; simpa using hl8
    · rw [(drain_buffer err _).2]; exact index_next _ hin8

theorem step_wf (op : Op) (q : TxQueue) (hwf : q.WF) : (op.step q).1.WF := by
  obtain ⟨h1, h2, h3⟩ := step_indices op q hwf
  obtain ⟨_, hin, hi⟩ := hwf
  have hin8 : q.m_tx_insert_index < 8 := hin
  have hi8 : q.m_tx_index < 8 := hi
  refine ⟨h1, ?_, ?_⟩
  · show (op.step q).1.m_tx_insert_index < 8
    rcases h3 with h | h <;> rw [h]
    · exact hin8
    · exact Nat.mod_lt _ (by norm_num)
  · show (op.step q).1.m_tx_index < 8
    rcases h2 with h | h <;> rw [h]
    · exact hi8
    · exact Nat.mod_lt _ (by norm_num)

theorem run_wf (ops : List Op) : ∀ q : TxQueue, q.WF → (run ops q).1.WF := by
  induction ops with
  | nil => intro q h; exact h
  | cons op ops ih =>
    intro q h
    simp only [run]
    exact ih _ (step_wf op q h)

/-- C17: in every state reached from the initial queue (both indices 0) by any
sequence of enqueue calls and drain attempts, whatever the SoftDevice answers,
the array has its eight slots and both `m_tx_insert_index` and `m_tx_index` are
below 8, so the slots the functions access (the one at the insert index, the one
at the drain index) exist; and one more enqueue call or drain attempt leaves
each index as it was or moves it by +1 modulo 8. -/
theorem queue_index_invariant (ops : List Op) (op : Op) :
    ((run ops TxQueue.init).1.m_tx_buffer.length = TX_BUFFER_SIZE ∧
        (run ops TxQueue.init).1.m_tx_insert_index < TX_BUFFER_SIZE ∧
        (run ops TxQueue.init).1.m_tx_index < TX_BUFFER_SIZE) ∧
      (∃ m, (run ops TxQueue.init).1.m_tx_buffer[(run ops TxQueue.init).1.m_tx_insert_index]? =
        some m) ∧
      (∃ m, (run ops TxQueue.init).1.m_tx_buffer[(run ops TxQueue.init).1.m_tx_index]? =
        some m) ∧
      ((op.step (run ops TxQueue.init).1).1.m_tx_index = (run ops TxQueue.init).1.m_tx_index ∨
        (op.step (run ops TxQueue.init).1).1.m_tx_index =
          ((run ops TxQueue.init).1.m_tx_index + 1) % 8) ∧
      ((op.step (run ops TxQueue.init).1).1.m_tx_insert_index =
          (run ops TxQueue.init).1.m_tx_insert_index ∨
        (op.step (run ops TxQueue.init).1).1.m_tx_insert_index =
          ((run ops TxQueue.init).1.m_tx_insert_index + 1) % 8) := by
  have hwf : (run ops TxQueue.init).1.WF := run_wf ops TxQueue.init (by decide)
  obtain ⟨_, h2, h3⟩ := step_indices op _ hwf
  obtain ⟨hl, hin, hi⟩ := hwf
  refine ⟨⟨hl, hin, hi⟩, ?_, ?_, h2, h3⟩
  · exact ⟨_, List.getElem?_eq_getElem (by rw [hl]; exact hin)⟩
  · exact ⟨_, List.getElem?_eq_getElem (by rw [hl]; exact hi)⟩

/-- C18: `ble_bp_c_cuff_notif_enable` and `ble_bp_c_mea_notif_enable` return
`NRF_SUCCESS` for every state of the module and every answer of the SoftDevice;
and when the instance comes straight from `ble_bp_c_init`, so that no discovery
has resolved a CCCD handle, each of them stores at the insert index a
`WRITE_REQ` message whose target handle is `BLE_GATT_HANDLE_INVALID` (0). -/
theorem enable_never_fails (st : State) (err : Nat) (p_ble_bp_c : ble_bp_c_t)
    (cb : ble_bp_c_evt_handler_t) (e : Nat) (q : TxQueue) (hwf : q.WF) :
    (ble_bp_c_cuff_notif_enable err st).2 = NRF_SUCCESS ∧
      (ble_bp_c_mea_notif_enable err st).2 = NRF_SUCCESS ∧
      (ble_bp_c_cuff_notif_enable err
          { inst := (ble_bp_c_init p_ble_bp_c cb e).1.1, q := q }).1.1.q.m_tx_buffer[
            q.m_tx_insert_index]? =
        some { conn_handle := BLE_CONN_HANDLE_INVALID
               type := tx_request_t.WRITE_REQ
               write_req :=
                 { gattc_value := [0x01, 0x00]
                   gattc_params :=
                     { handle := BLE_GATT_HANDLE_INVALID
                       len := 2
                       offset := 0
                       write_op := BLE_GATT_OP_WRITE_REQ } } } ∧
      (ble_bp_c_mea_notif_enable err
          { inst := (ble_bp_c_init p_ble_bp_c cb e).1.1, q := q }).1.1.q.m_tx_buffer[
            q.m_tx_insert_index]? =
        some { conn_handle := BLE_CONN_HANDLE_INVALID
               type := tx_request_t.WRITE_REQ
               write_req :=
                 { gattc_value := [0x02, 0x00]
                   gattc_params :=
                     { handle := BLE_GATT_HANDLE_INVALID
                       len := 2
                       offset := 0
                       write_op := BLE_GATT_OP_WRITE_REQ } } } := by
  obtain ⟨hl, hin, _⟩ := hwf
  have hlt : q.m_tx_insert_index < q.m_tx_buffer.length := by rw [hl]; exact hin
  refine ⟨rfl, rfl, ?_, ?_⟩
  · simp only [ble_bp_c_cuff_notif_enable, NOTIFICATION_cccd_configure, cccd_configure]
    rw [(drain_buffer err _).1]
    simp only [List.getElem?_set, hlt, if_true]
    rfl
  · simp only [ble_bp_c_mea_notif_enable, INDICATION_cccd_configure, cccd_configure]
    rw [(drain_buffer err _).1]
    simp only [List.getElem?_set, hlt, if_true]
    rfl

/-- Witness for C18: the enable calls right after the initialisation of main.c,
with a refusing SoftDevice. -/
theorem enable_never_fails_witness :
    TxQueue.init.WF ∧
      ((ble_bp_c_cuff_notif_enable NRF_ERROR_BUSY State.init).2 = NRF_SUCCESS ∧
      (ble_bp_c_mea_notif_enable NRF_ERROR_BUSY State.init).2 = NRF_SUCCESS ∧
      (ble_bp_c_cuff_notif_enable NRF_ERROR_BUSY
          { inst := (ble_bp_c_init ble_bp_c_zero ble_bp_c_evt_handler_t.bp_c_evt_handler
              NRF_SUCCESS).1.1, q := TxQueue.init }).1.1.q.m_tx_buffer[
            TxQueue.init.m_tx_insert_index]? =
        some { conn_handle := BLE_CONN_HANDLE_INVALID
               type := tx_request_t.WRITE_REQ
               write_req :=
                 { gattc_value := [0x01, 0x00]
                   gattc_params :=
                     { handle := BLE_GATT_HANDLE_INVALID
                       len := 2
                       offset := 0
                       write_op := BLE_GATT_OP_WRITE_REQ } } } ∧
      (ble_bp_c_mea_notif_enable NRF_ERROR_BUSY
          { inst := (ble_bp_c_init ble_bp_c_zero ble_bp_c_evt_handler_t.bp_c_evt_handler
              NRF_SUCCESS).1.1, q := TxQueue.init }).1.1.q.m_tx_buffer[
            TxQueue.init.m_tx_insert_index]? =
        some { conn_handle := BLE_CONN_HANDLE_INVALID
               type := tx_request_t.WRITE_REQ
               write_req :=
                 { gattc_value := [0x02, 0x00]
                   gattc_params :=
                     { handle := BLE_GATT_HANDLE_INVALID
                       len := 2
                       offset := 0
                       write_op := BLE_GATT_OP_WRITE_REQ } } }) :=
  ⟨by decide,
    enable_never_fails State.init NRF_ERROR_BUSY ble_bp_c_zero
      ble_bp_c_evt_handler_t.bp_c_evt_handler NRF_SUCCESS TxQueue.init (by decide)⟩

/-- C19: dispatching `BLE_GAP_EVT_CONNECTED` with connection handle `c` sets the
`conn_handle` of the instance to `c` and changes nothing else: the seven handle
fields, the event callback and the queue (both indices and all slots) are as
before; nothing is done to the outside, so no SoftDevice request is made and no
event is raised. -/
theorem connect_stores_connection (err : Nat) (st : State) (c : Nat) :
    (ble_bp_c_on_ble_evt err st (ble_evt_t.BLE_GAP_EVT_CONNECTED c)).1.inst.conn_handle = c ∧
      (ble_bp_c_on_ble_evt err st (ble_evt_t.BLE_GAP_EVT_CONNECTED c)).1.inst.handles =
        st.inst.handles ∧
      (ble_bp_c_on_ble_evt err st (ble_evt_t.BLE_GAP_EVT_CONNECTED c)).1.inst.evt_handler =
        st.inst.evt_handler ∧
      (ble_bp_c_on_ble_evt err st (ble_evt_t.BLE_GAP_EVT_CONNECTED c)).1.q = st.q ∧
      (ble_bp_c_on_ble_evt err st (ble_evt_t.BLE_GAP_EVT_CONNECTED c)).1 =
        { st with inst := { st.inst with conn_handle := c } } ∧
      (ble_bp_c_on_ble_evt err st (ble_evt_t.BLE_GAP_EVT_CONNECTED c)).2 = [] :=
  ⟨rfl, rfl, rfl, rfl, rfl, rfl⟩

theorem enqueue_body (v c hd err : Nat) (q : TxQueue) (hwf : q.WF) :
    (cccd_configure v c hd err q).1 =
        tx_buffer_process err
          { q with
            m_tx_insert_index := (q.m_tx_insert_index + 1) % 8
            m_tx_buffer :=
              q.m_tx_buffer.set q.m_tx_insert_index (cccd_message tx_message_zero c hd v) } ∧
      (q.m_tx_buffer.set q.m_tx_insert_index
          (cccd_message tx_message_zero c hd v))[q.m_tx_insert_index]? =
        some (cccd_message tx_message_zero c hd v) ∧
      (q.m_tx_index = q.m_tx_insert_index →
        (cccd_configure v c hd NRF_SUCCESS q).1.2 =
            [submit (cccd_message tx_message_zero c hd v) NRF_SUCCESS] ∧
          (cccd_configure v c hd NRF_SUCCESS q).1.1.m_tx_index =
            (cccd_configure v c hd NRF_SUCCESS q).1.1.m_tx_insert_index) := by
  obtain ⟨hl, hin, hi⟩ := hwf
  have hin8 : q.m_tx_insert_index < 8 := hin
  have hlt : q.m_tx_insert_index < q.m_tx_buffer.length := by rw [hl]; exact hin
  have key : ∀ er, (cccd_configure v c hd er q).1 =
      tx_buffer_process er
        { q with
          m_tx_insert_index := (q.m_tx_insert_index + 1) % 8
          m_tx_buffer :=
            q.m_tx_buffer.set q.m_tx_insert_index (cccd_message tx_message_zero c hd v) } := by
    intro er
    simp only [cccd_configure]
    rw [index_next _ hin8]
    rfl
  have hne : q.m_tx_insert_index ≠ (q.m_tx_insert_index + 1) % 8 := by omega
  refine ⟨key err, by simp [List.getElem?_set, hlt], ?_⟩
  intro hemp
  rw [key NRF_SUCCESS]
  simp only [tx_buffer_process, hemp, hne, ne_eq, not_false_eq_true, if_true]
  refine ⟨?_, index_next _ hin8⟩
  simp [List.getD_eq_getElem?_getD, List.getElem?_set, hlt]

/-- C20: an enqueue call made with insert index `i`, through
`NOTIFICATION_cccd_configure` or `INDICATION_cccd_configure`, is one run of
`tx_buffer_process` on the queue in which slot `i` holds the new message and
the insert index is `(i + 1) % 8`; hence on an empty queue (drain index =
insert index) with an accepting SoftDevice the one request made is for the
message just enqueued, and on return the drain index equals the insert index
again. -/
theorem enqueue_then_drain (c hd : Nat) (e : Bool) (err : Nat) (q : TxQueue) (hwf : q.WF) :
    ((NOTIFICATION_cccd_configure c hd e err q).1 =
        tx_buffer_process err
          { q with
            m_tx_insert_index := (q.m_tx_insert_index + 1) % 8
            m_tx_buffer :=
              q.m_tx_buffer.set q.m_tx_insert_index
                (cccd_message tx_message_zero c hd
                  (if e then BLE_GATT_HVX_NOTIFICATION else 0)) } ∧
      (q.m_tx_buffer.set q.m_tx_insert_index
          (cccd_message tx_message_zero c hd
            (if e then BLE_GATT_HVX_NOTIFICATION else 0)))[q.m_tx_insert_index]? =
        some (cccd_message tx_message_zero c hd (if e then BLE_GATT_HVX_NOTIFICATION else 0)) ∧
      (q.m_tx_index = q.m_tx_insert_index →
        (NOTIFICATION_cccd_configure c hd e NRF_SUCCESS q).1.2 =
            [submit (cccd_message tx_message_zero c hd
              (if e then BLE_GATT_HVX_NOTIFICATION else 0)) NRF_SUCCESS] ∧
          (NOTIFICATION_cccd_configure c hd e NRF_SUCCESS q).1.1.m_tx_index =
            (NOTIFICATION_cccd_configure c hd e NRF_SUCCESS q).1.1.m_tx_insert_index)) ∧
    ((INDICATION_cccd_configure c hd e err q).1 =
        tx_buffer_process err
          { q with
            m_tx_insert_index := (q.m_tx_insert_index + 1) % 8
            m_tx_buffer :=
              q.m_tx_buffer.set q.m_tx_insert_index
                (cccd_message tx_message_zero c hd
                  (if e then BLE_GATT_HVX_INDICATION else 0)) } ∧
      (q.m_tx_buffer.set q.m_tx_insert_index
          (cccd_message tx_message_zero c hd
            (if e then BLE_GATT_HVX_INDICATION else 0)))[q.m_tx_insert_index]? =
        some (cccd_message tx_message_zero c hd (if e then BLE_GATT_HVX_INDICATION else 0)) ∧
      (q.m_tx_index = q.m_tx_insert_index →
        (INDICATION_cccd_configure c hd e NRF_SUCCESS q).1.2 =
            [submit (cccd_message tx_message_zero c hd
              (if e then BLE_GATT_HVX_INDICATION else 0)) NRF_SUCCESS] ∧
          (INDICATION_cccd_configure c hd e NRF_SUCCESS q).1.1.m_tx_index =
            (INDICATION_cccd_configure c hd e NRF_SUCCESS q).1.1.m_tx_insert_index)) :=
  ⟨enqueue_body _ c hd err q hwf, enqueue_body _ c hd err q hwf⟩

/-- Witness for C20: the first enqueue calls on the initial queue; the message
submitted is the write of `[0x01, 0x00]`, resp. `[0x02, 0x00]`, to the CCCD
handle 0x11 on connection 0. -/
theorem enqueue_then_drain_witness :
    TxQueue.init.WF ∧ TxQueue.init.m_tx_index = TxQueue.init.m_tx_insert_index ∧
      (NOTIFICATION_cccd_configure 0 0x11 true NRF_SUCCESS TxQueue.init).1.2 =
        [Out.sd_ble_gattc_write 0
          { handle := 0x11, len := 2, offset := 0, write_op := BLE_GATT_OP_WRITE_REQ } [1, 0]
          NRF_SUCCESS] ∧
      (NOTIFICATION_cccd_configure 0 0x11 true NRF_SUCCESS TxQueue.init).1.1.m_tx_index = 1 ∧
      (NOTIFICATION_cccd_configure 0 0x11 true NRF_SUCCESS TxQueue.init).1.1.m_tx_insert_index =
        1 ∧
      (INDICATION_cccd_configure 0 0x11 true NRF_SUCCESS TxQueue.init).1.2 =
        [Out.sd_ble_gattc_write 0
          { handle := 0x11, len := 2, offset := 0, write_op := BLE_GATT_OP_WRITE_REQ } [2, 0]
          NRF_SUCCESS] ∧
      (NOTIFICATION_cccd_configure 0 0x11 true NRF_SUCCESS TxQueue.init).1.1.m_tx_index =
        (NOTIFICATION_cccd_configure 0 0x11 true NRF_SUCCESS TxQueue.init).1.1.m_tx_insert_index :=
  ⟨by decide, by decide, by decide, by decide, by decide, by decide,
    ((enqueue_then_drain 0 0x11 true NRF_SUCCESS TxQueue.init (by decide)).1.2.2 rfl).2⟩

/-! ## The queue: one request per drain, captured connection, capacity -/

/-- C21: a run of `tx_buffer_process` on a queue whose drain index equals its
insert index makes no call to the outside and returns the queue as it was; on
any other queue it makes exactly one call, the SoftDevice request for the
message at the drain index, leaves the slots and the insert index as they were
and leaves the drain index where it was or moves it by one slot (modulo 8), the
latter exactly when the SoftDevice accepts: no second message is submitted in
the same run. -/
theorem one_request_per_drain (err : Nat) (q : TxQueue) (hwf : q.WF) :
    (q.m_tx_index = q.m_tx_insert_index → tx_buffer_process err q = (q, [])) ∧
      (q.m_tx_index ≠ q.m_tx_insert_index →
        ∃ m, q.m_tx_buffer[q.m_tx_index]? = some m ∧
          (tx_buffer_process err q).2 = [submit m err] ∧
          (tx_buffer_process err q).1.m_tx_buffer = q.m_tx_buffer ∧
          (tx_buffer_process err q).1.m_tx_insert_index = q.m_tx_insert_index ∧
          (tx_buffer_process err q).1.m_tx_index =
            if err = NRF_SUCCESS then (q.m_tx_index + 1) % 8 else q.m_tx_index) := by
  obtain ⟨hl, _, hi⟩ := hwf
  have hi8 : q.m_tx_index < 8 := hi
  have hlt : q.m_tx_index < q.m_tx_buffer.length := by rw [hl]; exact hi
  constructor
  · intro h
    simp [tx_buffer_process, h]
  · intro hne
    refine ⟨q.m_tx_buffer[q.m_tx_index], List.getElem?_eq_getElem hlt, ?_,
      (drain_buffer err q).1, (drain_buffer err q).2, ?_⟩
    · by_cases h : err = NRF_SUCCESS <;>
        simp [tx_buffer_process, hne, h, List.getD_eq_getElem?_getD,
          List.getElem?_eq_getElem hlt]
    · by_cases h : err = NRF_SUCCESS
      · simp only [tx_buffer_process, hne, h, ne_eq, not_false_eq_true, if_true]
        exact index_next _ hi8
      · simp only [tx_buffer_process, hne, h, ne_eq, not_false_eq_true, if_true, if_false]

/-- Witness for C21: the queue with one pending message and an accepting
SoftDevice. -/
theorem one_request_per_drain_witness :
    State.onePending.q.WF ∧ State.onePending.q.m_tx_index ≠ State.onePending.q.m_tx_insert_index ∧
      (tx_buffer_process NRF_SUCCESS State.onePending.q).2 =
        [Out.sd_ble_gattc_write 0
          { handle := 0, len := 2, offset := 0, write_op := BLE_GATT_OP_WRITE_REQ } [1, 0]
          NRF_SUCCESS] ∧
      ∃ m, State.onePending.q.m_tx_buffer[State.onePending.q.m_tx_index]? = some m ∧
        (tx_buffer_process NRF_SUCCESS State.onePending.q).2 = [submit m NRF_SUCCESS] ∧
        (tx_buffer_process NRF_SUCCESS State.onePending.q).1.m_tx_buffer =
          State.onePending.q.m_tx_buffer ∧
        (tx_buffer_process NRF_SUCCESS State.onePending.q).1.m_tx_insert_index =
          State.onePending.q.m_tx_insert_index ∧
        (tx_buffer_process NRF_SUCCESS State.onePending.q).1.m_tx_index =
          if NRF_SUCCESS = NRF_SUCCESS then (State.onePending.q.m_tx_index + 1) % 8
          else State.onePending.q.m_tx_index :=
  ⟨by decide, by decide, by decide,
    (one_request_per_drain NRF_SUCCESS State.onePending.q (by decide)).2 (by decide)⟩

theorem rep_drains (l1 : List tx_message_t) : ∀ (q : TxQueue) (l2 : List tx_message_t),
    Rep q (l1 ++ l2) →
    Rep (run (List.replicate l1.length (Op.tx_buffer_process NRF_SUCCESS)) q).1 l2 := by
  induction l1 with
  | nil => intro q l2 h; simpa [run] using h
  | cons m rest ih =>
    intro q l2 h
    obtain ⟨_, h2⟩ := rep_drain_accepted q m (rest ++ l2) h
    simp only [List.length_cons, List.replicate_succ, run, Op.step]
    exact ih _ l2 h2

theorem captured_body (v c hd err : Nat) (herr : err ≠ NRF_SUCCESS) (q : TxQueue)
    (pend : List tx_message_t) (hrep : Rep q pend) (hroom : pend.length + 1 < 8) (err3 : Nat) :
    (tx_buffer_process err3
        (run (List.replicate pend.length (Op.tx_buffer_process NRF_SUCCESS))
          (cccd_configure v c hd err q).1.1).1).2 =
      [submit (cccd_message tx_message_zero c hd v) err3] := by
  have hins := rep_insert q pend
    (cccd_message (q.m_tx_buffer.getD q.m_tx_insert_index default) c hd v) hrep hroom
  have hq : (cccd_configure v c hd err q).1.1 =
      { q with
        m_tx_insert_index := ((q.m_tx_insert_index + 1) % 2 ^ 32) &&& TX_BUFFER_MASK
        m_tx_buffer := q.m_tx_buffer.set q.m_tx_insert_index
          (cccd_message tx_message_zero c hd v) } := (enqueue_refused v c hd err herr q).1
  rw [cccd_message_eq] at hins
  rw [← hq] at hins
  have h2 := rep_drains pend _ [cccd_message tx_message_zero c hd v] hins
  by_cases h3 : err3 = NRF_SUCCESS
  · subst h3
    exact (rep_drain_accepted _ _ [] h2).1
  · rw [rep_drain_refused err3 h3 _ _ [] h2]

/-- C22: when a message is enqueued (by either enable call, the request made
during the call being refused) while the `conn_handle` of the instance is `c`
and the queue holds the messages `pend`, and a `BLE_GAP_EVT_CONNECTED` event
then sets `conn_handle` to `c2`, the message is still in the queue with the
connection handle `c`: once the messages before it have been accepted, the
request that the next `BLE_GATTC_EVT_WRITE_RSP` event makes for it passes `c`,
the handle captured at enqueue time, whatever `c2` is. -/
theorem conn_handle_captured (st : State) (pend : List tx_message_t) (hrep : Rep st.q pend)
    (hroom : pend.length + 1 < 8) (err : Nat) (herr : err ≠ NRF_SUCCESS) (c2 e2 err3 : Nat) :
    ((ble_bp_c_on_ble_evt e2 (ble_bp_c_cuff_notif_enable err st).1.1
          (ble_evt_t.BLE_GAP_EVT_CONNECTED c2)).1.inst.conn_handle = c2 ∧
      (ble_bp_c_on_ble_evt err3
          { (ble_bp_c_on_ble_evt e2 (ble_bp_c_cuff_notif_enable err st).1.1
              (ble_evt_t.BLE_GAP_EVT_CONNECTED c2)).1 with
            q := (run (List.replicate pend.length (Op.tx_buffer_process NRF_SUCCESS))
              (ble_bp_c_on_ble_evt e2 (ble_bp_c_cuff_notif_enable err st).1.1
                (ble_evt_t.BLE_GAP_EVT_CONNECTED c2)).1.q).1 }
          ble_evt_t.BLE_GATTC_EVT_WRITE_RSP).2 =
        [Out.sd_ble_gattc_write st.inst.conn_handle
          { handle := st.inst.bp_CUFF_cccd_handle, len := 2, offset := 0,
            write_op := BLE_GATT_OP_WRITE_REQ } [0x01, 0x00] err3]) ∧
    ((ble_bp_c_on_ble_evt e2 (ble_bp_c_mea_notif_enable err st).1.1
          (ble_evt_t.BLE_GAP_EVT_CONNECTED c2)).1.inst.conn_handle = c2 ∧
      (ble_bp_c_on_ble_evt err3
          { (ble_bp_c_on_ble_evt e2 (ble_bp_c_mea_notif_enable err st).1.1
              (ble_evt_t.BLE_GAP_EVT_CONNECTED c2)).1 with
            q := (run (List.replicate pend.length (Op.tx_buffer_process NRF_SUCCESS))
              (ble_bp_c_on_ble_evt e2 (ble_bp_c_mea_notif_enable err st).1.1
                (ble_evt_t.BLE_GAP_EVT_CONNECTED c2)).1.q).1 }
          ble_evt_t.BLE_GATTC_EVT_WRITE_RSP).2 =
        [Out.sd_ble_gattc_write st.inst.conn_handle
          { handle := st.inst.bp_MEA_cccd_handle, len := 2, offset := 0,
            write_op := BLE_GATT_OP_WRITE_REQ } [0x02, 0x00] err3]) := by
  refine ⟨⟨rfl, ?_⟩, ⟨rfl, ?_⟩⟩
  · exact captured_body BLE_GATT_HVX_NOTIFICATION st.inst.conn_handle
      st.inst.bp_CUFF_cccd_handle err herr st.q pend hrep hroom err3
  · exact captured_body BLE_GATT_HVX_INDICATION st.inst.conn_handle
      st.inst.bp_MEA_cccd_handle err herr st.q pend hrep hroom err3

theorem rep_empty (q : TxQueue) (hwf : q.WF) (he : q.m_tx_index = q.m_tx_insert_index) :
    Rep q [] := by
  obtain ⟨hl, hin, hi⟩ := hwf
  have hi8 : q.m_tx_index < 8 := hi
  refine ⟨⟨hl, hin, hi⟩, by decide, ?_, ?_⟩
  · show q.m_tx_insert_index = (q.m_tx_index + 0) % 8
    omega
  · intro j m h
    simp at h

/-- Witness for C22: after the discovery `measurementAt0x20` on connection 0 the
cuff enable call is refused, the connection handle changes to 5, and the next
write response submits the write on connection 0. -/
theorem conn_handle_captured_witness :
    State.discovered.inst.conn_handle = 0 ∧ NRF_ERROR_BUSY ≠ NRF_SUCCESS ∧
      (ble_bp_c_on_ble_evt NRF_SUCCESS
          (ble_bp_c_on_ble_evt NRF_SUCCESS
            (ble_bp_c_cuff_notif_enable NRF_ERROR_BUSY State.discovered).1.1
            (ble_evt_t.BLE_GAP_EVT_CONNECTED 5)).1
          ble_evt_t.BLE_GATTC_EVT_WRITE_RSP).2 =
        [Out.sd_ble_gattc_write 0
          { handle := 0, len := 2, offset := 0, write_op := BLE_GATT_OP_WRITE_REQ } [1, 0]
          NRF_SUCCESS] ∧
      (ble_bp_c_on_ble_evt NRF_SUCCESS (ble_bp_c_cuff_notif_enable NRF_ERROR_BUSY
          State.discovered).1.1 (ble_evt_t.BLE_GAP_EVT_CONNECTED 5)).1.inst.conn_handle = 5 :=
  ⟨by decide, by decide, by decide,
    (conn_handle_captured State.discovered [] (rep_empty _ (by decide) (by decide))
      (by decide) NRF_ERROR_BUSY (by decide) 5 NRF_SUCCESS NRF_SUCCESS).1.1⟩

theorem run_drains_empty (errs : List Nat) (q : TxQueue)
    (he : q.m_tx_index = q.m_tx_insert_index) :
    run (errs.map Op.tx_buffer_process) q = (q, []) := by
  induction errs with
  | nil => rfl
  | cons e rest ih =>
    have h1 : tx_buffer_process e q = (q, []) := by simp [tx_buffer_process, he]
    simp only [List.map_cons, run, Op.step, h1, ih, List.append_nil]

/-- C25: from the empty queue, after eight enqueue calls during which the
SoftDevice refuses every request, the insert index equals the drain index and
nothing was accepted; every later sequence of `tx_buffer_process` runs,
whatever the SoftDevice would answer, makes no call to the outside and leaves
the queue as it is, so none of the eight messages is submitted. -/
theorem effective_capacity_seven (ops : List Op) (hlen : ops.length = 8)
    (href : ∀ op ∈ ops, op.refusedEnqueue = true) (errs : List Nat) :
    (enqueued ops).length = 8 ∧
      (run ops TxQueue.init).1.m_tx_insert_index = (run ops TxQueue.init).1.m_tx_index ∧
      (run ops TxQueue.init).2.filter Out.accepted = [] ∧
      run (errs.map Op.tx_buffer_process) (run ops TxQueue.init).1 =
        ((run ops TxQueue.init).1, []) ∧
      (run (ops ++ errs.map Op.tx_buffer_process) TxQueue.init).2.filter Out.accepted = [] := by
  obtain ⟨r1, r2, r3, r4⟩ := refused_run ops TxQueue.init [] href (by simp [hlen]) rfl rfl rfl
  simp only [List.length_nil, hlen, List.nil_append] at r2 r3
  have r2b : (run ops TxQueue.init).1.m_tx_insert_index = 0 := by rw [r2]
  have hd := run_drains_empty errs (run ops TxQueue.init).1 (by rw [r1, r2b])
  have hl : (enqueued ops).length = 8 := by
    have := congrArg List.length r3
    simp at this
    have hb := (run_wf ops TxQueue.init (by decide)).1
    simp only [TX_BUFFER_SIZE, TX_BUFFER_MASK] at hb
    omega
  refine ⟨hl, by rw [r1, r2b], r4, hd, ?_⟩
  rw [run_append, hd, List.append_nil]
  exact r4

/-- Witness for C25: the eight refused enqueues `eightRefused`, followed by
three drain attempts that the SoftDevice would accept. -/
theorem effective_capacity_seven_witness :
    eightRefused.length = 8 ∧ (∀ op ∈ eightRefused, op.refusedEnqueue = true) ∧
      ((enqueued eightRefused).length = 8 ∧
      (run eightRefused TxQueue.init).1.m_tx_insert_index =
        (run eightRefused TxQueue.init).1.m_tx_index ∧
      (run eightRefused TxQueue.init).2.filter Out.accepted = [] ∧
      run ([NRF_SUCCESS, NRF_SUCCESS, NRF_SUCCESS].map Op.tx_buffer_process)
          (run eightRefused TxQueue.init).1 = ((run eightRefused TxQueue.init).1, []) ∧
      (run (eightRefused ++ [NRF_SUCCESS, NRF_SUCCESS, NRF_SUCCESS].map Op.tx_buffer_process)
          TxQueue.init).2.filter Out.accepted = []) :=
  ⟨by decide, by decide,
    effective_capacity_seven eightRefused (by decide) (by decide)
      [NRF_SUCCESS, NRF_SUCCESS, NRF_SUCCESS]⟩


/-! ## The decoder: length, handles, payload -/

theorem on_hvx_match (s : ble_bp_c_t) (hvx : ble_gattc_evt_hvx_t)
    (hh : hvx.handle = BLE_BP_MEASUREMENT_HANDLE) :
    (on_hvx s hvx).2 =
      [Out.call ble_bp_c_evt_handler_t.bp_c_evt_handler
        { evt_type := ble_bp_c_evt_type_t.BLE_BP_C_EVT_GOT_VAL
          bp_value :=
            [some (hvx.data 0 % 256), some (hvx.data 1 % 256), some (hvx.data 2 % 256),
              some (hvx.data 3 % 256)] ++ List.replicate 15 none }] := by
  simp only [on_hvx, hh, if_true]
  simp [List.range, List.range.loop, bp_value_unset, List.replicate]

theorem on_hvx_other (s : ble_bp_c_t) (hvx : ble_gattc_evt_hvx_t)
    (hh : hvx.handle ≠ BLE_BP_MEASUREMENT_HANDLE) : (on_hvx s hvx).2 = [] := by
  simp [on_hvx, hh]

theorem on_hvx_inst (s : ble_bp_c_t) (hvx : ble_gattc_evt_hvx_t) :
    (on_hvx s hvx).1 =
      { s with bp_CUFF_handle := BLE_CUFF_HANDLE, bp_MEA_handle := BLE_BP_MEASUREMENT_HANDLE } := by
  simp only [on_hvx]
  split <;> rfl

/-- C23: for a value-change event on the handle `BLE_BP_MEASUREMENT_HANDLE`,
whatever its reported length `hvx.len` (so also when it is less than 4), the
dispatcher raises `BLE_BP_C_EVT_GOT_VAL` with the bytes found at the indices 0,
1, 2, 3 of `hvx.data`; the indices read are exactly 0..3, and they all lie
within the payload exactly when the length is at least 4. -/
theorem no_length_check (err : Nat) (st : State) (hvx : ble_gattc_evt_hvx_t)
    (hh : hvx.handle = BLE_BP_MEASUREMENT_HANDLE) :
    (ble_bp_c_on_ble_evt err st (ble_evt_t.BLE_GATTC_EVT_HVX hvx)).2 =
        [Out.call ble_bp_c_evt_handler_t.bp_c_evt_handler
          { evt_type := ble_bp_c_evt_type_t.BLE_BP_C_EVT_GOT_VAL
            bp_value :=
              [some (hvx.data 0 % 256), some (hvx.data 1 % 256), some (hvx.data 2 % 256),
                some (hvx.data 3 % 256)] ++ List.replicate 15 none }] ∧
      on_hvx_reads hvx = [0, 1, 2, 3] ∧
      ((∀ i ∈ on_hvx_reads hvx, i < hvx.len) ↔ 4 ≤ hvx.len) := by
  have hr : on_hvx_reads hvx = [0, 1, 2, 3] := by
    simp [on_hvx_reads, hh, List.range, List.range.loop]
  refine ⟨on_hvx_match st.inst hvx hh, hr, ?_⟩
  rw [hr]
  constructor
  · intro h
    have := h 3 (by simp)
    omega
  · intro h i hi
    simp at hi
    omega

/-- Witness for C23: an event on the handle 0x000D that reports a payload of two
bytes; the bytes 3 and 4 that follow the payload in memory are decoded too. -/
theorem no_length_check_witness :
    ({ hvxSample 0xD with len := 2 } : ble_gattc_evt_hvx_t).handle = BLE_BP_MEASUREMENT_HANDLE ∧
      ({ hvxSample 0xD with len := 2 } : ble_gattc_evt_hvx_t).len < 4 ∧
      ((ble_bp_c_on_ble_evt NRF_SUCCESS State.discovered
          (ble_evt_t.BLE_GATTC_EVT_HVX { hvxSample 0xD with len := 2 })).2 =
        [Out.call ble_bp_c_evt_handler_t.bp_c_evt_handler
          { evt_type := ble_bp_c_evt_type_t.BLE_BP_C_EVT_GOT_VAL
            bp_value := [some 1, some 2, some 3, some 4] ++ List.replicate 15 none }]) ∧
      ¬ ∀ i ∈ on_hvx_reads { hvxSample 0xD with len := 2 },
        i < ({ hvxSample 0xD with len := 2 } : ble_gattc_evt_hvx_t).len :=
  ⟨rfl, by decide, by decide,
    fun h => absurd
      ((no_length_check NRF_SUCCESS State.discovered { hvxSample 0xD with len := 2 } rfl).2.2.mp
        h) (by decide)⟩

/-- C26: for every instance and every value-change event, `on_hvx` raises an
event, tagged `BLE_BP_C_EVT_GOT_VAL`, exactly when the notified handle equals
the constant `BLE_BP_MEASUREMENT_HANDLE` (0x000D), whatever `bp_MEA_handle` held
on entry, and raises nothing otherwise; on return `bp_MEA_handle` is 0x000D and
`bp_CUFF_handle` is `BLE_CUFF_HANDLE` (0x0010), and every other field is as it
was. -/
theorem hard_coded_handles (s : ble_bp_c_t) (hvx : ble_gattc_evt_hvx_t) :
    ((∃ evt, (on_hvx s hvx).2 = [Out.call ble_bp_c_evt_handler_t.bp_c_evt_handler evt] ∧
          evt.evt_type = ble_bp_c_evt_type_t.BLE_BP_C_EVT_GOT_VAL) ↔
        hvx.handle = 0x000D) ∧
      (hvx.handle ≠ 0x000D → (on_hvx s hvx).2 = []) ∧
      (on_hvx s hvx).1.bp_MEA_handle = 0x000D ∧
      (on_hvx s hvx).1.bp_CUFF_handle = 0x0010 ∧
      (on_hvx s hvx).1 = { s with bp_CUFF_handle := 0x0010, bp_MEA_handle := 0x000D } ∧
      BLE_BP_MEASUREMENT_HANDLE = 0x000D ∧ BLE_CUFF_HANDLE = 0x0010 := by
  have hi := on_hvx_inst s hvx
  refine ⟨⟨?_, ?_⟩, ?_, by rw [hi]; rfl, by rw [hi]; rfl, hi, rfl, rfl⟩
  · rintro ⟨evt, he, _⟩
    by_contra hne
    rw [on_hvx_other s hvx hne] at he
    cases he
  · intro hh
    exact ⟨_, on_hvx_match s hvx hh, rfl⟩
  · intro hne
    exact on_hvx_other s hvx hne

/-- C29: two value-change events on the handle `BLE_BP_MEASUREMENT_HANDLE` whose
data agree on the bytes 0..3, whatever follows and whatever the states of the
module, make the same single call to the outside; the event handed over has the
slots 0..3 of `bp_value` set to the payload bytes, each at most 255, and the
slots 4..18 (slot 14 among them) never assigned. -/
theorem four_bytes_only (err1 err2 : Nat) (st1 st2 : State) (hvx1 hvx2 : ble_gattc_evt_hvx_t)
    (h1 : hvx1.handle = BLE_BP_MEASUREMENT_HANDLE) (h2 : hvx2.handle = BLE_BP_MEASUREMENT_HANDLE)
    (hd : ∀ i, i < 4 → hvx1.data i = hvx2.data i) :
    (ble_bp_c_on_ble_evt err1 st1 (ble_evt_t.BLE_GATTC_EVT_HVX hvx1)).2 =
        (ble_bp_c_on_ble_evt err2 st2 (ble_evt_t.BLE_GATTC_EVT_HVX hvx2)).2 ∧
      ∃ evt, (ble_bp_c_on_ble_evt err1 st1 (ble_evt_t.BLE_GATTC_EVT_HVX hvx1)).2 =
          [Out.call ble_bp_c_evt_handler_t.bp_c_evt_handler evt] ∧
        evt.bp_value.length = 19 ∧
        (∀ i, i < 4 → ∃ v, evt.bp_value[i]? = some (some v) ∧ v = hvx1.data i % 256 ∧ v ≤ 255) ∧
        (∀ i, 4 ≤ i → i < 19 → evt.bp_value[i]? = some none) ∧
        evt.bp_value[14]? = some none := by
  have e1 := on_hvx_match st1.inst hvx1 h1
  have e2 := on_hvx_match st2.inst hvx2 h2
  refine ⟨?_, ?_⟩
  · show (on_hvx st1.inst hvx1).2 = (on_hvx st2.inst hvx2).2
    rw [e1, e2, hd 0 (by norm_num), hd 1 (by norm_num), hd 2 (by norm_num), hd 3 (by norm_num)]
  · refine ⟨_, e1, by simp, ?_, ?_, by simp⟩
    · intro i hi
      have hlt : ∀ n : Nat, n % 256 ≤ 255 := fun n => by omega
      interval_cases i
      · exact ⟨_, by simp, rfl, hlt _⟩
      · exact ⟨_, by simp, rfl, hlt _⟩
      · exact ⟨_, by simp, rfl, hlt _⟩
      · exact ⟨_, by simp, rfl, hlt _⟩
    · intro i h4 h19
      interval_cases i <;> simp

/-- Witness for C29: the payloads 1, 2, 3, 4, 5 and 1, 2, 3, 4, 99, 98 on the
handle 0x000D, in different states of the module. -/
theorem four_bytes_only_witness :
    (hvxSample 0xD).handle = BLE_BP_MEASUREMENT_HANDLE ∧
      (ble_bp_c_on_ble_evt NRF_SUCCESS State.discovered
          (ble_evt_t.BLE_GATTC_EVT_HVX (hvxSample 0xD))).2 =
        (ble_bp_c_on_ble_evt NRF_ERROR_BUSY State.init
          (ble_evt_t.BLE_GATTC_EVT_HVX
            { handle := 0xD, len := 6, data := fun i => [1, 2, 3, 4, 99, 98].getD i 0 })).2 :=
  ⟨rfl,
    (four_bytes_only NRF_SUCCESS NRF_ERROR_BUSY State.discovered State.init (hvxSample 0xD)
      { handle := 0xD, len := 6, data := fun i => [1, 2, 3, 4, 99, 98].getD i 0 } rfl rfl
      (fun i hi => by interval_cases i <;> rfl)).1⟩


/-! ## Discovery: one role per pass -/

theorem ofUuid_cases (u : Nat) :
    (u = BLE_UUID_INTERMEDIATE_CUFF_PRESSURE_CHAR ∧ Role.ofUuid u = some Role.CUFF) ∨
      (u ≠ BLE_UUID_INTERMEDIATE_CUFF_PRESSURE_CHAR ∧
        u = BLE_UUID_BLOOD_PRESSURE_MEASUREMENT_CHAR ∧
        Role.ofUuid u = some Role.MEASUREMENT) ∨
      (u ≠ BLE_UUID_INTERMEDIATE_CUFF_PRESSURE_CHAR ∧
        u ≠ BLE_UUID_BLOOD_PRESSURE_MEASUREMENT_CHAR ∧
        u = BLE_UUID_BLOOD_PRESSURE_FEATURE_CHAR ∧ Role.ofUuid u = some Role.FEATURE) ∨
      (u ≠ BLE_UUID_INTERMEDIATE_CUFF_PRESSURE_CHAR ∧
        u ≠ BLE_UUID_BLOOD_PRESSURE_MEASUREMENT_CHAR ∧
        u ≠ BLE_UUID_BLOOD_PRESSURE_FEATURE_CHAR ∧
        u = BLE_UUID_HEART_RATE_MEASUREMENT_CHAR ∧ Role.ofUuid u = some Role.LEGACY) ∨
      (u ≠ BLE_UUID_INTERMEDIATE_CUFF_PRESSURE_CHAR ∧
        u ≠ BLE_UUID_BLOOD_PRESSURE_MEASUREMENT_CHAR ∧
        u ≠ BLE_UUID_BLOOD_PRESSURE_FEATURE_CHAR ∧
        u ≠ BLE_UUID_HEART_RATE_MEASUREMENT_CHAR ∧ Role.ofUuid u = none) := by
  unfold Role.ofUuid
  by_cases h1 : u = BLE_UUID_INTERMEDIATE_CUFF_PRESSURE_CHAR
  · exact Or.inl ⟨h1, by rw [if_pos h1]⟩
  · by_cases h2 : u = BLE_UUID_BLOOD_PRESSURE_MEASUREMENT_CHAR
    · exact Or.inr (Or.inl ⟨h1, h2, by rw [if_neg h1, if_pos h2]⟩)
    · by_cases h3 : u = BLE_UUID_BLOOD_PRESSURE_FEATURE_CHAR
      · exact Or.inr (Or.inr (Or.inl ⟨h1, h2, h3, by rw [if_neg h1, if_neg h2, if_pos h3]⟩))
      · by_cases h4 : u = BLE_UUID_HEART_RATE_MEASUREMENT_CHAR
        · exact Or.inr (Or.inr (Or.inr (Or.inl
            ⟨h1, h2, h3, h4, by rw [if_neg h1, if_neg h2, if_neg h3, if_pos h4]⟩)))
        · exact Or.inr (Or.inr (Or.inr (Or.inr
            ⟨h1, h2, h3, h4, by rw [if_neg h1, if_neg h2, if_neg h3, if_neg h4]⟩)))

theorem discover_loop_cons_role (s : ble_bp_c_t) (x : ble_db_discovery_char_t)
    (rest : List ble_db_discovery_char_t) (hx : (Role.ofUuid x.uuid.uuid).isSome = true) :
    discover_loop s (x :: rest) = discover_loop s [x] := by
  rcases ofUuid_cases x.uuid.uuid with ⟨h1, _⟩ | ⟨h1, h2, _⟩ | ⟨h1, h2, h3, _⟩ |
    ⟨h1, h2, h3, h4, _⟩ | ⟨h1, h2, h3, h4, h5⟩
  · simp only [discover_loop, if_pos h1]
  · simp only [discover_loop, if_neg h1, if_pos h2]
  · simp only [discover_loop, if_neg h1, if_neg h2, if_pos h3]
  · simp only [discover_loop, if_neg h1, if_neg h2, if_neg h3, if_pos h4]
  · rw [h5] at hx; cases hx

theorem discover_loop_cons_none (s : ble_bp_c_t) (x : ble_db_discovery_char_t)
    (rest : List ble_db_discovery_char_t) (hx : ¬ (Role.ofUuid x.uuid.uuid).isSome = true) :
    discover_loop s (x :: rest) = discover_loop s rest := by
  rcases ofUuid_cases x.uuid.uuid with ⟨_, h5⟩ | ⟨_, _, h5⟩ | ⟨_, _, _, h5⟩ |
    ⟨_, _, _, _, h5⟩ | ⟨h1, h2, h3, h4, _⟩
  · rw [h5] at hx; exact absurd rfl hx
  · rw [h5] at hx; exact absurd rfl hx
  · rw [h5] at hx; exact absurd rfl hx
  · rw [h5] at hx; exact absurd rfl hx
  · simp only [discover_loop, if_neg h1, if_neg h2, if_neg h3, if_neg h4]

theorem discover_loop_find (s : ble_bp_c_t) (chars : List ble_db_discovery_char_t) :
    (chars.find? (fun x => (Role.ofUuid x.uuid.uuid).isSome) = none →
        discover_loop s chars = s) ∧
      ∀ c, chars.find? (fun x => (Role.ofUuid x.uuid.uuid).isSome) = some c →
        discover_loop s chars = discover_loop s [c] := by
  induction chars with
  | nil => exact ⟨fun _ => rfl, fun c h => by simp at h⟩
  | cons x rest ih =>
    by_cases hx : (Role.ofUuid x.uuid.uuid).isSome = true
    · constructor
      · intro h
        simp [List.find?_cons, hx] at h
      · intro c h
        simp only [List.find?_cons, hx, Option.some.injEq] at h
        subst h
        exact discover_loop_cons_role s x rest hx
    · rw [discover_loop_cons_none s x rest hx]
      have hf : (x :: rest).find? (fun x => (Role.ofUuid x.uuid.uuid).isSome) =
          rest.find? (fun x => (Role.ofUuid x.uuid.uuid).isSome) := by
        simp only [List.find?_cons]
        split
        · next h => exact absurd h hx
        · rfl
      rw [hf]
      exact ih

theorem discover_loop_single (s : ble_bp_c_t) (c : ble_db_discovery_char_t) (R : Role)
    (hR : Role.ofUuid c.uuid.uuid = some R) :
    R.recorded (discover_loop s [c]) = R.reported c ∧
      (∀ R2, R2 ≠ R → R2.recorded (discover_loop s [c]) = R2.recorded s) ∧
      (discover_loop s [c]).conn_handle = s.conn_handle ∧
      (discover_loop s [c]).evt_handler = s.evt_handler := by
  rcases ofUuid_cases c.uuid.uuid with ⟨h1, h5⟩ | ⟨h1, h2, h5⟩ | ⟨h1, h2, h3, h5⟩ |
    ⟨h1, h2, h3, h4, h5⟩ | ⟨h1, h2, h3, h4, h5⟩
  · rw [h5] at hR
    cases hR
    have hd : discover_loop s [c] =
        { s with bp_CUFF_cccd_handle := c.cccd_handle, bp_CUFF_handle := c.handle_value } := by
      simp only [discover_loop, if_pos h1]
    rw [hd]
    refine ⟨rfl, ?_, rfl, rfl⟩
    intro R2 h2
    cases R2 <;> first | rfl | exact absurd rfl h2
  · rw [h5] at hR
    cases hR
    have hd : discover_loop s [c] =
        { s with bp_MEA_cccd_handle := c.cccd_handle, bp_MEA_handle := c.handle_value } := by
      simp only [discover_loop, if_neg h1, if_pos h2]
    rw [hd]
    refine ⟨rfl, ?_, rfl, rfl⟩
    intro R2 h2
    cases R2 <;> first | rfl | exact absurd rfl h2
  · rw [h5] at hR
    cases hR
    have hd : discover_loop s [c] = { s with bp_FEA_handle := c.handle_value } := by
      simp only [discover_loop, if_neg h1, if_neg h2, if_pos h3]
    rw [hd]
    refine ⟨rfl, ?_, rfl, rfl⟩
    intro R2 h2
    cases R2 <;> first | rfl | exact absurd rfl h2
  · rw [h5] at hR
    cases hR
    have hd : discover_loop s [c] =
        { s with bp_test_cccd_handle := c.cccd_handle, bp_test_handle := c.handle_value } := by
      simp only [discover_loop, if_neg h1, if_neg h2, if_neg h3, if_pos h4]
    rw [hd]
    refine ⟨rfl, ?_, rfl, rfl⟩
    intro R2 h2
    cases R2 <;> first | rfl | exact absurd rfl h2
  · rw [h5] at hR
    cases hR

/-- C27: a discovery-complete event for the Blood Pressure service leaves
the instance as it was when no characteristic of its list has one of the four role
UUIDs; otherwise, with `c` the first characteristic in list order that has one,
and `R` its role, the instance after the event is what the loop makes of the
one-element list `c` (the entries after `c` play no part): the fields of `R`
hold the handles of `c` (for FEATURE the value handle only), the handle fields
of every other role, `conn_handle` and the callback are as they were. -/
theorem one_role_per_pass (s : ble_bp_c_t) (p_evt : ble_db_discovery_evt_t)
    (ht : p_evt.evt_type = ble_db_discovery_evt_type_t.BLE_DB_DISCOVERY_COMPLETE)
    (hu : p_evt.srv_uuid.uuid = BLE_UUID_BLOOD_PRESSURE_SERVICE)
    (hy : p_evt.srv_uuid.type = BLE_UUID_TYPE_BLE) :
    (p_evt.charateristics.find? (fun x => (Role.ofUuid x.uuid.uuid).isSome) = none →
        (db_discover_evt_handler s p_evt).1 = s) ∧
      ∀ c R, p_evt.charateristics.find? (fun x => (Role.ofUuid x.uuid.uuid).isSome) = some c →
        Role.ofUuid c.uuid.uuid = some R →
        (db_discover_evt_handler s p_evt).1 = discover_loop s [c] ∧
          R.recorded (db_discover_evt_handler s p_evt).1 = R.reported c ∧
          (∀ R2, R2 ≠ R →
            R2.recorded (db_discover_evt_handler s p_evt).1 = R2.recorded s) ∧
          (db_discover_evt_handler s p_evt).1.conn_handle = s.conn_handle ∧
          (db_discover_evt_handler s p_evt).1.evt_handler = s.evt_handler := by
  have hi : (db_discover_evt_handler s p_evt).1 = discover_loop s p_evt.charateristics := by
    unfold db_discover_evt_handler
    rw [if_pos ⟨ht, hu, hy⟩]
    dsimp only
    split <;> rfl
  obtain ⟨h1, h2⟩ := discover_loop_find s p_evt.charateristics
  rw [hi]
  refine ⟨h1, ?_⟩
  intro c R hc hR
  rw [h2 c hc]
  exact ⟨rfl, discover_loop_single s c R hR⟩

/-- Witness for C27: the list measurement (0x0D/0x0E), cuff (0x10/0x11) resolves
the measurement role only. -/
theorem one_role_per_pass_witness :
    measurementThenCuff.evt_type = ble_db_discovery_evt_type_t.BLE_DB_DISCOVERY_COMPLETE ∧
      measurementThenCuff.srv_uuid.uuid = BLE_UUID_BLOOD_PRESSURE_SERVICE ∧
      measurementThenCuff.srv_uuid.type = BLE_UUID_TYPE_BLE ∧
      (db_discover_evt_handler State.init.inst measurementThenCuff).1.handles =
        [0, 0x0E, 0, 0x0D, 0, 0, 0] ∧
      Role.MEASUREMENT.recorded (db_discover_evt_handler State.init.inst measurementThenCuff).1 =
        Role.MEASUREMENT.reported
          { uuid := { uuid := BLE_UUID_BLOOD_PRESSURE_MEASUREMENT_CHAR,
                      type := BLE_UUID_TYPE_BLE }
            handle_value := 0x0D
            cccd_handle := 0x0E } :=
  ⟨rfl, rfl, rfl, by decide,
    ((one_role_per_pass State.init.inst measurementThenCuff rfl rfl rfl).2 _ Role.MEASUREMENT
      (by decide) (by decide)).2.1⟩


/-! ## The queue: only CCCD writes are ever requested -/

theorem cccd_message_isCccdWrite (old : tx_message_t) (c hd v : Nat) :
    (cccd_message old c hd v).isCccdWrite :=
  ⟨rfl, rfl, rfl, rfl⟩

theorem submit_isCccdWrite (m : tx_message_t) (err : Nat) (hm : m.isCccdWrite) :
    (submit m err).isCccdWrite := by
  obtain ⟨h1, h2, h3, h4⟩ := hm
  unfold submit
  rw [if_neg (by rw [h1]; decide)]
  exact ⟨h2, h3, h4⟩

theorem filled_init : FilledAhead TxQueue.init := by
  refine ⟨by decide, Or.inr ⟨Nat.le_refl _, ?_⟩⟩
  intro j m hj
  exact absurd hj (Nat.not_lt_zero _)

theorem filled_head (q : TxQueue) (hf : FilledAhead q)
    (hne : q.m_tx_index ≠ q.m_tx_insert_index) :
    (q.m_tx_buffer.getD q.m_tx_index default).isCccdWrite := by
  obtain ⟨⟨hl, _, hi⟩, h⟩ := hf
  have hlt : q.m_tx_index < q.m_tx_buffer.length := by rw [hl]; exact hi
  have hg : q.m_tx_buffer[q.m_tx_index]? = some q.m_tx_buffer[q.m_tx_index] :=
    List.getElem?_eq_getElem hlt
  rw [List.getD_eq_getElem?_getD, hg]
  rcases h with h | ⟨hle, h⟩
  · exact h _ (List.getElem_mem _)
  · exact h _ _ (by omega) hg

theorem filled_drain (err : Nat) (q : TxQueue) (hf : FilledAhead q) :
    FilledAhead (tx_buffer_process err q).1 ∧
      ∀ o ∈ (tx_buffer_process err q).2, o.isCccdWrite := by
  by_cases hne : q.m_tx_index = q.m_tx_insert_index
  · have h1 : tx_buffer_process err q = (q, []) := by simp [tx_buffer_process, hne]
    rw [h1]
    exact ⟨hf, fun o ho => by simp at ho⟩
  · have hm := filled_head q hf hne
    obtain ⟨⟨hl, hin, hi⟩, h⟩ := hf
    have hi8 : q.m_tx_index < 8 := hi
    have hin8 : q.m_tx_insert_index < 8 := hin
    by_cases herr : err = NRF_SUCCESS
    · simp only [tx_buffer_process, hne, herr, ne_eq, not_false_eq_true, if_true]
      refine ⟨⟨⟨hl, hin, ?_⟩, ?_⟩, ?_⟩
      · show ((q.m_tx_index + 1) % 2 ^ 32) &&& TX_BUFFER_MASK < TX_BUFFER_SIZE
        rw [index_next _ hi8]
        exact Nat.mod_lt _ (by decide)
      · rcases h with h | ⟨hle, h⟩
        · exact Or.inl h
        · right
          refine ⟨?_, h⟩
          show ((q.m_tx_index + 1) % 2 ^ 32) &&& TX_BUFFER_MASK ≤ q.m_tx_insert_index
          rw [index_next _ hi8]
          omega
      · intro o ho
        simp only [List.mem_singleton] at ho
        rw [ho, ← herr]
        exact submit_isCccdWrite _ _ hm
    · simp only [tx_buffer_process, hne, herr, ne_eq, not_false_eq_true, if_true, if_false]
      refine ⟨⟨⟨hl, hin, hi⟩, h⟩, ?_⟩
      intro o ho
      simp only [List.mem_singleton] at ho
      rw [ho]
      exact submit_isCccdWrite _ _ hm

theorem filled_insert (q : TxQueue) (m : tx_message_t) (hm : m.isCccdWrite)
    (hf : FilledAhead q) :
    FilledAhead
      { q with
        m_tx_insert_index := ((q.m_tx_insert_index + 1) % 2 ^ 32) &&& TX_BUFFER_MASK
        m_tx_buffer := q.m_tx_buffer.set q.m_tx_insert_index m } := by
  obtain ⟨⟨hl, hin, hi⟩, h⟩ := hf
  have hl8 : q.m_tx_buffer.length = 8 := hl
  have hi8 : q.m_tx_index < 8 := hi
  have hin8 : q.m_tx_insert_index < 8 := hin
  have hset : ∀ x ∈ q.m_tx_buffer.set q.m_tx_insert_index m, x = m ∨ x ∈ q.m_tx_buffer := by
    intro x hx
    rcases List.mem_or_eq_of_mem_set hx with hx | hx
    · exact Or.inr hx
    · exact Or.inl hx
  refine ⟨⟨by simpa using hl, ?_, hi⟩, ?_⟩
  · show ((q.m_tx_insert_index + 1) % 2 ^ 32) &&& TX_BUFFER_MASK < TX_BUFFER_SIZE
    rw [index_next _ hin8]
    exact Nat.mod_lt _ (by decide)
  · show (∀ x ∈ q.m_tx_buffer.set q.m_tx_insert_index m, x.isCccdWrite) ∨
      (q.m_tx_index ≤ ((q.m_tx_insert_index + 1) % 2 ^ 32) &&& TX_BUFFER_MASK ∧
        ∀ j x, j < ((q.m_tx_insert_index + 1) % 2 ^ 32) &&& TX_BUFFER_MASK →
          (q.m_tx_buffer.set q.m_tx_insert_index m)[j]? = some x → x.isCccdWrite)
    rw [index_next _ hin8]
    rcases h with h | ⟨hle, h⟩
    · left
      intro x hx
      rcases hset x hx with hx | hx
      · rw [hx]; exact hm
      · exact h x hx
    · have hslot : ∀ j x, j < q.m_tx_insert_index + 1 →
          (q.m_tx_buffer.set q.m_tx_insert_index m)[j]? = some x → x.isCccdWrite := by
        intro j x hj hx
        rw [List.getElem?_set] at hx
        by_cases hji : q.m_tx_insert_index = j
        · rw [if_pos hji] at hx
          split at hx
          · cases hx; exact hm
          · cases hx
        · rw [if_neg hji] at hx
          exact h j x (by omega) hx
      by_cases h7 : q.m_tx_insert_index = 7
      · left
        intro x hx
        obtain ⟨j, hj, hjx⟩ := List.getElem_of_mem hx
        have hj8 : j < 8 := by simpa [hl8] using hj
        exact hslot j x (by omega) (by rw [List.getElem?_eq_getElem hj, hjx])
      · right
        have e : (q.m_tx_insert_index + 1) % 8 = q.m_tx_insert_index + 1 := by omega
        rw [e]
        exact ⟨by omega, hslot⟩

theorem filled_enqueue (v c hd err : Nat) (q : TxQueue) (hf : FilledAhead q) :
    FilledAhead (cccd_configure v c hd err q).1.1 ∧
      ∀ o ∈ (cccd_configure v c hd err q).1.2, o.isCccdWrite := by
  unfold cccd_configure
  exact filled_drain err _ (filled_insert q _ (cccd_message_isCccdWrite _ c hd v) hf)

theorem filled_step (a : Action) (st : State) (hf : FilledAhead st.q) :
    FilledAhead (a.step st).1.q ∧
      ∀ o ∈ (a.step st).2, o.isRequest = true → o.isCccdWrite := by
  cases a with
  | ble_evt err evt =>
    cases evt with
    | BLE_GAP_EVT_CONNECTED c => exact ⟨hf, fun o ho => by simp [Action.step, ble_bp_c_on_ble_evt] at ho⟩
    | BLE_GAP_EVT_DISCONNECTED =>
      refine ⟨hf, fun o ho hr => ?_⟩
      simp only [Action.step, ble_bp_c_on_ble_evt, List.mem_singleton] at ho
      rw [ho] at hr
      cases hr
    | BLE_GATTC_EVT_HVX hvx =>
      refine ⟨hf, fun o ho hr => ?_⟩
      simp only [Action.step, ble_bp_c_on_ble_evt, on_hvx] at ho
      split at ho
      · simp only [List.mem_singleton] at ho
        rw [ho] at hr
        cases hr
      · simp at ho
    | BLE_GATTC_EVT_WRITE_RSP =>
      obtain ⟨h1, h2⟩ := filled_drain err st.q hf
      exact ⟨h1, fun o ho _ => h2 o ho⟩
    | other n => exact ⟨hf, fun o ho => by simp [Action.step, ble_bp_c_on_ble_evt] at ho⟩
  | db_discovery_evt p_evt =>
    refine ⟨hf, fun o ho hr => ?_⟩
    simp only [Action.step, db_discover_evt_handler] at ho
    split at ho
    · split at ho
      · simp only [List.mem_singleton] at ho
        rw [ho] at hr
        cases hr
      · simp at ho
    · simp at ho
  | cuff_notif_enable err =>
    obtain ⟨h1, h2⟩ := filled_enqueue BLE_GATT_HVX_NOTIFICATION st.inst.conn_handle
      st.inst.bp_CUFF_cccd_handle err st.q hf
    exact ⟨h1, fun o ho _ => h2 o ho⟩
  | mea_notif_enable err =>
    obtain ⟨h1, h2⟩ := filled_enqueue BLE_GATT_HVX_INDICATION st.inst.conn_handle
      st.inst.bp_MEA_cccd_handle err st.q hf
    exact ⟨h1, fun o ho _ => h2 o ho⟩

theorem exec_fold (acts : List Action) : ∀ (st : State) (tr : List Out),
    acts.foldl (fun r a => ((a.step r.1).1, r.2 ++ (a.step r.1).2)) (st, tr) =
      ((exec acts st).1, tr ++ (exec acts st).2) := by
  induction acts with
  | nil => intro st tr; simp [exec]
  | cons a acts ih =>
    intro st tr
    simp only [exec, List.foldl_cons]
    rw [ih, ih (a.step st).1 ([] ++ (a.step st).2)]
    simp [exec, List.append_assoc]

theorem exec_trace (a : Action) (acts : List Action) (st : State) :
    (exec (a :: acts) st).2 = (a.step st).2 ++ (exec acts (a.step st).1).2 := by
  have := exec_fold acts (a.step st).1 ([] ++ (a.step st).2)
  simp only [exec, List.foldl_cons] at this ⊢
  rw [this]
  simp

theorem filled_exec (acts : List Action) : ∀ st : State, FilledAhead st.q →
    FilledAhead (exec acts st).1.q ∧
      ∀ o ∈ (exec acts st).2, o.isRequest = true → o.isCccdWrite := by
  induction acts with
  | nil => intro st hf; exact ⟨hf, fun o ho => by simp [exec] at ho⟩
  | cons a acts ih =>
    intro st hf
    obtain ⟨h1, h2⟩ := filled_step a st hf
    obtain ⟨h3, h4⟩ := ih _ h1
    rw [exec_cons, exec_trace]
    refine ⟨h3, fun o ho hr => ?_⟩
    rcases List.mem_append.mp ho with ho | ho
    · exact h2 o ho hr
    · exact h4 o ho hr

theorem filled_slots (q : TxQueue) (hf : FilledAhead q) (j : Nat)
    (hj : j < (q.m_tx_insert_index + 8 - q.m_tx_index) % 8) :
    ∃ m, q.m_tx_buffer[(q.m_tx_index + j) % 8]? = some m ∧ m.type = tx_request_t.WRITE_REQ := by
  obtain ⟨⟨hl, hin, hi⟩, h⟩ := hf
  have hl8 : q.m_tx_buffer.length = 8 := hl
  have hi8 : q.m_tx_index < 8 := hi
  have hin8 : q.m_tx_insert_index < 8 := hin
  have hlt : (q.m_tx_index + j) % 8 < q.m_tx_buffer.length := by
    rw [hl8]; exact Nat.mod_lt _ (by norm_num)
  refine ⟨_, List.getElem?_eq_getElem hlt, ?_⟩
  rcases h with h | ⟨hle, h⟩
  · exact (h _ (List.getElem_mem _)).1
  · exact (h ((q.m_tx_index + j) % 8) _ (by omega) (List.getElem?_eq_getElem hlt)).1

/-- C28: in every state reached from the zero-initialised queue, whatever
the instance, by enable calls, dispatched events (discovery events included) and
the drain attempts they trigger, under any answers of the SoftDevice, every
slot from the drain index up to the insert index holds a message of type
`WRITE_REQ`; and every SoftDevice request made on the way is a call of
`sd_ble_gattc_write`, never of `sd_ble_gattc_read`, for a 2-byte value with
length 2 and write mode `BLE_GATT_OP_WRITE_REQ`. -/
theorem no_read_issued (inst : ble_bp_c_t) (acts : List Action) :
    (∀ j, j < ((exec acts { inst := inst, q := TxQueue.init }).1.q.m_tx_insert_index + 8 -
          (exec acts { inst := inst, q := TxQueue.init }).1.q.m_tx_index) % 8 →
        ∃ m, (exec acts { inst := inst, q := TxQueue.init }).1.q.m_tx_buffer[
              ((exec acts { inst := inst, q := TxQueue.init }).1.q.m_tx_index + j) % 8]? =
            some m ∧
          m.type = tx_request_t.WRITE_REQ) ∧
      ∀ o ∈ (exec acts { inst := inst, q := TxQueue.init }).2, o.isRequest = true →
        ∃ conn_handle p value err,
          o = Out.sd_ble_gattc_write conn_handle p value err ∧ p.len = 2 ∧
            p.write_op = BLE_GATT_OP_WRITE_REQ ∧ value.length = 2 := by
  obtain ⟨h1, h2⟩ := filled_exec acts { inst := inst, q := TxQueue.init } filled_init
  refine ⟨fun j hj => filled_slots _ h1 j hj, fun o ho hr => ?_⟩
  have hw := h2 o ho hr
  cases o with
  | sd_ble_gattc_read a b c d => exact absurd hw (by simp [Out.isCccdWrite])
  | sd_ble_gattc_write a p v e =>
    obtain ⟨w1, w2, w3⟩ := hw
    exact ⟨a, p, v, e, rfl, w1, w2, w3⟩
  | call f e => cases hr
  | ble_db_discovery_evt_register u e => cases hr


/-! ## The advertising report parser -/

theorem parse_terminates (mem : Nat → Nat) (type : Nat) (p_advdata p_typedata : data_t)
    (h16 : p_advdata.data_len < 65536) (fuel : Nat) :
    ∀ index, p_advdata.data_len ≤ index + fuel → index ≤ p_advdata.data_len + 256 →
      ∃ r, adv_report_parse_loop mem type p_advdata p_typedata fuel index = some r ∧
        r.2.2 + index ≤ max p_advdata.data_len index := by
  induction fuel with
  | zero =>
    intro index hf _
    have : ¬ index < p_advdata.data_len := by omega
    refine ⟨(NRF_ERROR_NOT_FOUND, p_typedata, 0), ?_, ?_⟩
    · simp only [adv_report_parse_loop, this, if_false]
    · show 0 + index ≤ max p_advdata.data_len index
      omega
  | succ fuel ih =>
    intro index hf hi
    by_cases hlt : index < p_advdata.data_len
    · simp only [adv_report_parse_loop, hlt, if_true]
      by_cases ht : mem (p_advdata.p_data + (index + 1)) % 256 = type
      · rw [if_pos ht]
        refine ⟨_, rfl, ?_⟩
        show 1 + index ≤ max p_advdata.data_len index
        omega
      · rw [if_neg ht]
        have hfl : mem (p_advdata.p_data + index) % 256 < 256 := Nat.mod_lt _ (by norm_num)
        have hmod : (index + (mem (p_advdata.p_data + index) % 256 + 1)) % 2 ^ 32 =
            index + (mem (p_advdata.p_data + index) % 256 + 1) :=
          Nat.mod_eq_of_lt (by norm_num; omega)
        rw [hmod]
        obtain ⟨r, hr, hb⟩ := ih (index + (mem (p_advdata.p_data + index) % 256 + 1))
          (by omega) (by omega)
        rw [hr]
        refine ⟨_, rfl, ?_⟩
        show r.2.2 + 1 + index ≤ max p_advdata.data_len index
        omega
    · refine ⟨(NRF_ERROR_NOT_FOUND, p_typedata, 0), ?_, ?_⟩
      · simp only [adv_report_parse_loop, hlt, if_false]
      · show 0 + index ≤ max p_advdata.data_len index
        omega

/-- C30: for every memory content, every type looked for and every report
length `data_len` below 2^16 (zero-length fields and length bytes that run past
`data_len` included), `data_len` runs of the loop body are enough for
`adv_report_parse` to return, and it returns after at most `data_len` of them;
when a run of the body does not return, the index grows by the field's length
byte plus 1, so by at least 1. -/
theorem parse_returns (mem : Nat → Nat) (type : Nat) (p_advdata p_typedata : data_t)
    (h16 : p_advdata.data_len < 65536) :
    (∃ r, adv_report_parse p_advdata.data_len mem type p_advdata p_typedata = some r ∧
        r.2.2 ≤ p_advdata.data_len) ∧
      ∀ fuel index, index < p_advdata.data_len →
        mem (p_advdata.p_data + (index + 1)) % 256 ≠ type →
        adv_report_parse_loop mem type p_advdata p_typedata (fuel + 1) index =
            (adv_report_parse_loop mem type p_advdata p_typedata fuel
              (index + (mem (p_advdata.p_data + index) % 256 + 1))).map
              (fun r => (r.1, r.2.1, r.2.2 + 1)) ∧
          index + 1 ≤ index + (mem (p_advdata.p_data + index) % 256 + 1) := by
  constructor
  · obtain ⟨r, hr, hb⟩ := parse_terminates mem type p_advdata p_typedata h16
      p_advdata.data_len 0 (by omega) (by omega)
    exact ⟨r, hr, by simpa using hb⟩
  · intro fuel index hlt ht
    have hfl : mem (p_advdata.p_data + index) % 256 < 256 := Nat.mod_lt _ (by norm_num)
    have hmod : (index + (mem (p_advdata.p_data + index) % 256 + 1)) % 2 ^ 32 =
        index + (mem (p_advdata.p_data + index) % 256 + 1) :=
      Nat.mod_eq_of_lt (by norm_num; omega)
    refine ⟨?_, by omega⟩
    simp only [adv_report_parse_loop, hlt, if_true, if_neg ht, hmod]

/-- Witness for C30: a report of three zero bytes (three zero-length fields of
type 0) searched for the type 3 is given up after three runs of the loop
body. -/
theorem parse_returns_witness :
    (3 : Nat) < 65536 ∧
      adv_report_parse 3 (fun _ => 0) 3 { p_data := 0, data_len := 3 }
          { p_data := 77, data_len := 7 } =
        some (NRF_ERROR_NOT_FOUND, { p_data := 77, data_len := 7 }, 3) ∧
      ∃ r, adv_report_parse 3 (fun _ => 0) 3 { p_data := 0, data_len := 3 }
          { p_data := 77, data_len := 7 } = some r ∧ r.2.2 ≤ 3 :=
  ⟨by decide, by decide,
    (parse_returns (fun _ => 0) 3 { p_data := 0, data_len := 3 } { p_data := 77, data_len := 7 }
      (by decide)).1⟩


theorem encode_append (a b : List ad_field) : encode (a ++ b) = encode a ++ encode b := by
  induction a with
  | nil => rfl
  | cons f fs ih => simp [encode, ih]

theorem encode_at (pre : List ad_field) (g : ad_field) (tail : List ad_field) :
    (encode (pre ++ g :: tail)).length =
        (encode pre).length + (g.data.length + 2) + (encode tail).length ∧
      (encode (pre ++ g :: tail)).getD (encode pre).length 0 = g.data.length + 1 ∧
      (encode (pre ++ g :: tail)).getD ((encode pre).length + 1) 0 = g.type ∧
      ∀ j, j < g.data.length →
        (encode (pre ++ g :: tail)).getD ((encode pre).length + 2 + j) 0 = g.data.getD j 0 := by
  rw [encode_append]
  have he : encode (g :: tail) = (g.data.length + 1) :: g.type :: (g.data ++ encode tail) := rfl
  refine ⟨?_, ?_, ?_, ?_⟩
  · simp [encode]; omega
  · rw [List.getD_eq_getElem?_getD, List.getElem?_append_right (Nat.le_refl _), Nat.sub_self,
      he]
    rfl
  · rw [List.getD_eq_getElem?_getD, List.getElem?_append_right (Nat.le_add_right _ 1),
      Nat.add_sub_cancel_left, he]
    simp
  · intro j hj
    have e : (encode pre).length + 2 + j - (encode pre).length = j + 1 + 1 := by omega
    rw [List.getD_eq_getElem?_getD, List.getD_eq_getElem?_getD,
      List.getElem?_append_right (by omega), e, he, List.getElem?_cons_succ,
      List.getElem?_cons_succ, List.getElem?_append_left hj]

theorem parse_step (mem : Nat → Nat) (type base : Nat) (out : data_t) (fields : List ad_field)
    (hwf : ∀ f ∈ fields, f.data.length + 1 < 256 ∧ f.type < 256)
    (hlay : ∀ i, i < (encode fields).length → mem (base + i) = (encode fields).getD i 0)
    (h16 : (encode fields).length < 65536)
    (pre : List ad_field) (g : ad_field) (tail : List ad_field)
    (hfields : fields = pre ++ g :: tail) (fuel : Nat) :
    adv_report_parse_loop mem type { p_data := base, data_len := (encode fields).length } out
        (fuel + 1) (encode pre).length =
      if g.type = type then
        some (NRF_SUCCESS,
          { p_data := base + ((encode pre).length + 2), data_len := g.data.length }, 1)
      else
        (adv_report_parse_loop mem type { p_data := base, data_len := (encode fields).length }
            out fuel (encode (pre ++ [g])).length).map
          fun r => (r.1, r.2.1, r.2.2 + 1) := by
  obtain ⟨hlen, hL, hT, _⟩ := encode_at pre g tail
  rw [← hfields] at hlen hL hT
  obtain ⟨hg1, hg2⟩ := hwf g (by rw [hfields]; simp)
  have hlt : (encode pre).length < (encode fields).length := by omega
  have m0 : mem (base + (encode pre).length) = g.data.length + 1 := by
    rw [hlay _ hlt, hL]
  have m1 : mem (base + ((encode pre).length + 1)) = g.type := by
    rw [hlay _ (by omega), hT]
  have hnew : (encode (pre ++ [g])).length = (encode pre).length + (g.data.length + 1 + 1) := by
    rw [encode_append]; simp [encode]
  simp only [adv_report_parse_loop, hlt, if_true, m0, m1, Nat.mod_eq_of_lt hg1,
    Nat.mod_eq_of_lt hg2]
  by_cases ht : g.type = type
  · simp only [if_pos ht]
    have : (g.data.length + 1 + 65535) % 65536 = g.data.length := by omega
    rw [this]
  · simp only [if_neg ht]
    rw [hnew, Nat.mod_eq_of_lt (by norm_num; omega)]

theorem parse_not_found (mem : Nat → Nat) (type base : Nat) (out : data_t)
    (fields : List ad_field)
    (hwf : ∀ f ∈ fields, f.data.length + 1 < 256 ∧ f.type < 256)
    (hlay : ∀ i, i < (encode fields).length → mem (base + i) = (encode fields).getD i 0)
    (h16 : (encode fields).length < 65536) (rest : List ad_field) :
    ∀ (pre : List ad_field) (fuel : Nat), fields = pre ++ rest → (encode rest).length ≤ fuel →
      (∀ g ∈ rest, g.type ≠ type) →
      adv_report_parse_loop mem type { p_data := base, data_len := (encode fields).length } out
        fuel (encode pre).length = some (NRF_ERROR_NOT_FOUND, out, rest.length) := by
  induction rest with
  | nil =>
    intro pre fuel hf _ _
    have hl : ¬ (encode pre).length < (encode fields).length := by
      rw [hf]; simp
    cases fuel <;> simp only [adv_report_parse_loop, hl, if_false, List.length_nil]
  | cons g tail ih =>
    intro pre fuel hf hfuel hno
    have hfl : 2 + (encode tail).length ≤ fuel := by
      simp only [encode, List.length_cons, List.length_append] at hfuel; omega
    obtain ⟨fuel2, rfl⟩ : ∃ k, fuel = k + 1 := ⟨fuel - 1, by omega⟩
    rw [parse_step mem type base out fields hwf hlay h16 pre g tail hf fuel2,
      if_neg (hno g (by simp)),
      ih (pre ++ [g]) fuel2 (by rw [hf]; simp) (by omega) (fun x hx => hno x (by simp [hx]))]
    rfl

theorem parse_found (mem : Nat → Nat) (type base : Nat) (out : data_t)
    (fields : List ad_field)
    (hwf : ∀ f ∈ fields, f.data.length + 1 < 256 ∧ f.type < 256)
    (hlay : ∀ i, i < (encode fields).length → mem (base + i) = (encode fields).getD i 0)
    (h16 : (encode fields).length < 65536) (f : ad_field) (post : List ad_field)
    (hft : f.type = type) (mid : List ad_field) :
    ∀ (pre : List ad_field) (fuel : Nat), fields = pre ++ (mid ++ f :: post) →
      (encode (mid ++ f :: post)).length ≤ fuel → (∀ g ∈ mid, g.type ≠ type) →
      adv_report_parse_loop mem type { p_data := base, data_len := (encode fields).length } out
          fuel (encode pre).length =
        some (NRF_SUCCESS,
          { p_data := base + ((encode (pre ++ mid)).length + 2), data_len := f.data.length },
          mid.length + 1) := by
  induction mid with
  | nil =>
    intro pre fuel hf hfuel _
    have hfl : 2 ≤ fuel := by
      simp only [List.nil_append, encode, List.length_cons] at hfuel; omega
    obtain ⟨fuel2, rfl⟩ : ∃ k, fuel = k + 1 := ⟨fuel - 1, by omega⟩
    rw [parse_step mem type base out fields hwf hlay h16 pre f post (by simpa using hf) fuel2,
      if_pos hft]
    simp
  | cons g tail ih =>
    intro pre fuel hf hfuel hno
    have hfl : 2 + (encode (tail ++ f :: post)).length ≤ fuel := by
      have he : encode (g :: tail ++ f :: post) =
          (g.data.length + 1) :: g.type :: (g.data ++ encode (tail ++ f :: post)) := rfl
      rw [he] at hfuel
      simp only [List.length_cons, List.length_append] at hfuel
      omega
    obtain ⟨fuel2, rfl⟩ : ∃ k, fuel = k + 1 := ⟨fuel - 1, by omega⟩
    rw [parse_step mem type base out fields hwf hlay h16 pre g (tail ++ f :: post)
        (by simpa using hf) fuel2,
      if_neg (hno g (by simp)),
      ih (pre ++ [g]) fuel2 (by rw [hf]; simp) (by omega) (fun x hx => hno x (by simp [hx]))]
    simp

/-- C24: for a report made of the fields `fields` (each a length byte, 1 + the
number of data bytes, below 256; a type byte; the data bytes) that lies in
memory from `base` on and whose bytes fill `data_len` exactly,
`adv_report_parse` returns `NRF_ERROR_NOT_FOUND` and leaves `*p_typedata` as it
was when no field has the requested type; and when `f` is the first field with
that type, it returns `NRF_SUCCESS` with `p_typedata->p_data` at the data of
`f` (two bytes after the length byte of `f`) and `p_typedata->data_len` the
number of data bytes of `f`, the length byte minus 1.  So it returns
`NRF_SUCCESS` exactly when some field has the requested type. -/
theorem adv_field_lookup (mem : Nat → Nat) (type base : Nat) (out : data_t)
    (fields : List ad_field)
    (hwf : ∀ f ∈ fields, f.data.length + 1 < 256 ∧ f.type < 256)
    (hlay : ∀ i, i < (encode fields).length → mem (base + i) = (encode fields).getD i 0)
    (h16 : (encode fields).length < 65536) :
    ((∀ g ∈ fields, g.type ≠ type) →
        (adv_report_parse (encode fields).length mem type
            { p_data := base, data_len := (encode fields).length } out).map
          (fun r => (r.1, r.2.1)) = some (NRF_ERROR_NOT_FOUND, out)) ∧
      (∀ pre f post, fields = pre ++ f :: post → (∀ g ∈ pre, g.type ≠ type) → f.type = type →
        (adv_report_parse (encode fields).length mem type
            { p_data := base, data_len := (encode fields).length } out).map
          (fun r => (r.1, r.2.1)) =
            some (NRF_SUCCESS,
              { p_data := base + ((encode pre).length + 2), data_len := f.data.length }) ∧
          ∀ j, j < f.data.length →
            mem (base + ((encode pre).length + 2) + j) = f.data.getD j 0) ∧
      ∃ r, adv_report_parse (encode fields).length mem type
          { p_data := base, data_len := (encode fields).length } out = some r ∧
        (r.1 = NRF_SUCCESS ↔ ∃ g ∈ fields, g.type = type) := by
  have hA : (∀ g ∈ fields, g.type ≠ type) →
      adv_report_parse (encode fields).length mem type
        { p_data := base, data_len := (encode fields).length } out =
        some (NRF_ERROR_NOT_FOUND, out, fields.length) := fun hno =>
    parse_not_found mem type base out fields hwf hlay h16 fields [] _ rfl (Nat.le_refl _) hno
  have hB : ∀ pre f post, fields = pre ++ f :: post → (∀ g ∈ pre, g.type ≠ type) →
      f.type = type →
      adv_report_parse (encode fields).length mem type
        { p_data := base, data_len := (encode fields).length } out =
        some (NRF_SUCCESS,
          { p_data := base + ((encode pre).length + 2), data_len := f.data.length },
          pre.length + 1) := by
    intro pre f post hf hno hft
    have := parse_found mem type base out fields hwf hlay h16 f post hft pre []
      (encode fields).length (by simpa using hf) (by rw [hf]) hno
    simpa [adv_report_parse] using this
  refine ⟨fun hno => by rw [hA hno]; rfl, ?_, ?_⟩
  · intro pre f post hf hno hft
    refine ⟨by rw [hB pre f post hf hno hft]; rfl, ?_⟩
    intro j hj
    obtain ⟨hlen, _, _, hD⟩ := encode_at pre f post
    rw [← hf] at hlen hD
    rw [Nat.add_assoc, hlay _ (by omega), hD j hj]
  · by_cases hex : ∃ g ∈ fields, g.type = type
    · obtain ⟨g, hg, hgt⟩ := hex
      have hsome : (fields.find? (fun x => decide (x.type = type))).isSome = true := by
        rw [List.find?_isSome]
        exact ⟨g, hg, by simpa using hgt⟩
      obtain ⟨f, hfind⟩ := Option.isSome_iff_exists.mp hsome
      obtain ⟨hpf, pre, post, hsplit, hpre⟩ := List.find?_eq_some.mp hfind
      refine ⟨_, hB pre f post hsplit (fun x hx => by simpa using hpre x hx)
        (by simpa using hpf), ?_⟩
      exact ⟨fun _ => ⟨g, hg, hgt⟩, fun _ => rfl⟩
    · have hno : ∀ g ∈ fields, g.type ≠ type := fun g hg hgt => hex ⟨g, hg, hgt⟩
      refine ⟨_, hA hno, ?_⟩
      constructor
      · intro h
        have hne : NRF_ERROR_NOT_FOUND ≠ NRF_SUCCESS := by decide
        exact absurd h hne
      · intro h
        exact absurd h hex


/-- Witness for C24: the report `sampleReport` (bytes 2, 1, 6, 3, 3, 0x10, 0x18)
at address 0, searched for the type 0x03: found after two runs of the loop body,
with the data at address 5 and of length 2. -/
theorem adv_field_lookup_witness :
    (∀ f ∈ sampleReport, f.data.length + 1 < 256 ∧ f.type < 256) ∧
      (encode sampleReport).length < 65536 ∧
      adv_report_parse 7 (memOf (encode sampleReport)) 0x03 { p_data := 0, data_len := 7 }
          { p_data := 0, data_len := 0 } =
        some (NRF_SUCCESS, { p_data := 5, data_len := 2 }, 2) ∧
      ((adv_report_parse (encode sampleReport).length (memOf (encode sampleReport)) 0x03
            { p_data := 0, data_len := (encode sampleReport).length }
            { p_data := 0, data_len := 0 }).map
          (fun r => (r.1, r.2.1)) =
            some (NRF_SUCCESS,
              { p_data := 0 + ((encode [({ type := 0x01, data := [0x06] } : ad_field)]).length + 2)
                data_len := ({ type := 0x03, data := [0x10, 0x18] } : ad_field).data.length }) ∧
          ∀ j, j < ({ type := 0x03, data := [0x10, 0x18] } : ad_field).data.length →
            memOf (encode sampleReport)
                (0 + ((encode [({ type := 0x01, data := [0x06] } : ad_field)]).length + 2) + j) =
              ({ type := 0x03, data := [0x10, 0x18] } : ad_field).data.getD j 0) :=
  ⟨by decide, by decide, by decide,
    (adv_field_lookup (memOf (encode sampleReport)) 0x03 0 { p_data := 0, data_len := 0 }
      sampleReport (by decide) (fun i _ => by simp [memOf]) (by decide)).2.1
      [{ type := 0x01, data := [0x06] }] { type := 0x03, data := [0x10, 0x18] } [] rfl
      (by decide) rfl⟩


end BleBpC
